import Mathlib

/-!
Verification of the sportsPredictor repository's specification claims.

The Python sources (NFL/MLB/CFB predictors, the NFL data extractor and
its flat-file parser) are shallowly embedded below.  Machine floats are
modelled as real numbers; Python `int` values as `Int`; Python `dict.get`
with a default as `Option.getD`; a Python function that can raise is
modelled with `Except`; a Python function that can return `None` with
`Option`.  Statistics parsed from the flat file stay in `Rat` (every
arithmetic operation performed on them while parsing is rational), and
are cast to `Real` where the predictors consume them, so that the parser
is executable while the predictors may use the real power function.
-/

namespace SportsPredictor

/-- Shared body of the three modules' `calculate_weighted_average`
functions (NFL/CFB use decay base 1.5, MLB uses 2.0): plain mean for
short lists or when recency weighting is off, otherwise an
exponentially weighted mean with normalized weights. -/
noncomputable def weightedAverageWith (base : ℝ) (values : List ℝ)
    (use_recency_weighting : Bool) : ℝ :=
  if values.isEmpty then 0
  else if use_recency_weighting = false ∨ values.length ≤ 3 then
    values.sum / (values.length : ℝ)
  else
    let weights := (List.range values.length).map
      (fun (i : ℕ) => (1.0 : ℝ) * base ^ ((i : ℝ) / (values.length : ℝ)))
    let total_weight := weights.sum
    let normalized := weights.map (fun w => w / total_weight)
    ((values.zip normalized).map (fun vw => vw.1 * vw.2)).sum

/-- The unnormalized weight list built by `calculate_weighted_average`
for a list of length `n`: `weight = 1.0 * (base ** (i / len(values)))`. -/
noncomputable def decayWeights (base : ℝ) (n : ℕ) : List ℝ :=
  (List.range n).map (fun (i : ℕ) => (1.0 : ℝ) * base ^ ((i : ℝ) / (n : ℝ)))

/-- Unnormalized weight of the most recent value divided by that of the
oldest value, for a list of length `n`. -/
noncomputable def lastToFirstWeightRatio (base : ℝ) (n : ℕ) : ℝ :=
  ((decayWeights base n).getLast?.getD 0) / ((decayWeights base n).head?.getD 0)

/-- Errors a Python function can raise: reading a local variable before
its first assignment (`UnboundLocalError`), dividing by zero
(`ZeroDivisionError`), or reading a dict key that is absent
(`KeyError`). -/
inductive PyErr
  | unboundLocal
  | zeroDivision
  | keyError
deriving DecidableEq

/-- Python `str.lower()`. -/
def pyLower (s : String) : String := ⟨s.data.map Char.toLower⟩

/-- Python `sub in s` on character lists (substring containment). -/
def pyIsInfix (sub : List Char) : List Char → Bool
  | [] => sub.isEmpty
  | c :: rest => sub.isPrefixOf (c :: rest) || pyIsInfix sub rest

/-- Python `sub in s` on strings (substring containment). -/
def pyInStr (sub s : String) : Bool := pyIsInfix sub.data s.data

/-- One line of a text file, without its trailing newline. -/
abbrev Line := List Char

/-- The characters of a string literal. -/
def chrs (s : String) : Line := s.data

/-- Python `str.strip()`: drop leading and trailing whitespace. -/
def pyStrip (l : Line) : Line :=
  ((l.dropWhile Char.isWhitespace).reverse.dropWhile Char.isWhitespace).reverse

/-- Python `'c' in s` for a single character. -/
def pyHasChar (c : Char) (l : Line) : Bool := l.contains c

/-- Python `str.split(sep)` for a one-character separator: split at
every occurrence, keeping empty pieces. -/
def pySplitChar (sep : Char) : Line → List Line
  | [] => [[]]
  | c :: cs =>
    let r := pySplitChar sep cs
    if c = sep then [] :: r
    else
      match r with
      | [] => [[c]]
      | p :: ps => (c :: p) :: ps

/-- Fuelled worker for `pySplitSub`. -/
def pySplitSubAux (sep : Line) : ℕ → Line → List Line
  | 0, l => [l]
  | _ + 1, [] => [[]]
  | fuel + 1, c :: cs =>
    if sep.isPrefixOf (c :: cs) then [] :: pySplitSubAux sep fuel ((c :: cs).drop sep.length)
    else
      match pySplitSubAux sep fuel cs with
      | [] => [[c]]
      | p :: ps => (c :: p) :: ps

/-- Python `str.split(sep)` for a multi-character separator. -/
def pySplitSub (sep l : Line) : List Line :=
  if sep.isEmpty then [l] else pySplitSubAux sep l.length l

/-- Python `str.replace(pat, '')`: remove every occurrence. -/
def pyRemoveSub (pat l : Line) : Line := (pySplitSub pat l).foldr (· ++ ·) []

/-- Python `str.find(c)`: index of the first occurrence, `-1` if
absent. -/
def pyFindChar (l : Line) (c : Char) : ℤ :=
  match l with
  | [] => -1
  | d :: rest =>
    if d = c then 0
    else
      let r := pyFindChar rest c
      if r < 0 then -1 else r + 1

/-- Clamp a Python slice index (negative indices count from the end). -/
def pyNormIdx (n : ℕ) (i : ℤ) : ℕ :=
  if i < 0 then (max (i + (n : ℤ)) 0).toNat else min i.toNat n

/-- Python `l[i:j]`. -/
def pySlice (l : Line) (i j : ℤ) : Line :=
  (l.take (pyNormIdx l.length j)).drop (pyNormIdx l.length i)

/-- Python `l[i:]`. -/
def pySliceFrom (l : Line) (i : ℤ) : Line := pySlice l i (l.length : ℤ)

/-- Numeric value of a digit string (already checked to be digits). -/
def digitsVal : List Char → ℕ :=
  fun l => l.foldl (fun a c => a * 10 + (c.toNat - 48)) 0

/-- Parse a non-empty all-digit string. -/
def digitsToNat? (l : List Char) : Option ℕ :=
  if l ≠ [] ∧ l.all Char.isDigit then some (digitsVal l) else none

/-- Python `int(s)`: optional sign around a digit string, surrounding
whitespace allowed; `none` models the raised `ValueError`. -/
def pyInt (l : Line) : Option ℤ :=
  match pyStrip l with
  | '-' :: ds => (digitsToNat? ds).map (fun n => -(n : ℤ))
  | '+' :: ds => (digitsToNat? ds).map (fun n => (n : ℤ))
  | ds => (digitsToNat? ds).map (fun n => (n : ℤ))

/-- Value of `a.b` as a rational (both parts all digits, not both
empty). -/
def decimalToRat? (a b : List Char) : Option ℚ :=
  if (a ≠ [] ∨ b ≠ []) ∧ a.all Char.isDigit ∧ b.all Char.isDigit then
    some ((digitsVal a : ℚ) + (digitsVal b : ℚ) / ((10 : ℚ) ^ b.length))
  else none

/-- Python `float(s)` on the plain decimal forms this repository's
files contain (optional sign, digits, at most one point); `none` models
the raised `ValueError`. -/
def pyFloat? (l : Line) : Option ℚ :=
  let body := fun (r : Line) =>
    match pySplitChar '.' r with
    | [a] => (digitsToNat? a).map (fun n => (n : ℚ))
    | [a, b] => decimalToRat? a b
    | _ => none
  match pyStrip l with
  | '-' :: r => (body r).map Neg.neg
  | '+' :: r => body r
  | r => body r

/-- Fuelled worker for `natToChars` (any fuel at least the number
itself is enough). -/
def natToCharsF : ℕ → ℕ → List Char
  | 0, n => [Char.ofNat (48 + n % 10)]
  | fuel + 1, n =>
    if n < 10 then [Char.ofNat (48 + n)]
    else natToCharsF fuel (n / 10) ++ [Char.ofNat (48 + n % 10)]

/-- Canonical decimal rendering of a natural number. -/
def natToChars (n : ℕ) : List Char := natToCharsF n n

/-- Python `dict.get(key, default)` on a stat bag entry, cast to the
reals on use. -/
def statR (o : Option ℚ) (d : ℚ) : ℝ := ((o.getD d : ℚ) : ℝ)

namespace NFL

/-- src/NFL/predictor.py `calculate_weighted_average` (decay base 1.5). -/
noncomputable def calculate_weighted_average (values : List ℝ)
    (use_recency_weighting : Bool := true) : ℝ :=
  weightedAverageWith 1.5 values use_recency_weighting

/-- The `qb_stats` dict built by `read_nfl_data` when a QB line parses. -/
structure QBStats where
  comp_att : List Char
  yards : ℤ
  tds : ℤ
  ints : ℤ
  ypa : ℚ
  rating : ℚ

/-- The `off_stats`/`def_stats` dict built by `read_nfl_data`; a key is
absent (`none`) when the corresponding stat line or marker was missing. -/
structure TeamStats where
  totalYards : Option ℚ := none
  yardsPerPlay : Option ℚ := none
  possession : Option ℚ := none
  passingYards : Option ℚ := none
  completionRate : Option ℚ := none
  rushingYards : Option ℚ := none
  rushingAvg : Option ℚ := none
  firstDowns : Option ℚ := none
  thirdDownRate : Option ℚ := none
  fourthDownRate : Option ℚ := none
  redZoneRate : Option ℚ := none
  turnovers : Option ℚ := none
  interceptions : Option ℚ := none
  fumbles : Option ℚ := none
  sacks : Option ℚ := none
  penalties : Option ℚ := none

/-- One team's perspective of a completed game, as appended to
`teams_data[team]` by `read_nfl_data`.  `qb_stats` is `none` when the
dict is missing or empty (Python falsy). -/
structure GameRecord where
  opponent : String
  location : String
  result : String
  score_for : ℤ
  score_against : ℤ
  point_diff : ℤ
  preseason : Bool
  off_stats : TeamStats
  def_stats : TeamStats
  qb_stats : Option QBStats

/-- `teams_data`: an insertion-ordered mapping from team name to its
chronological list of game records (Python dict). -/
abbrev TeamsData := List (String × List GameRecord)

/-- The mutable locals threaded through the per-game loop of
`calculate_team_averages` (lines 541-619): the value lists being
accumulated, and the loop-carried locals `ypa` and `pts`, which are
unassigned (`none`) until the end of the first iteration. -/
structure LoopVals where
  qb_rating_vals : List ℝ := []
  qb_ypa_vals : List ℝ := []
  qb_td_vals : List ℝ := []
  qb_int_vals : List ℝ := []
  qb_td_int_ratio_vals : List ℝ := []
  ypa_vals : List ℝ := []
  td_int_ratio_vals : List ℝ := []
  sack_rate_vals : List ℝ := []
  epa_proxy_vals : List ℝ := []
  explosive_pass_rate_vals : List ℝ := []
  explosive_run_rate_vals : List ℝ := []
  ypa : Option ℝ := none
  pts : Option ℝ := none

/-- One iteration of the per-game loop of `calculate_team_averages`.
The fallback branch (no usable `qb_stats`) reads the loop-carried
locals `ypa` and `pts`; on the first iteration they are unassigned and
Python raises `UnboundLocalError`.  Both are (re)assigned at the end of
every iteration (the EPA-proxy and explosive-play steps). -/
noncomputable def qbLoopStep (st : LoopVals) (g : GameRecord) : Except PyErr LoopVals :=
  let step1 : Except PyErr LoopVals :=
    match g.qb_stats with
    | some qb =>
      let tds : ℝ := (qb.tds : ℝ)
      let ints : ℝ := (qb.ints : ℝ)
      let td_int_ratio : ℝ := if ints ≥ 0 then tds / (ints + 0.5) else 2.0
      .ok { st with
        qb_rating_vals := st.qb_rating_vals ++ [((qb.rating : ℚ) : ℝ)]
        qb_ypa_vals := st.qb_ypa_vals ++ [((qb.ypa : ℚ) : ℝ)]
        ypa_vals := st.ypa_vals ++ [((qb.ypa : ℚ) : ℝ)]
        qb_td_vals := st.qb_td_vals ++ [tds]
        qb_int_vals := st.qb_int_vals ++ [ints]
        qb_td_int_ratio_vals := st.qb_td_int_ratio_vals ++ [td_int_ratio]
        td_int_ratio_vals := st.td_int_ratio_vals ++ [td_int_ratio] }
    | none =>
      match st.ypa, st.pts with
      | some ypa, some pts =>
        let ints : ℝ := statR g.off_stats.interceptions 0
        let rz_rate : ℝ := statR g.off_stats.redZoneRate 0.5
        let est_tds : ℝ := (pts / 7) * rz_rate
        let td_int_ratio : ℝ := if ints ≥ 0 then est_tds / (ints + 0.5) else 2.0
        .ok { st with
          ypa_vals := st.ypa_vals ++ [ypa]
          qb_ypa_vals := st.qb_ypa_vals ++ [ypa]
          td_int_ratio_vals := st.td_int_ratio_vals ++ [td_int_ratio]
          qb_td_int_ratio_vals := st.qb_td_int_ratio_vals ++ [td_int_ratio]
          qb_rating_vals := st.qb_rating_vals ++ [85.0] }
      | _, _ => .error PyErr.unboundLocal
  match step1 with
  | .error e => .error e
  | .ok st =>
  let pass_yds : ℝ := statR g.off_stats.passingYards 0
  let comp_rate : ℝ := statR g.off_stats.completionRate 0
  let sacks_allowed : ℝ := statR g.def_stats.sacks 0
  let sack_rate : ℝ :=
    if comp_rate > 0 then
      let attempts := pass_yds / (comp_rate * 7.5)
      if attempts + sacks_allowed > 0 then sacks_allowed / (attempts + sacks_allowed) else 0
    else 0
  let pts : ℝ := (g.score_for : ℝ)
  let ypp : ℝ := statR g.off_stats.yardsPerPlay 5.5
  let total_yds : ℝ := statR g.off_stats.totalYards 0
  let plays : ℝ := if ypp > 0 then total_yds / ypp else 60
  let epa_proxy : ℝ := if plays > 0 then (pts - 22) / plays else 0
  let ypa : ℝ :=
    if comp_rate > 0 then
      let attempts := pass_yds / (comp_rate * 7.5)
      if attempts > 0 then pass_yds / attempts else 0
    else 0
  let explosive_pass_pct : ℝ :=
    if comp_rate > 0 ∧ ypa > 0 then min (ypa / 12.0) 0.3 else 0
  let rush_avg : ℝ := statR g.off_stats.rushingAvg 0
  let explosive_run_pct : ℝ :=
    if rush_avg > 4.5 then min (rush_avg / 8.0) 0.25 else 0.05
  .ok { st with
    sack_rate_vals := st.sack_rate_vals ++ [sack_rate]
    epa_proxy_vals := st.epa_proxy_vals ++ [epa_proxy]
    explosive_pass_rate_vals := st.explosive_pass_rate_vals ++ [explosive_pass_pct]
    explosive_run_rate_vals := st.explosive_run_rate_vals ++ [explosive_run_pct]
    ypa := some ypa
    pts := some pts }

/-- The whole per-game loop of `calculate_team_averages`. -/
noncomputable def qbLoop : List GameRecord → LoopVals → Except PyErr LoopVals
  | [], st => .ok st
  | g :: gs, st =>
    match qbLoopStep st g with
    | .error e => .error e
    | .ok st' => qbLoop gs st'

/-- Offensive averages bag of the record returned by
`calculate_team_averages`. -/
structure Offense where
  yards_per_play : ℝ
  total_yards : ℝ
  points_scored : ℝ
  third_down_rate : ℝ
  fourth_down_rate : ℝ
  red_zone_rate : ℝ
  turnovers : ℝ
  interceptions_thrown : ℝ
  fumbles_lost : ℝ
  rushing_yards : ℝ
  rushing_avg : ℝ
  passing_yards : ℝ
  completion_rate : ℝ
  yards_per_attempt : ℝ
  td_int_ratio : ℝ
  sack_rate : ℝ
  sacks_made : ℝ
  penalties : ℝ
  epa_proxy : ℝ
  explosive_pass_rate : ℝ
  explosive_run_rate : ℝ
  qb_rating : ℝ
  qb_tds_per_game : ℝ
  qb_ints_per_game : ℝ

/-- Defensive averages bag of the record returned by
`calculate_team_averages`. -/
structure Defense where
  yards_allowed : ℝ
  yards_per_play_allowed : ℝ
  points_allowed : ℝ
  sacks_allowed : ℝ
  rushing_yards_allowed : ℝ
  rushing_avg_allowed : ℝ
  passing_yards_allowed : ℝ
  completion_allowed : ℝ
  red_zone_allowed : ℝ
  third_down_allowed : ℝ
  interceptions_forced : ℝ
  explosive_pass_allowed : ℝ
  explosive_run_allowed : ℝ

/-- The `recent_form` sub-record. -/
structure RecentForm where
  wins : ℕ
  games : ℕ
  win_rate : ℝ
  points_scored : ℝ
  points_allowed : ℝ

/-- The `close_games` sub-record. -/
structure CloseGames where
  total : ℕ
  wins : ℕ
  win_rate : ℝ

/-- The `splits` sub-record. -/
structure Splits where
  home_win_rate : ℝ
  away_win_rate : ℝ
  home_advantage : ℝ

/-- The record returned by `calculate_team_averages`. -/
structure TeamAverages where
  games_played : ℕ
  wins : ℕ
  win_rate : ℝ
  pythagorean_win_rate : ℝ
  offense : Offense
  defense : Defense
  recent_form : RecentForm
  close_games : CloseGames
  splits : Splits
  turnover_margin : ℝ

/-- src/NFL/predictor.py `calculate_team_averages` (lines 494-795).
Returns `none` when the team is missing or has no (regular-season)
games; raises (`Except.error`) when the per-game loop reads `ypa`/`pts`
unassigned, or when the Pythagorean denominator is zero
(`ZeroDivisionError`; for the negative totals Python would turn complex
this real-power model is only relied on for non-negative totals). -/
noncomputable def calculate_team_averages (team : String) (teams_data : TeamsData)
    (regular_only : Bool := true) : Except PyErr (Option TeamAverages) :=
  match teams_data.lookup team with
  | none => .ok none
  | some games0 =>
    let games := if regular_only then games0.filter (fun g => !g.preseason) else games0
    if games.isEmpty then .ok none
    else
      let yards_per_play_vals := games.map (fun g => statR g.off_stats.yardsPerPlay 0)
      let total_yards_vals := games.map (fun g => statR g.off_stats.totalYards 0)
      let points_scored_vals := games.map (fun g => (g.score_for : ℝ))
      let third_down_vals := games.map (fun g => statR g.off_stats.thirdDownRate 0)
      let fourth_down_vals := games.map (fun g => statR g.off_stats.fourthDownRate 0)
      let red_zone_vals := games.map (fun g => statR g.off_stats.redZoneRate 0)
      let turnovers_vals := games.map (fun g => statR g.off_stats.turnovers 0)
      let interceptions_vals := games.map (fun g => statR g.off_stats.interceptions 0)
      let fumbles_vals := games.map (fun g => statR g.off_stats.fumbles 0)
      let rushing_vals := games.map (fun g => statR g.off_stats.rushingYards 0)
      let rushing_avg_vals := games.map (fun g => statR g.off_stats.rushingAvg 0)
      let passing_vals := games.map (fun g => statR g.off_stats.passingYards 0)
      let completion_vals := games.map (fun g => statR g.off_stats.completionRate 0)
      let sacks_vals := games.map (fun g => statR g.off_stats.sacks 0)
      let penalties_vals := games.map (fun g => statR g.off_stats.penalties 0)
      match qbLoop games {} with
      | .error e => .error e
      | .ok lv =>
        let yards_allowed_vals := games.map (fun g => statR g.def_stats.totalYards 0)
        let yards_per_play_allowed_vals := games.map (fun g => statR g.def_stats.yardsPerPlay 0)
        let points_allowed_vals := games.map (fun g => (g.score_against : ℝ))
        let rushing_allowed_vals := games.map (fun g => statR g.def_stats.rushingYards 0)
        let rushing_avg_allowed_vals := games.map (fun g => statR g.def_stats.rushingAvg 0)
        let passing_allowed_vals := games.map (fun g => statR g.def_stats.passingYards 0)
        let completion_allowed_vals := games.map (fun g => statR g.def_stats.completionRate 0)
        let sacks_allowed_vals := games.map (fun g => statR g.def_stats.sacks 0)
        let red_zone_allowed_vals := games.map (fun g => statR g.def_stats.redZoneRate 0)
        let third_down_allowed_vals := games.map (fun g => statR g.def_stats.thirdDownRate 0)
        let interceptions_forced_vals := games.map (fun g => statR g.def_stats.interceptions 0)
        let explosive_pass_allowed_vals := games.map (fun g =>
          let opp_pass_yds := statR g.def_stats.passingYards 0
          let opp_comp_rate := statR g.def_stats.completionRate 0
          if opp_comp_rate > 0 then
            let opp_attempts := opp_pass_yds / (opp_comp_rate * 7.5)
            let opp_ypa := if opp_attempts > 0 then opp_pass_yds / opp_attempts else 0
            min (opp_ypa / 12.0) 0.3
          else 0)
        let explosive_run_allowed_vals := games.map (fun g =>
          let opp_rush_avg := statR g.def_stats.rushingAvg 0
          if opp_rush_avg > 4.5 then min (opp_rush_avg / 8.0) 0.25 else 0.05)
        let avg_yards_per_play := calculate_weighted_average yards_per_play_vals
        let avg_total_yards := calculate_weighted_average total_yards_vals
        let avg_points_scored := calculate_weighted_average points_scored_vals
        let avg_third_down := calculate_weighted_average third_down_vals
        let avg_fourth_down := calculate_weighted_average fourth_down_vals
        let avg_red_zone := calculate_weighted_average red_zone_vals
        let avg_turnovers_committed := calculate_weighted_average turnovers_vals
        let avg_interceptions_thrown := calculate_weighted_average interceptions_vals
        let avg_fumbles_lost := calculate_weighted_average fumbles_vals
        let avg_rushing_yards := calculate_weighted_average rushing_vals
        let avg_rushing_avg := calculate_weighted_average rushing_avg_vals
        let avg_passing_yards := calculate_weighted_average passing_vals
        let avg_completion_rate := calculate_weighted_average completion_vals
        let avg_sacks_made := calculate_weighted_average sacks_vals
        let avg_penalties := calculate_weighted_average penalties_vals
        let avg_qb_rating := calculate_weighted_average lv.qb_rating_vals
        let avg_qb_ypa := calculate_weighted_average lv.qb_ypa_vals
        let avg_qb_tds := if lv.qb_td_vals.isEmpty then 0 else calculate_weighted_average lv.qb_td_vals
        let avg_qb_ints := if lv.qb_int_vals.isEmpty then 0 else calculate_weighted_average lv.qb_int_vals
        let avg_qb_td_int_ratio := calculate_weighted_average lv.qb_td_int_ratio_vals
        let avg_yards_per_attempt := if avg_qb_ypa > 0 then avg_qb_ypa else calculate_weighted_average lv.ypa_vals
        let avg_td_int_ratio := if avg_qb_td_int_ratio > 0 then avg_qb_td_int_ratio else calculate_weighted_average lv.td_int_ratio_vals
        let avg_sack_rate := calculate_weighted_average lv.sack_rate_vals
        let avg_epa_proxy := calculate_weighted_average lv.epa_proxy_vals
        let avg_explosive_pass_rate := calculate_weighted_average lv.explosive_pass_rate_vals
        let avg_explosive_run_rate := calculate_weighted_average lv.explosive_run_rate_vals
        let avg_yards_allowed := calculate_weighted_average yards_allowed_vals
        let avg_yards_per_play_allowed := calculate_weighted_average yards_per_play_allowed_vals
        let avg_points_allowed := calculate_weighted_average points_allowed_vals
        let avg_rushing_yards_allowed := calculate_weighted_average rushing_allowed_vals
        let avg_rushing_avg_allowed := calculate_weighted_average rushing_avg_allowed_vals
        let avg_passing_yards_allowed := calculate_weighted_average passing_allowed_vals
        let avg_completion_allowed := calculate_weighted_average completion_allowed_vals
        let avg_sacks_allowed := calculate_weighted_average sacks_allowed_vals
        let avg_red_zone_allowed := calculate_weighted_average red_zone_allowed_vals
        let avg_third_down_allowed := calculate_weighted_average third_down_allowed_vals
        let avg_interceptions_forced := calculate_weighted_average interceptions_forced_vals
        let recent_games := if games.length ≥ 3 then games.drop (games.length - 3) else games
        let recent_wins := recent_games.countP (fun g => g.result == "W")
        let recent_points_scored := (recent_games.map (fun g => (g.score_for : ℝ))).sum / (recent_games.length : ℝ)
        let recent_points_allowed := (recent_games.map (fun g => (g.score_against : ℝ))).sum / (recent_games.length : ℝ)
        let wins := games.countP (fun g => g.result == "W")
        let close_games := games.filter (fun g => decide (|g.score_for - g.score_against| ≤ 7))
        let close_game_wins := close_games.countP (fun g => g.result == "W")
        let close_game_rate : ℝ := if close_games.isEmpty then 0.5 else (close_game_wins : ℝ) / (close_games.length : ℝ)
        let home_games := games.filter (fun g => g.location == "home")
        let away_games := games.filter (fun g => g.location == "away")
        let home_wins := home_games.countP (fun g => g.result == "W")
        let away_wins := away_games.countP (fun g => g.result == "W")
        let home_win_rate : ℝ := if home_games.isEmpty then 0.5 else (home_wins : ℝ) / (home_games.length : ℝ)
        let away_win_rate : ℝ := if away_games.isEmpty then 0.5 else (away_wins : ℝ) / (away_games.length : ℝ)
        let total_points_scored := points_scored_vals.sum
        let total_points_allowed := points_allowed_vals.sum
        let pyth_den := total_points_scored ^ (2.37 : ℝ) + total_points_allowed ^ (2.37 : ℝ)
        if pyth_den = 0 then .error PyErr.zeroDivision
        else
          let pythagorean_exp := total_points_scored ^ (2.37 : ℝ) / pyth_den
          let takeaways := avg_interceptions_forced
          let giveaways := avg_turnovers_committed
          let turnover_margin := takeaways - giveaways
          .ok (some {
            games_played := games.length
            wins := wins
            win_rate := (wins : ℝ) / (games.length : ℝ)
            pythagorean_win_rate := pythagorean_exp
            offense := {
              yards_per_play := avg_yards_per_play
              total_yards := avg_total_yards
              points_scored := avg_points_scored
              third_down_rate := avg_third_down
              fourth_down_rate := avg_fourth_down
              red_zone_rate := avg_red_zone
              turnovers := avg_turnovers_committed
              interceptions_thrown := avg_interceptions_thrown
              fumbles_lost := avg_fumbles_lost
              rushing_yards := avg_rushing_yards
              rushing_avg := avg_rushing_avg
              passing_yards := avg_passing_yards
              completion_rate := avg_completion_rate
              yards_per_attempt := avg_yards_per_attempt
              td_int_ratio := avg_td_int_ratio
              sack_rate := avg_sack_rate
              sacks_made := avg_sacks_made
              penalties := avg_penalties
              epa_proxy := avg_epa_proxy
              explosive_pass_rate := avg_explosive_pass_rate
              explosive_run_rate := avg_explosive_run_rate
              qb_rating := avg_qb_rating
              qb_tds_per_game := avg_qb_tds
              qb_ints_per_game := avg_qb_ints }
            defense := {
              yards_allowed := avg_yards_allowed
              yards_per_play_allowed := avg_yards_per_play_allowed
              points_allowed := avg_points_allowed
              sacks_allowed := avg_sacks_allowed
              rushing_yards_allowed := avg_rushing_yards_allowed
              rushing_avg_allowed := avg_rushing_avg_allowed
              passing_yards_allowed := avg_passing_yards_allowed
              completion_allowed := avg_completion_allowed
              red_zone_allowed := avg_red_zone_allowed
              third_down_allowed := avg_third_down_allowed
              interceptions_forced := avg_interceptions_forced
              explosive_pass_allowed := calculate_weighted_average explosive_pass_allowed_vals
              explosive_run_allowed := calculate_weighted_average explosive_run_allowed_vals }
            recent_form := {
              wins := recent_wins
              games := recent_games.length
              win_rate := (recent_wins : ℝ) / (recent_games.length : ℝ)
              points_scored := recent_points_scored
              points_allowed := recent_points_allowed }
            close_games := {
              total := close_games.length
              wins := close_game_wins
              win_rate := close_game_rate }
            splits := {
              home_win_rate := home_win_rate
              away_win_rate := away_win_rate
              home_advantage := home_win_rate - away_win_rate }
            turnover_margin := turnover_margin })

end NFL

namespace MLB

/-- src/MLB/predictor.py `calculate_weighted_average` (decay base 2.0). -/
noncomputable def calculate_weighted_average (values : List ℝ)
    (use_recency_weighting : Bool := true) : ℝ :=
  weightedAverageWith 2.0 values use_recency_weighting

/-- The `batting_stats`/`opponent_batting` dict built by
`read_mlb_data`; a key is absent (`none`) when its stat line or marker
was missing. -/
structure BattingStats where
  runs : Option ℚ := none
  hits : Option ℚ := none
  errors : Option ℚ := none
  avg : Option ℚ := none
  obp : Option ℚ := none
  slg : Option ℚ := none
  hr : Option ℚ := none
  rbi : Option ℚ := none
  lob : Option ℚ := none

/-- One team's perspective of a completed MLB game, as appended to
`teams_data[team]` by `read_mlb_data`. -/
structure GameRecord where
  opponent : String
  location : String
  result : String
  runs_for : ℤ
  runs_against : ℤ
  date : String
  batting_stats : BattingStats
  opponent_batting : BattingStats

/-- `teams_data` for the MLB module. -/
abbrev TeamsData := List (String × List GameRecord)

/-- The `batting` bag of the record returned by
`calculate_team_averages`. -/
structure Batting where
  runs_per_game : ℝ
  avg : ℝ
  obp : ℝ
  slg : ℝ
  ops : ℝ
  hr_per_game : ℝ
  hits_per_game : ℝ

/-- The `pitching` bag of the record returned by
`calculate_team_averages`. -/
structure Pitching where
  runs_allowed_per_game : ℝ
  hits_allowed_per_game : ℝ
  errors_per_game : ℝ

/-- The `recent_form` sub-record (last 10 games in baseball). -/
structure RecentForm where
  wins : ℕ
  games : ℕ
  win_rate : ℝ
  runs_scored : ℝ
  runs_allowed : ℝ

/-- The `splits` sub-record. -/
structure Splits where
  home_win_rate : ℝ
  away_win_rate : ℝ
  home_advantage : ℝ

/-- The record returned by the MLB `calculate_team_averages`. -/
structure TeamAverages where
  games_played : ℕ
  wins : ℕ
  win_rate : ℝ
  pythagorean_win_rate : ℝ
  batting : Batting
  pitching : Pitching
  recent_form : RecentForm
  splits : Splits
  run_differential : ℝ

/-- src/MLB/predictor.py `calculate_team_averages` (lines 284-381).
Returns `none` for a missing team or an empty game list; raises
(`Except.error`) when the Pythagorean denominator is zero. -/
noncomputable def calculate_team_averages (team : String) (teams_data : TeamsData) :
    Except PyErr (Option TeamAverages) :=
  match teams_data.lookup team with
  | none => .ok none
  | some games =>
    if games.isEmpty then .ok none
    else
      let runs_scored_vals := games.map (fun g => (g.runs_for : ℝ))
      let runs_allowed_vals := games.map (fun g => (g.runs_against : ℝ))
      let hits_vals := games.map (fun g => statR g.batting_stats.hits 0)
      let errors_vals := games.map (fun g => statR g.batting_stats.errors 0)
      let avg_vals := games.map (fun g => statR g.batting_stats.avg 0)
      let obp_vals := games.map (fun g => statR g.batting_stats.obp 0)
      let slg_vals := games.map (fun g => statR g.batting_stats.slg 0)
      let hr_vals := games.map (fun g => statR g.batting_stats.hr 0)
      let opp_hits_vals := games.map (fun g => statR g.opponent_batting.hits 0)
      let avg_runs_scored := calculate_weighted_average runs_scored_vals
      let avg_runs_allowed := calculate_weighted_average runs_allowed_vals
      let avg_hits := calculate_weighted_average hits_vals
      let avg_errors := calculate_weighted_average errors_vals
      let avg_batting_avg := calculate_weighted_average avg_vals
      let avg_obp := calculate_weighted_average obp_vals
      let avg_slg := calculate_weighted_average slg_vals
      let avg_hr := calculate_weighted_average hr_vals
      let avg_opp_hits := calculate_weighted_average opp_hits_vals
      let avg_ops := avg_obp + avg_slg
      let recent_games := if games.length ≥ 10 then games.drop (games.length - 10) else games
      let recent_wins := recent_games.countP (fun g => g.result == "W")
      let recent_runs_scored := (recent_games.map (fun g => (g.runs_for : ℝ))).sum / (recent_games.length : ℝ)
      let recent_runs_allowed := (recent_games.map (fun g => (g.runs_against : ℝ))).sum / (recent_games.length : ℝ)
      let wins := games.countP (fun g => g.result == "W")
      let home_games := games.filter (fun g => g.location == "home")
      let away_games := games.filter (fun g => g.location == "away")
      let home_wins := home_games.countP (fun g => g.result == "W")
      let away_wins := away_games.countP (fun g => g.result == "W")
      let home_win_rate : ℝ := if home_games.isEmpty then 0.5 else (home_wins : ℝ) / (home_games.length : ℝ)
      let away_win_rate : ℝ := if away_games.isEmpty then 0.5 else (away_wins : ℝ) / (away_games.length : ℝ)
      let total_runs_scored := runs_scored_vals.sum
      let total_runs_allowed := runs_allowed_vals.sum
      let pyth_den := total_runs_scored ^ (1.83 : ℝ) + total_runs_allowed ^ (1.83 : ℝ)
      if pyth_den = 0 then .error PyErr.zeroDivision
      else
        let pythagorean_exp := total_runs_scored ^ (1.83 : ℝ) / pyth_den
        let run_differential := avg_runs_scored - avg_runs_allowed
        .ok (some {
          games_played := games.length
          wins := wins
          win_rate := (wins : ℝ) / (games.length : ℝ)
          pythagorean_win_rate := pythagorean_exp
          batting := {
            runs_per_game := avg_runs_scored
            avg := avg_batting_avg
            obp := avg_obp
            slg := avg_slg
            ops := avg_ops
            hr_per_game := avg_hr
            hits_per_game := avg_hits }
          pitching := {
            runs_allowed_per_game := avg_runs_allowed
            hits_allowed_per_game := avg_opp_hits
            errors_per_game := avg_errors }
          recent_form := {
            wins := recent_wins
            games := recent_games.length
            win_rate := (recent_wins : ℝ) / (recent_games.length : ℝ)
            runs_scored := recent_runs_scored
            runs_allowed := recent_runs_allowed }
          splits := {
            home_win_rate := home_win_rate
            away_win_rate := away_win_rate
            home_advantage := home_win_rate - away_win_rate }
          run_differential := run_differential })

end MLB

namespace CFB

/-- src/CFB/predictor.py `calculate_weighted_average` (decay base 1.5). -/
noncomputable def calculate_weighted_average (values : List ℝ)
    (use_recency_weighting : Bool := true) : ℝ :=
  weightedAverageWith 1.5 values use_recency_weighting

/-- The CFB `off_stats`/`def_stats` dict; only the keys the CFB
`calculate_team_averages` reads are modelled. -/
structure TeamStats where
  totalYards : Option ℚ := none
  yardsPerPlay : Option ℚ := none
  thirdDownRate : Option ℚ := none
  turnovers : Option ℚ := none
  rushingYards : Option ℚ := none
  passingYards : Option ℚ := none
  sacks : Option ℚ := none

/-- One team's perspective of a completed CFB game, as appended to
`teams_data[team]` by `read_cfb_data`. -/
structure GameRecord where
  opponent : String
  location : String
  result : String
  score_for : ℤ
  score_against : ℤ
  point_diff : ℤ
  postseason : Bool
  off_stats : TeamStats
  def_stats : TeamStats

/-- `teams_data` for the CFB module. -/
abbrev TeamsData := List (String × List GameRecord)

/-- The `offense` bag of the CFB averages record. -/
structure Offense where
  yards_per_play : ℝ
  total_yards : ℝ
  points_scored : ℝ
  third_down_rate : ℝ
  turnovers : ℝ
  rushing_yards : ℝ
  passing_yards : ℝ
  sacks_made : ℝ

/-- The `defense` bag of the CFB averages record. -/
structure Defense where
  yards_allowed : ℝ
  yards_per_play_allowed : ℝ
  points_allowed : ℝ
  sacks_allowed : ℝ
  rushing_yards_allowed : ℝ
  passing_yards_allowed : ℝ

/-- The record returned by the CFB `calculate_team_averages`. -/
structure TeamAverages where
  games_played : ℕ
  wins : ℕ
  win_rate : ℝ
  pythagorean_win_rate : ℝ
  offense : Offense
  defense : Defense
  recent_form : NFL.RecentForm
  close_games : NFL.CloseGames
  splits : NFL.Splits
  turnover_margin : ℝ

/-- src/CFB/predictor.py `calculate_team_averages` (lines 316-440).
Returns `none` for a missing team or an empty game list; raises
(`Except.error`) when the Pythagorean denominator is zero. -/
noncomputable def calculate_team_averages (team : String) (teams_data : TeamsData)
    (exclude_postseason : Bool := false) : Except PyErr (Option TeamAverages) :=
  match teams_data.lookup team with
  | none => .ok none
  | some games0 =>
    let games := if exclude_postseason then games0.filter (fun g => !g.postseason) else games0
    if games.isEmpty then .ok none
    else
      let yards_per_play_vals := games.map (fun g => statR g.off_stats.yardsPerPlay 0)
      let total_yards_vals := games.map (fun g => statR g.off_stats.totalYards 0)
      let points_scored_vals := games.map (fun g => (g.score_for : ℝ))
      let third_down_vals := games.map (fun g => statR g.off_stats.thirdDownRate 0)
      let turnovers_vals := games.map (fun g => statR g.off_stats.turnovers 0)
      let rushing_vals := games.map (fun g => statR g.off_stats.rushingYards 0)
      let passing_vals := games.map (fun g => statR g.off_stats.passingYards 0)
      let sacks_vals := games.map (fun g => statR g.off_stats.sacks 0)
      let yards_allowed_vals := games.map (fun g => statR g.def_stats.totalYards 0)
      let yards_per_play_allowed_vals := games.map (fun g => statR g.def_stats.yardsPerPlay 0)
      let points_allowed_vals := games.map (fun g => (g.score_against : ℝ))
      let rushing_allowed_vals := games.map (fun g => statR g.def_stats.rushingYards 0)
      let passing_allowed_vals := games.map (fun g => statR g.def_stats.passingYards 0)
      let sacks_allowed_vals := games.map (fun g => statR g.def_stats.sacks 0)
      let avg_yards_per_play := calculate_weighted_average yards_per_play_vals
      let avg_total_yards := calculate_weighted_average total_yards_vals
      let avg_points_scored := calculate_weighted_average points_scored_vals
      let avg_third_down := calculate_weighted_average third_down_vals
      let avg_turnovers_committed := calculate_weighted_average turnovers_vals
      let avg_rushing_yards := calculate_weighted_average rushing_vals
      let avg_passing_yards := calculate_weighted_average passing_vals
      let avg_sacks_made := calculate_weighted_average sacks_vals
      let avg_yards_allowed := calculate_weighted_average yards_allowed_vals
      let avg_yards_per_play_allowed := calculate_weighted_average yards_per_play_allowed_vals
      let avg_points_allowed := calculate_weighted_average points_allowed_vals
      let avg_rushing_yards_allowed := calculate_weighted_average rushing_allowed_vals
      let avg_passing_yards_allowed := calculate_weighted_average passing_allowed_vals
      let avg_sacks_allowed := calculate_weighted_average sacks_allowed_vals
      let recent_games := if games.length ≥ 3 then games.drop (games.length - 3) else games
      let recent_wins := recent_games.countP (fun g => g.result == "W")
      let recent_points_scored := (recent_games.map (fun g => (g.score_for : ℝ))).sum / (recent_games.length : ℝ)
      let recent_points_allowed := (recent_games.map (fun g => (g.score_against : ℝ))).sum / (recent_games.length : ℝ)
      let wins := games.countP (fun g => g.result == "W")
      let close_games := games.filter (fun g => decide (|g.score_for - g.score_against| ≤ 7))
      let close_game_wins := close_games.countP (fun g => g.result == "W")
      let close_game_rate : ℝ := if close_games.isEmpty then 0.5 else (close_game_wins : ℝ) / (close_games.length : ℝ)
      let home_games := games.filter (fun g => g.location == "home")
      let away_games := games.filter (fun g => g.location == "away")
      let home_wins := home_games.countP (fun g => g.result == "W")
      let away_wins := away_games.countP (fun g => g.result == "W")
      let home_win_rate : ℝ := if home_games.isEmpty then 0.5 else (home_wins : ℝ) / (home_games.length : ℝ)
      let away_win_rate : ℝ := if away_games.isEmpty then 0.5 else (away_wins : ℝ) / (away_games.length : ℝ)
      let total_points_scored := points_scored_vals.sum
      let total_points_allowed := points_allowed_vals.sum
      let pyth_den := total_points_scored ^ (2.37 : ℝ) + total_points_allowed ^ (2.37 : ℝ)
      if pyth_den = 0 then .error PyErr.zeroDivision
      else
        let pythagorean_exp := total_points_scored ^ (2.37 : ℝ) / pyth_den
        let takeaways := avg_sacks_made
        let giveaways := avg_turnovers_committed
        let turnover_margin := takeaways - giveaways
        .ok (some {
          games_played := games.length
          wins := wins
          win_rate := (wins : ℝ) / (games.length : ℝ)
          pythagorean_win_rate := pythagorean_exp
          offense := {
            yards_per_play := avg_yards_per_play
            total_yards := avg_total_yards
            points_scored := avg_points_scored
            third_down_rate := avg_third_down
            turnovers := avg_turnovers_committed
            rushing_yards := avg_rushing_yards
            passing_yards := avg_passing_yards
            sacks_made := avg_sacks_made }
          defense := {
            yards_allowed := avg_yards_allowed
            yards_per_play_allowed := avg_yards_per_play_allowed
            points_allowed := avg_points_allowed
            sacks_allowed := avg_sacks_allowed
            rushing_yards_allowed := avg_rushing_yards_allowed
            passing_yards_allowed := avg_passing_yards_allowed }
          recent_form := {
            wins := recent_wins
            games := recent_games.length
            win_rate := (recent_wins : ℝ) / (recent_games.length : ℝ)
            points_scored := recent_points_scored
            points_allowed := recent_points_allowed }
          close_games := {
            total := close_games.length
            wins := close_game_wins
            win_rate := close_game_rate }
          splits := {
            home_win_rate := home_win_rate
            away_win_rate := away_win_rate
            home_advantage := home_win_rate - away_win_rate }
          turnover_margin := turnover_margin })

/-- The final-prediction step of the CFB `main` (lines 1280-1294): the
point differential becomes a confidence percentage
`min(diff / 6 * 100, 95)`, with a 50% toss-up on equal totals. -/
noncomputable def confidencePct (home_points away_points : ℝ) : ℝ :=
  if home_points > away_points then min ((home_points - away_points) / 6 * 100) 95
  else if away_points > home_points then min ((away_points - home_points) / 6 * 100) 95
  else 50

end CFB

namespace NFL

/-- The final-prediction step of the NFL `main` (lines 1894-1906): the
point differential becomes a confidence percentage
`min(diff / 6 * 100, 95)`, with a 50% toss-up on equal totals. -/
noncomputable def confidencePct (home_points away_points : ℝ) : ℝ :=
  if home_points > away_points then min ((home_points - away_points) / 6 * 100) 95
  else if away_points > home_points then min ((away_points - home_points) / 6 * 100) 95
  else 50

/-- The record returned by `calculate_bounce_back_probability`. -/
structure BounceBack where
  bounce_back_score : ℝ
  factors : List String
  has_bounce_back_potential : Bool

/-- The first-matching-loss scan of step 3 of
`calculate_bounce_back_probability` (lines 844-861): the first recent
loss in which the team either outgained its opponent by 50+ yards
(worth 1.5) or beat it on yards per play by 0.5+ (worth 1.0). -/
noncomputable def underlyingPerfBonus : List GameRecord → ℝ × List String
  | [] => (0, [])
  | g :: rest =>
    if statR g.off_stats.totalYards 0 > statR g.def_stats.totalYards 0 + 50 then
      (1.5, ["Outgained opponent(s) but lost"])
    else if statR g.off_stats.yardsPerPlay 0 > statR g.def_stats.yardsPerPlay 0 + 0.5 then
      (1.0, ["Better efficiency metrics in loss"])
    else underlyingPerfBonus rest

/-- The first-blowout-loss scan of step 4 of
`calculate_bounce_back_probability` (lines 864-869). -/
noncomputable def blowoutBonus : List GameRecord → ℝ × List String
  | [] => (0, [])
  | g :: rest =>
    if g.score_against - g.score_for ≥ 20 then (0.5, ["Blowout loss (less predictive)"])
    else blowoutBonus rest

/-- src/NFL/predictor.py `calculate_bounce_back_probability`
(lines 798-879). -/
noncomputable def calculate_bounce_back_probability (team : String)
    (teams_data : TeamsData) : BounceBack :=
  match teams_data.lookup team with
  | none => ⟨0, [], false⟩
  | some games0 =>
    let games := games0.filter (fun g => !g.preseason)
    if games.length < 2 then ⟨0, [], false⟩
    else
      let recent_games := if games.length ≥ 3 then games.drop (games.length - 3) else games
      let recent_losses := recent_games.filter (fun g => g.result == "L")
      if recent_losses.length < 2 then ⟨0, [], false⟩
      else
        let p1 : ℝ × List String :=
          match games.getLast? with
          | some last_game =>
            if last_game.result == "L" then
              let last_game_to_margin :=
                statR last_game.off_stats.sacks 0 - statR last_game.off_stats.turnovers 0
              if last_game_to_margin ≤ -2 then (1.5, ["Bad turnover luck in last game"])
              else (0, [])
            else (0, [])
          | none => (0, [])
        let p2 : ℝ × List String :=
          if games.length ≥ 2 then
            let last_2_to_margin := ((games.drop (games.length - 2)).map
              (fun g => statR g.off_stats.sacks 0 - statR g.off_stats.turnovers 0)).sum
            if last_2_to_margin ≤ -3 then (1.0, ["Poor turnover margin last 2 games"])
            else (0, [])
          else (0, [])
        let p3 : ℝ × List String :=
          if recent_games.length ≥ 2 then
            let recent_3rd_down := ((recent_games.map
              (fun g => statR g.off_stats.thirdDownRate 0)).sum) / (recent_games.length : ℝ)
            if recent_3rd_down ≤ 0.25 ∧ recent_3rd_down > 0 then
              (1.0, ["Extreme 3rd down struggles (likely to improve)"])
            else (0, [])
          else (0, [])
        let p4 := underlyingPerfBonus recent_losses
        let p5 := blowoutBonus recent_losses
        let bounce_back_score := p1.1 + p2.1 + p3.1 + p4.1 + p5.1
        { bounce_back_score := bounce_back_score
          factors := p1.2 ++ p2.2 ++ p3.2 ++ p4.2 ++ p5.2
          has_bounce_back_potential := decide (bounce_back_score ≥ 2.0) }

/-- The helper list that `calculate_opponent_quality` builds: each
non-preseason opponent's regular-season win rate (skipping opponents
with no averages).  An opponent whose averages raise propagates the
exception. -/
noncomputable def oppWinRates (teams_data : TeamsData) :
    List GameRecord → Except PyErr (List ℝ)
  | [] => .ok []
  | g :: gs =>
    if !g.preseason then do
      match ← calculate_team_averages g.opponent teams_data true with
      | some opp_avg => (fun r => opp_avg.win_rate :: r) <$> oppWinRates teams_data gs
      | none => oppWinRates teams_data gs
    else oppWinRates teams_data gs

/-- src/NFL/predictor.py `calculate_opponent_quality` (lines 882-901). -/
noncomputable def calculate_opponent_quality (team : String) (teams_data : TeamsData) :
    Except PyErr ℝ :=
  match teams_data.lookup team with
  | none => .ok 0.5
  | some games => do
    let opponent_win_rates ← oppWinRates teams_data games
    if opponent_win_rates.isEmpty then pure 0.5
    else pure (opponent_win_rates.sum / (opponent_win_rates.length : ℝ))

/-- Offensive style labels returned by `classify_offensive_style`. -/
inductive OffStyle
  | run_heavy
  | pass_heavy
  | balanced
deriving DecidableEq

/-- src/NFL/predictor.py `classify_offensive_style` (lines 904-926). -/
noncomputable def classify_offensive_style : Option TeamAverages → OffStyle
  | none => .balanced
  | some team_avg =>
    let rush_yards := team_avg.offense.rushing_yards
    let pass_yards := team_avg.offense.passing_yards
    let total_yards := rush_yards + pass_yards
    if total_yards = 0 then .balanced
    else
      let rush_pct := rush_yards / total_yards
      if rush_pct > 0.55 then .run_heavy
      else if rush_pct < 0.45 then .pass_heavy
      else .balanced

/-- The `matchup_type` argument of `find_similar_matchup_performance`. -/
inductive MatchupType
  | offense
  | defense
deriving DecidableEq

/-- One entry of the `similar_games` list built by
`find_similar_matchup_performance`; in `offense` mode `points`, `yards`
and `ypp` are the team's own, in `defense` mode they are the
points/yards/ypp allowed. -/
structure SimGame where
  opponent : String
  points : ℝ
  yards : ℝ
  ypp : ℝ
  result : String

/-- The record returned by `find_similar_matchup_performance`; in
`defense` mode the `avg_points`/`avg_yards`/`avg_ypp` fields stand for
the keys `avg_points_allowed`/`avg_yards_allowed`/`avg_ypp_allowed`. -/
structure SimPerf where
  games : ℕ
  avg_points : ℝ
  avg_yards : ℝ
  avg_ypp : ℝ
  win_rate : ℝ

/-- The similar-style game scan inside
`find_similar_matchup_performance` (lines 941-970). -/
noncomputable def similarGames (opponent_style : OffStyle) (teams_data : TeamsData)
    (matchup_type : MatchupType) : List GameRecord → Except PyErr (List SimGame)
  | [] => .ok []
  | g :: gs => do
    match ← calculate_team_averages g.opponent teams_data true with
    | none => similarGames opponent_style teams_data matchup_type gs
    | some opp_avg =>
      let opp_style := classify_offensive_style (some opp_avg)
      if opp_style = opponent_style then
        let sg : SimGame :=
          match matchup_type with
          | .offense =>
            { opponent := g.opponent, points := (g.score_for : ℝ)
              yards := statR g.off_stats.totalYards 0
              ypp := statR g.off_stats.yardsPerPlay 0, result := g.result }
          | .defense =>
            { opponent := g.opponent, points := (g.score_against : ℝ)
              yards := statR g.def_stats.totalYards 0
              ypp := statR g.def_stats.yardsPerPlay 0, result := g.result }
        (fun r => sg :: r) <$> similarGames opponent_style teams_data matchup_type gs
      else similarGames opponent_style teams_data matchup_type gs

/-- src/NFL/predictor.py `find_similar_matchup_performance`
(lines 929-991). -/
noncomputable def find_similar_matchup_performance (team : String)
    (opponent_style : OffStyle) (teams_data : TeamsData)
    (matchup_type : MatchupType) : Except PyErr (Option SimPerf) :=
  match teams_data.lookup team with
  | none => .ok none
  | some games0 => do
    let games := games0.filter (fun g => !g.preseason)
    let similar_games ← similarGames opponent_style teams_data matchup_type games
    if similar_games.isEmpty then pure none
    else
      let n : ℝ := (similar_games.length : ℝ)
      pure (some {
        games := similar_games.length
        avg_points := (similar_games.map (fun g => g.points)).sum / n
        avg_yards := (similar_games.map (fun g => g.yards)).sum / n
        avg_ypp := (similar_games.map (fun g => g.ypp)).sum / n
        win_rate := ((similar_games.countP (fun g => g.result == "W")) : ℝ) / n })

/-- The dict returned by `calculate_strength_adjusted_stats`.  The two
early-return paths produce a dict with only `adjustment_factor` and
`avg_opp_def_rank`; the `faced` field is `none` there, so that a later
read of `faced_tough_defenses`/`faced_weak_defenses` raises `KeyError`
exactly as in Python. -/
structure StrengthAdj where
  adjustment_factor : ℝ
  avg_opp_def_rank : ℝ
  faced : Option (Bool × Bool)

/-- Per-team (yards-per-play-allowed, points-allowed) pairs gathered
over every key of `teams_data` by `calculate_strength_adjusted_stats`
(lines 1003-1010). -/
noncomputable def allTeamsDefStats (teams_data : TeamsData) :
    List (String × List GameRecord) → Except PyErr (List (String × ℝ × ℝ))
  | [] => .ok []
  | (tm, _) :: rest => do
    match ← calculate_team_averages tm teams_data true with
    | some tm_avg =>
      (fun r => (tm, tm_avg.defense.yards_per_play_allowed, tm_avg.defense.points_allowed) :: r)
        <$> allTeamsDefStats teams_data rest
    | none => allTeamsDefStats teams_data rest

/-- Stable insertion of `a` after every element `b` with `le b a`
(together with `pySortedBy` this models Python's stable `sorted`). -/
noncomputable def stableInsert (le : α → α → Bool) (a : α) : List α → List α
  | [] => [a]
  | b :: l => if le b a then b :: stableInsert le a l else a :: b :: l

/-- Python `sorted(l, key=...)`: a stable sort. -/
noncomputable def pySortedBy (le : α → α → Bool) (l : List α) : List α :=
  l.foldl (fun acc x => stableInsert le x acc) []

/-- src/NFL/predictor.py `calculate_strength_adjusted_stats`
(lines 994-1050). -/
noncomputable def calculate_strength_adjusted_stats (team : String)
    (teams_data : TeamsData) : Except PyErr StrengthAdj :=
  match teams_data.lookup team with
  | none => .ok ⟨1.0, 0.5, none⟩
  | some tgames => do
    let all_teams_def_stats ← allTeamsDefStats teams_data teams_data
    if all_teams_def_stats.isEmpty then pure ⟨1.0, 0.5, none⟩
    else
      let league_avg_ypp_allowed :=
        (all_teams_def_stats.map (fun s => s.2.1)).sum / (all_teams_def_stats.length : ℝ)
      let league_avg_pts_allowed :=
        (all_teams_def_stats.map (fun s => s.2.2)).sum / (all_teams_def_stats.length : ℝ)
      let sorted_by_ypp := pySortedBy (fun x y => decide (x.2.1 ≤ y.2.1)) all_teams_def_stats
      let defense_ranks := sorted_by_ypp.enum.map
        (fun iv => (iv.2.1, ((iv.1 + 1 : ℕ) : ℝ) / (sorted_by_ypp.length : ℝ)))
      let games := tgames.filter (fun g => !g.preseason)
      let opp_def_qualities := games.filterMap (fun g => defense_ranks.lookup g.opponent)
      if opp_def_qualities.isEmpty then pure ⟨1.0, 0.5, none⟩
      else
        let avg_opp_def_rank := opp_def_qualities.sum / (opp_def_qualities.length : ℝ)
        let adjustment_factor := 1.0 + (0.5 - avg_opp_def_rank) * 0.3
        let _ := league_avg_ypp_allowed
        let _ := league_avg_pts_allowed
        pure ⟨adjustment_factor, avg_opp_def_rank,
          some (decide (avg_opp_def_rank < 0.4), decide (avg_opp_def_rank > 0.6))⟩

/-- One parsed injury entry from src/NFL/injuryextract.py
`get_injury_data`. -/
structure InjuryInfo where
  player_name : String
  status : String
  detail : String
  date : String

/-- The injury mapping `{team_name: [injuries]}`. -/
abbrev InjuryData := List (String × List InjuryInfo)

/-- Player positions detected by
`detect_position_from_name_and_comment`. -/
inductive Position
  | QB | RB | WR | TE | LB | CB | S | DE | DT | OL | UNKNOWN
deriving DecidableEq

/-- src/NFL/injuryextract.py `detect_position_from_name_and_comment`
(lines 53-92): keyword scan over the lowercased comment (the lowercased
name is computed but never consulted). -/
def detect_position_from_name_and_comment (player_name comment : String) : Position :=
  let name_lower := pyLower player_name
  let comment_lower := pyLower comment
  let _ := name_lower
  if [("quarterback"), ("qb "), (" qb,"), ("passing"), ("threw for"), ("completed")].any
      (fun w => pyInStr w comment_lower) then .QB
  else if [("running back"), ("rb "), ("carried"), ("rushing"), ("carries for")].any
      (fun w => pyInStr w comment_lower) then .RB
  else if [("receiver"), ("wr "), ("caught"), ("receptions"), ("targets"), ("receiving")].any
      (fun w => pyInStr w comment_lower) then .WR
  else if [("tight end"), ("te ")].any (fun w => pyInStr w comment_lower) then .TE
  else if [("linebacker"), ("lb "), ("tackles")].any (fun w => pyInStr w comment_lower) then .LB
  else if [("cornerback"), ("cb "), ("coverage"), ("pass defense")].any
      (fun w => pyInStr w comment_lower) then .CB
  else if [("safety"), ("ss "), ("fs ")].any (fun w => pyInStr w comment_lower) then .S
  else if [("defensive end"), ("de "), ("edge"), ("sacks")].any
      (fun w => pyInStr w comment_lower) then .DE
  else if [("defensive tackle"), ("dt ")].any (fun w => pyInStr w comment_lower) then .DT
  else if [("offensive line"), ("ol "), ("guard"), ("tackle"), ("center")].any
      (fun w => pyInStr w comment_lower) then .OL
  else .UNKNOWN

/-- The `position_weights` table of `calculate_injury_impact`
(lines 112-124); `position_weights.get(position, 1.0)`. -/
noncomputable def positionWeight : Position → ℝ
  | .QB => 10.0
  | .WR => 2.5
  | .RB => 2.0
  | .TE => 2.0
  | .OL => 2.5
  | .DE => 2.0
  | .CB => 2.0
  | .LB => 1.5
  | .S => 1.5
  | .DT => 1.5
  | .UNKNOWN => 1.0

/-- The `status_multipliers` table of `calculate_injury_impact`
(lines 127-134), in dict insertion order: the first key that is a
substring of the lowercased status wins, default 0.0. -/
noncomputable def statusMultiplier (status : String) : ℝ :=
  let table : List (String × ℝ) :=
    [("out", 1.0), ("ir", 1.0), ("injured reserve", 1.0),
     ("doubtful", 0.6), ("questionable", 0.2), ("active", 0.0)]
  match table.find? (fun km => pyInStr km.1 status) with
  | some km => km.2
  | none => 0.0

/-- Rendering of a `Position` as it appears in the key-injury strings. -/
def positionName : Position → String
  | .QB => "QB"
  | .RB => "RB"
  | .WR => "WR"
  | .TE => "TE"
  | .LB => "LB"
  | .CB => "CB"
  | .S => "S"
  | .DE => "DE"
  | .DT => "DT"
  | .OL => "OL"
  | .UNKNOWN => "UNKNOWN"

/-- The dict returned by `calculate_injury_impact`.  The early return
for a missing team (lines 100-107) omits the `out`, `doubtful` and
`questionable` keys; `out_doubtful_questionable` is `none` there so a
later read raises `KeyError` exactly as in Python. -/
structure InjuryImpact where
  total_injuries : ℕ
  key_injuries : ℕ
  impact_score : ℝ
  injury_list : List String
  qb_injured : Bool
  out_doubtful_questionable : Option (ℕ × ℕ × ℕ)

/-- The per-injury accumulation loop of `calculate_injury_impact`
(lines 147-173), threading (impact_score, key_injuries, qb_injured). -/
noncomputable def injuryAccum (acc : ℝ × List String × Bool) (injury : InjuryInfo) :
    ℝ × List String × Bool :=
  let player := injury.player_name
  let status := pyLower injury.status
  let comment := injury.detail
  let position := detect_position_from_name_and_comment player comment
  let pos_weight := positionWeight position
  let status_mult := statusMultiplier status
  let player_impact := pos_weight * status_mult
  let impact_score := acc.1 + player_impact
  let qb_injured := acc.2.2 || decide (position = Position.QB ∧ status_mult > 0.5)
  let key_list :=
    if player_impact ≥ 2.0 then
      acc.2.1 ++ [player ++ " (" ++ positionName position ++ ", " ++ injury.status ++ ")"]
    else acc.2.1
  (impact_score, key_list, qb_injured)

/-- src/NFL/injuryextract.py `calculate_injury_impact` (lines 95-184). -/
noncomputable def calculate_injury_impact (team_name : String)
    (injury_data : Option InjuryData) : InjuryImpact :=
  let entry :=
    match injury_data with
    | none => none
    | some idata => if idata.isEmpty then none else idata.lookup team_name
  match entry with
  | none =>
    { total_injuries := 0, key_injuries := 0, impact_score := 0
      injury_list := [], qb_injured := false, out_doubtful_questionable := none }
  | some team_injuries =>
    let actual_injuries := team_injuries.filter (fun i => !(pyLower i.status == "active"))
    let out := actual_injuries.filter (fun i =>
      pyLower i.status == "out" || pyLower i.status == "ir" ||
        pyLower i.status == "injured reserve")
    let doubtful := actual_injuries.filter (fun i => pyInStr ("doubtful") (pyLower i.status))
    let questionable := actual_injuries.filter
      (fun i => pyInStr ("questionable") (pyLower i.status))
    let res := actual_injuries.foldl injuryAccum (0, [], false)
    { total_injuries := actual_injuries.length
      key_injuries := res.2.1.length
      impact_score := res.1
      injury_list := res.2.1
      qb_injured := res.2.2
      out_doubtful_questionable := some (out.length, doubtful.length, questionable.length) }

/-- Python truthiness of the `injury_data` argument (`if injury_data:`):
false for `None` and for an empty dict. -/
def injTruthy : Option InjuryData → Bool
  | none => false
  | some l => !l.isEmpty

/-- The similar-matchup factor (lines 1212-1237), one side's block:
contributions (to this side, to the other side). -/
noncomputable def simFactor (sim : Option SimPerf) (ownDefPtsAllowed : ℝ) : ℝ × ℝ :=
  match sim with
  | some s =>
    if s.games ≥ 2 then
      if s.avg_points < ownDefPtsAllowed - 3 then (1.5, 0)
      else if s.avg_points > ownDefPtsAllowed + 3 then (0, 1.5)
      else (0, 0)
    else (0, 0)
  | none => (0, 0)

/-- The offensive-efficiency factor (lines 1243-1279), one side's
chain: (to this side, to the other side). -/
noncomputable def offEffFactor (ownYpp otherYppAllowed : ℝ) : ℝ × ℝ :=
  let r := ownYpp / (otherYppAllowed + 0.1)
  if r > 1.2 then (3.5, 0)
  else if r > 1.1 then (2.5, 0)
  else if r > 1.0 then (1.5, 0)
  else if r < 0.85 then (0, 2.0)
  else if r < 0.95 then (0, 1.0)
  else (0, 0)

/-- The run-game factor (lines 1283-1308), one side's chain. -/
noncomputable def runGameFactor (ownRush otherRushAllowed : ℝ) : ℝ :=
  let r := ownRush / (otherRushAllowed + 0.1)
  if r > 1.3 then 2.5 else if r > 1.1 then 1.5 else if r > 1.0 then 0.75 else 0

/-- The pass-game factor (lines 1312-1337), one side's chain. -/
noncomputable def passGameFactor (ownPass otherPassAllowed : ℝ) : ℝ :=
  let r := ownPass / (otherPassAllowed + 0.1)
  if r > 1.3 then 2.5 else if r > 1.1 then 1.5 else if r > 1.0 then 0.75 else 0

/-- The scoring-efficiency factor (lines 1341-1360), one side's chain. -/
noncomputable def scoringEffFactor (ownPts otherPtsAllowed : ℝ) : ℝ :=
  let r := ownPts / (otherPtsAllowed + 0.1)
  if r > 1.25 then 2.5 else if r > 1.15 then 1.5 else 0

/-- The third-down factor (lines 1370-1382): one shared chain on the
difference of third-down rates, (to home, to away). -/
noncomputable def thirdDownFactor (home3rd away3rd : ℝ) : ℝ × ℝ :=
  let third_down_diff := home3rd - away3rd
  if third_down_diff > 0.08 then (1.5, 0)
  else if third_down_diff > 0.04 then (0.75, 0)
  else if third_down_diff < -0.08 then (0, 1.5)
  else if third_down_diff < -0.04 then (0, 0.75)
  else (0, 0)

/-- The pass-rush factor (lines 1386-1404): one shared chain on the
difference of sack differentials, (to home, to away). -/
noncomputable def sackFactor (homeSackDiff awaySackDiff : ℝ) : ℝ × ℝ :=
  let sack_matchup_diff := homeSackDiff - awaySackDiff
  if sack_matchup_diff > 1.0 then (1.5, 0)
  else if sack_matchup_diff > 0.5 then (0.75, 0)
  else if sack_matchup_diff < -1.0 then (0, 1.5)
  else if sack_matchup_diff < -0.5 then (0, 0.75)
  else (0, 0)

/-- The momentum factor (lines 1417-1435), one side's chain:
(to this side, to the other side). -/
noncomputable def momentumFactor (rf : RecentForm) : ℝ × ℝ :=
  if rf.win_rate = 1.0 ∧ rf.games ≥ 3 then (2.0, 0)
  else if rf.win_rate ≥ 0.67 then (1.0, 0)
  else if rf.win_rate = 0.0 ∧ rf.games ≥ 3 then (0, 1.5)
  else (0, 0)

/-- The opponent-quality factor (lines 1440-1453): one shared
four-branch chain, (to home, to away). -/
noncomputable def oppQualityFactor (homeWinRate awayWinRate homeOppQ awayOppQ : ℝ) : ℝ × ℝ :=
  if homeWinRate ≥ 0.5 ∧ homeOppQ > awayOppQ + 0.15 then (1.5, 0)
  else if homeWinRate ≥ 0.5 ∧ homeOppQ > awayOppQ + 0.05 then (0.75, 0)
  else if awayWinRate ≥ 0.5 ∧ awayOppQ > homeOppQ + 0.15 then (0, 1.5)
  else if awayWinRate ≥ 0.5 ∧ awayOppQ > homeOppQ + 0.05 then (0, 0.75)
  else (0, 0)

/-- The strength-of-schedule factor (lines 1463-1477), one side's
chain. -/
noncomputable def strengthFactor (facedTough facedWeak : Bool) (ownPtsScored : ℝ) : ℝ :=
  if facedTough ∧ ownPtsScored > 22 then 1.5
  else if facedWeak then -2.0
  else 0

/-- The close-game factor (lines 1486-1491), one side's independent
test. -/
noncomputable def closeGameFactor (cg : CloseGames) : ℝ :=
  if cg.total ≥ 3 ∧ cg.win_rate > 0.60 then 1.0 else 0

/-- The home-field-advantage block (lines 1494-1544): skipped entirely
on a neutral site; otherwise the dynamic advantage plus the road-team
comparison, (to home, to away). -/
noncomputable def hfaFactor (is_neutral : Bool) (hsplits asplits : Splits) : ℝ × ℝ :=
  if is_neutral then (0, 0)
  else
    let home_advantage_strength := hsplits.home_advantage
    let hfa_points : ℝ :=
      if hsplits.home_win_rate = 0 then 0.0
      else if home_advantage_strength > 0.25 then 3.0
      else if home_advantage_strength > 0.15 then 2.5
      else if home_advantage_strength > 0.05 then 2.0
      else if home_advantage_strength < -0.10 then 0.5
      else 1.5
    let road : ℝ × ℝ :=
      if asplits.away_win_rate ≥ 0.70 then
        if asplits.away_win_rate > hsplits.home_win_rate then (0, 1.5) else (0, 1.0)
      else if asplits.away_win_rate < 0.30 then (0.5, 0)
      else (0, 0)
    (hfa_points + road.1, road.2)

/-- The QB-accuracy factor (lines 1552-1571), one side's chain:
(to this side, to the other side). -/
noncomputable def qbAccuracyFactor (ownComp otherCompAllowed : ℝ) : ℝ × ℝ :=
  let d := ownComp - otherCompAllowed
  if d > 0.10 then (2.0, 0)
  else if d > 0.05 then (1.0, 0)
  else if d < -0.10 then (0, 1.5)
  else (0, 0)

/-- The red-zone factor (lines 1581-1593), one side's chain. -/
noncomputable def redZoneFactor (ownRZ otherRZAllowed : ℝ) : ℝ :=
  let adv := ownRZ - otherRZAllowed
  if adv > 0.15 then 2.5 else if adv > 0.08 then 1.5 else 0

/-- The rushing-efficiency factor (lines 1603-1615), one side's chain. -/
noncomputable def rushEffFactor (ownRushAvg otherRushAvgAllowed : ℝ) : ℝ :=
  let adv := ownRushAvg - otherRushAvgAllowed
  if adv > 1.5 then 2.0 else if adv > 0.8 then 1.0 else 0

/-- The takeaway factor (lines 1626-1644), one side's chain:
(to this side, to the other side). -/
noncomputable def intRiskFactor (ownIntsThrown otherIntsForced : ℝ) : ℝ × ℝ :=
  let risk := ownIntsThrown - otherIntsForced
  if risk < -0.5 then (1.0, 0)
  else if risk > 1.0 then (0, 2.5)
  else if risk > 0.5 then (0, 1.0)
  else (0, 0)

/-- The penalty-discipline factor (lines 1651-1663): one shared chain
on the penalty difference, (to home, to away). -/
noncomputable def penaltyFactor (homePen awayPen : ℝ) : ℝ × ℝ :=
  let penalty_diff := awayPen - homePen
  if penalty_diff > 2.0 then (1.5, 0)
  else if penalty_diff > 1.0 then (0.75, 0)
  else if penalty_diff < -2.0 then (0, 1.5)
  else if penalty_diff < -1.0 then (0, 0.75)
  else (0, 0)

/-- The record-quality factor (lines 1716-1734), one side's chain. -/
noncomputable def recordQualityFactor (winRate : ℝ) : ℝ :=
  if winRate = 0 then -3.0
  else if winRate < 0.2 then -2.5
  else if winRate < 0.4 then -1.5
  else 0

/-- The turnover-margin factor (lines 1741-1753): one shared chain on
the margin difference, (to home, to away). -/
noncomputable def turnoverMarginFactor (homeMargin awayMargin : ℝ) : ℝ × ℝ :=
  let margin_diff := homeMargin - awayMargin
  if margin_diff > 1.0 then (1.5, 0)
  else if margin_diff > 0.5 then (0.75, 0)
  else if margin_diff < -1.0 then (0, 1.5)
  else if margin_diff < -0.5 then (0, 0.75)
  else (0, 0)

/-- The injury factor (lines 1756-1803): only runs when both impact
dicts exist; a QB chain plus a general impact-difference chain,
(to home, to away). -/
noncomputable def injuryFactor (himp aimp : Option InjuryImpact) : ℝ × ℝ :=
  match himp, aimp with
  | some hi, some ai =>
    let qbPair : ℝ × ℝ :=
      if hi.qb_injured ∧ ¬ ai.qb_injured then (0, 5.0)
      else if ai.qb_injured ∧ ¬ hi.qb_injured then (5.0, 0)
      else (0, 0)
    let impact_diff := ai.impact_score - hi.impact_score
    let gen : ℝ × ℝ :=
      if |impact_diff| < 3.0 ∧ ¬ (hi.qb_injured ∨ ai.qb_injured) then (0, 0)
      else if impact_diff > 10.0 then (3.0, 0)
      else if impact_diff > 5.0 then (2.0, 0)
      else if impact_diff > 3.0 then (1.0, 0)
      else if impact_diff < -10.0 then (0, 3.0)
      else if impact_diff < -5.0 then (0, 2.0)
      else if impact_diff < -3.0 then (0, 1.0)
      else (0, 0)
    (qbPair.1 + gen.1, qbPair.2 + gen.2)
  | _, _ => (0, 0)

/-- The whole matchup-analysis accumulation of `advanced_prediction`
(lines 1193-1803): the final (home_points, away_points). -/
noncomputable def matchupScore (is_neutral : Bool) (havg aavg : TeamAverages)
    (hsim asim : Option SimPerf) (hoq aoq : ℝ)
    (htough hweak atough aweak : Bool)
    (hbb abb : BounceBack) (himp aimp : Option InjuryImpact) : ℝ × ℝ :=
  let f1h := simFactor hsim havg.defense.points_allowed
  let f1a := simFactor asim aavg.defense.points_allowed
  let f2h := offEffFactor havg.offense.yards_per_play aavg.defense.yards_per_play_allowed
  let f2a := offEffFactor aavg.offense.yards_per_play havg.defense.yards_per_play_allowed
  let f3h := runGameFactor havg.offense.rushing_yards aavg.defense.rushing_yards_allowed
  let f3a := runGameFactor aavg.offense.rushing_yards havg.defense.rushing_yards_allowed
  let f4h := passGameFactor havg.offense.passing_yards aavg.defense.passing_yards_allowed
  let f4a := passGameFactor aavg.offense.passing_yards havg.defense.passing_yards_allowed
  let f5h := scoringEffFactor havg.offense.points_scored aavg.defense.points_allowed
  let f5a := scoringEffFactor aavg.offense.points_scored havg.defense.points_allowed
  let f6 := thirdDownFactor havg.offense.third_down_rate aavg.offense.third_down_rate
  let f7 := sackFactor (havg.offense.sacks_made - havg.defense.sacks_allowed)
                       (aavg.offense.sacks_made - aavg.defense.sacks_allowed)
  let f8h := momentumFactor havg.recent_form
  let f8a := momentumFactor aavg.recent_form
  let f9 := oppQualityFactor havg.win_rate aavg.win_rate hoq aoq
  let f10h := strengthFactor htough hweak havg.offense.points_scored
  let f10a := strengthFactor atough aweak aavg.offense.points_scored
  let f11h := closeGameFactor havg.close_games
  let f11a := closeGameFactor aavg.close_games
  let f12 := hfaFactor is_neutral havg.splits aavg.splits
  let f13h := qbAccuracyFactor havg.offense.completion_rate aavg.defense.completion_allowed
  let f13a := qbAccuracyFactor aavg.offense.completion_rate havg.defense.completion_allowed
  let f14h := redZoneFactor havg.offense.red_zone_rate aavg.defense.red_zone_allowed
  let f14a := redZoneFactor aavg.offense.red_zone_rate havg.defense.red_zone_allowed
  let f15h := rushEffFactor havg.offense.rushing_avg aavg.defense.rushing_avg_allowed
  let f15a := rushEffFactor aavg.offense.rushing_avg havg.defense.rushing_avg_allowed
  let f16h := intRiskFactor havg.offense.interceptions_thrown aavg.defense.interceptions_forced
  let f16a := intRiskFactor aavg.offense.interceptions_thrown havg.defense.interceptions_forced
  let f17 := penaltyFactor havg.offense.penalties aavg.offense.penalties
  let f18h := havg.win_rate * 3.0
  let f18a := aavg.win_rate * 3.0
  let f19h : ℝ := if hbb.has_bounce_back_potential then hbb.bounce_back_score else 0
  let f19a : ℝ := if abb.has_bounce_back_potential then abb.bounce_back_score else 0
  let f20h : ℝ := if havg.win_rate - havg.pythagorean_win_rate > 0.15 then -1.0 else 0
  let f20a : ℝ := if aavg.win_rate - aavg.pythagorean_win_rate > 0.15 then -1.0 else 0
  let f21h := recordQualityFactor havg.win_rate
  let f21a := recordQualityFactor aavg.win_rate
  let f22 := turnoverMarginFactor havg.turnover_margin aavg.turnover_margin
  let f23 := injuryFactor himp aimp
  let home_points :=
    f1h.1 + f1a.2 + f2h.1 + f2a.2 + f3h + f4h + f5h + f6.1 + f7.1 + f8h.1 + f8a.2
    + f9.1 + f10h + f11h + f12.1 + f13h.1 + f13a.2 + f14h + f15h + f16h.1 + f16a.2
    + f17.1 + f18h + f19h + f20h + f21h + f22.1 + f23.1
  let away_points :=
    f1h.2 + f1a.1 + f2h.2 + f2a.1 + f3a + f4a + f5a + f6.2 + f7.2 + f8a.1 + f8h.2
    + f9.2 + f10a + f11a + f12.2 + f13a.1 + f13h.2 + f14a + f15a + f16a.1 + f16h.2
    + f17.2 + f18a + f19a + f20a + f21a + f22.2 + f23.2
  (home_points, away_points)

/-- The dict returned by `advanced_prediction`. -/
structure PredResult where
  home_points : ℝ
  away_points : ℝ
  home_stats : TeamAverages
  away_stats : TeamAverages

/-- The display-time read of
`strength_adj['faced_tough_defenses']` (line 1120): raises `KeyError`
on a default strength dict that lacks the key. -/
noncomputable def getFacedFlags (sa : StrengthAdj) : Except PyErr (Bool × Bool) :=
  match sa.faced with
  | some f => .ok f
  | none => .error PyErr.keyError

/-- The display-time read of `injury_impact['out']` (line 1128, inside
`if home_injury_impact:`): raises `KeyError` on a default injury dict
that lacks the key. -/
def checkInjuryKeys : Option InjuryImpact → Except PyErr Unit
  | none => .ok ()
  | some imp =>
    match imp.out_doubtful_questionable with
    | some _ => .ok ()
    | none => .error PyErr.keyError

/-- The contiguous effectful steps of one team's display block in
`advanced_prediction`: opponent quality (line 1115), strength
adjustment (line 1116), the display read of the strength `faced_*`
flags (line 1120), and the display read of the injury counts
(line 1128).  Returns (opp_quality, strength_adj, faced flags). -/
noncomputable def displaySide (team : String) (teams_data : TeamsData)
    (imp : Option InjuryImpact) : Except PyErr (ℝ × StrengthAdj × (Bool × Bool)) := do
  let opp_quality ← calculate_opponent_quality team teams_data
  let strength_adj ← calculate_strength_adjusted_stats team teams_data
  let faced ← getFacedFlags strength_adj
  let _ ← checkInjuryKeys imp
  pure (opp_quality, strength_adj, faced)

/-- src/NFL/predictor.py `advanced_prediction` (lines 1053-1810).
Computations appear in source order; console narration is not
modelled, except where it reads a possibly-absent dict key (strength
flags, injury counts), which raises exactly as in Python. -/
noncomputable def advanced_prediction (home_team away_team : String)
    (teams_data : Option TeamsData) (is_neutral : Bool := false)
    (injury_data : Option InjuryData := none) : Except PyErr (Option PredResult) :=
  match teams_data with
  | none => .ok none
  | some td =>
    match td.lookup home_team with
    | none => .ok none
    | some _ =>
      match td.lookup away_team with
      | none => .ok none
      | some _ => do
        let home_avg? ← calculate_team_averages home_team td
        let away_avg? ← calculate_team_averages away_team td
        let home_injury_impact :=
          if injTruthy injury_data then some (calculate_injury_impact home_team injury_data)
          else none
        let away_injury_impact :=
          if injTruthy injury_data then some (calculate_injury_impact away_team injury_data)
          else none
        match home_avg?, away_avg? with
        | some home_avg, some away_avg => do
          let hside ← displaySide home_team td home_injury_impact
          let aside ← displaySide away_team td away_injury_impact
          let home_style := classify_offensive_style (some home_avg)
          let away_style := classify_offensive_style (some away_avg)
          let home_vs_similar_off ←
            find_similar_matchup_performance home_team away_style td MatchupType.defense
          let away_vs_similar_off ←
            find_similar_matchup_performance away_team home_style td MatchupType.defense
          let home_bounce_back := calculate_bounce_back_probability home_team td
          let away_bounce_back := calculate_bounce_back_probability away_team td
          let pts := matchupScore is_neutral home_avg away_avg
            home_vs_similar_off away_vs_similar_off hside.1 aside.1
            hside.2.2.1 hside.2.2.2 aside.2.2.1 aside.2.2.2
            home_bounce_back away_bounce_back home_injury_impact away_injury_impact
          pure (some { home_points := pts.1, away_points := pts.2
                       home_stats := home_avg, away_stats := away_avg })
        | _, _ => pure none

/-- src/NFL/predictor.py `parse_stat(s)` (`int` mode): strip commas,
parse an int, `0` on failure. -/
def parse_stat_int (s : Line) : ℚ :=
  match pyInt ((pySplitChar ',' s).foldr (· ++ ·) []) with
  | some z => (z : ℚ)
  | none => 0

/-- `parse_stat(s, 'float')`. -/
def parse_stat_float (s : Line) : ℚ :=
  ((pyFloat? ((pySplitChar ',' s).foldr (· ++ ·) [])).getD 0)

/-- `parse_stat(s, 'time')`: `"30:15"` to minutes; any failure
(including a missing second part) yields `0`. -/
def parse_stat_time (s : Line) : ℚ :=
  let parts := pySplitChar ':' s
  match parts.get? 0, parts.get? 1 with
  | some p0, some p1 =>
    match pyInt p0, pyInt p1 with
    | some a, some b => (a : ℚ) + (b : ℚ) / 60
    | _, _ => 0
  | _, _ => 0

/-- `parse_stat(s, 'ratio')`: `"5-12"` to a success rate. -/
def parse_stat_ratio (s : Line) : ℚ :=
  let parts := pySplitChar '-' s
  if parts.length = 2 then
    match pyInt ((parts.get? 0).getD []), pyInt ((parts.get? 1).getD []) with
    | some a, some b => if b > 0 then (a : ℚ) / (b : ℚ) else 0
    | _, _ => 0
  else 0

/-- `parse_stat(s, 'completion')`: `"15/23"` to a completion rate. -/
def parse_stat_completion (s : Line) : ℚ :=
  let parts := pySplitChar '/' s
  if parts.length = 2 then
    match pyInt ((parts.get? 0).getD []), pyInt ((parts.get? 1).getD []) with
    | some a, some b => if b > 0 then (a : ℚ) / (b : ℚ) else 0
    | _, _ => 0
  else 0

/-- The QB-line parse of `read_nfl_data` (lines 95-125 and 130-160):
the inner `try` block; any index/parse failure leaves the qb dict empty
(`none`). -/
def parseQBLine (raw : Line) : Option NFL.QBStats := do
  let qb_line := pyStrip raw
  let p1 ← (pySplitChar '(' qb_line).get? 1
  let qb_name := ((pySplitChar ')' p1).headD [])
  let _ := qb_name
  let p2 ← (pySplitSub (chrs "):") qb_line).get? 1
  let qb_data := pyStrip p2
  let parts := pySplitChar ',' qb_data
  let part0 ← parts.get? 0
  let comp_att := pyStrip ((pySplitSub (chrs "for") part0).headD [])
  let yards_str ← (pySplitSub (chrs "for") part0).get? 1
  let yards := pyStrip (pyRemoveSub (chrs "yds") yards_str)
  let part1 ← parts.get? 1
  let td_int := pySplitChar '/' (pyStrip part1)
  let tds_str ← td_int.get? 0
  let ints_str ← td_int.get? 1
  let tds := pyStrip (pyRemoveSub (chrs "TD") tds_str)
  let ints := pyStrip (pyRemoveSub (chrs "INT") ints_str)
  let part2 ← parts.get? 2
  let ypa := pyStrip (pyRemoveSub (chrs "YPA") part2)
  let rating :=
    if parts.length > 3 then pyStrip (pyRemoveSub (chrs "RTG") ((parts.get? 3).getD []))
    else chrs "0.0"
  let yards_n ← pyInt yards
  let tds_n ← pyInt tds
  let ints_n ← pyInt ints
  let ypa_q ← pyFloat? ypa
  let rating_q ← pyFloat? rating
  pure { comp_att := comp_att, yards := yards_n, tds := tds_n, ints := ints_n
         ypa := ypa_q, rating := rating_q }

/-- Python `part.split(':')[1].strip()`; the index is always in range
where this is used, because the guarding marker contains a colon. -/
def afterColon (part : Line) : Line := pyStrip (((pySplitChar ':' part).get? 1).getD [])

/-- Stat line 1 of a team block (`Total Yards: .. | Yards/Play: .. |
Possession: ..`), lines 168-179. -/
def parseYardsLine (stats : NFL.TeamStats) (raw : Line) : NFL.TeamStats :=
  let stats_line := pyStrip raw
  if pyIsInfix (chrs "Total Yards:") stats_line then
    (pySplitChar '|' stats_line).foldl (fun st part =>
      if pyIsInfix (chrs "Total Yards:") part then
        { st with totalYards := some (parse_stat_int (afterColon part)) }
      else if pyIsInfix (chrs "Yards/Play:") part then
        { st with yardsPerPlay := some (parse_stat_float (afterColon part)) }
      else if pyIsInfix (chrs "Possession:") part then
        { st with possession := some (parse_stat_time (afterColon part)) }
      else st) stats
  else stats

/-- Stat line 2 of a team block (`Passing: .. | Rushing: .. |
1st Downs: ..`), lines 182-209. -/
def parsePassRushLine (stats : NFL.TeamStats) (raw : Line) : NFL.TeamStats :=
  let stats_line := pyStrip raw
  if pyIsInfix (chrs "Passing:") stats_line then
    (pySplitChar '|' stats_line).foldl (fun st part =>
      if pyIsInfix (chrs "Passing:") part then
        let pass_data := afterColon part
        if pyHasChar '(' pass_data then
          let yds_part := pyStrip (pyRemoveSub (chrs "yds") (((pySplitChar '(' pass_data).get? 0).getD []))
          let comp_part := pyStrip (pyRemoveSub (chrs ")") (((pySplitChar '(' pass_data).get? 1).getD []))
          { st with passingYards := some (parse_stat_int yds_part)
                    completionRate := some (parse_stat_completion comp_part) }
        else
          { st with passingYards := some (parse_stat_int (pyStrip (pyRemoveSub (chrs "yds") pass_data))) }
      else if pyIsInfix (chrs "Rushing:") part then
        let rush_data := afterColon part
        if pyHasChar '(' rush_data then
          let yds_part := pyStrip (pyRemoveSub (chrs "yds") (((pySplitChar '(' rush_data).get? 0).getD []))
          let avg_part := pyStrip (pyRemoveSub (chrs ")") (pyRemoveSub (chrs "avg") (((pySplitChar '(' rush_data).get? 1).getD [])))
          { st with rushingYards := some (parse_stat_int yds_part)
                    rushingAvg := some (parse_stat_float avg_part) }
        else
          { st with rushingYards := some (parse_stat_int (pyStrip (pyRemoveSub (chrs "yds") rush_data))) }
      else if pyIsInfix (chrs "1st Downs:") part then
        { st with firstDowns := some (parse_stat_int (afterColon part)) }
      else st) stats
  else stats

/-- Stat line 3 of a team block (`3rd Down: .. | 4th Down: .. |
Red Zone: ..`), lines 212-223. -/
def parseEffLine (stats : NFL.TeamStats) (raw : Line) : NFL.TeamStats :=
  let stats_line := pyStrip raw
  if pyIsInfix (chrs "3rd Down:") stats_line ∨ pyIsInfix (chrs "4th Down:") stats_line then
    (pySplitChar '|' stats_line).foldl (fun st part =>
      if pyIsInfix (chrs "3rd Down:") part then
        { st with thirdDownRate := some (parse_stat_ratio (afterColon part)) }
      else if pyIsInfix (chrs "4th Down:") part then
        { st with fourthDownRate := some (parse_stat_ratio (afterColon part)) }
      else if pyIsInfix (chrs "Red Zone:") part then
        { st with redZoneRate := some (parse_stat_ratio (afterColon part)) }
      else st) stats
  else stats

/-- Stat line 4 of a team block (`Turnovers: .. | Sacks: .. |
Penalties: ..`), lines 226-251.  Note `part.split(':')[1]` truncates at
the second colon, so the `INT:`/`Fum:` details never parse from a
well-formed line. -/
def parseTurnoverLine (stats : NFL.TeamStats) (raw : Line) : NFL.TeamStats :=
  let stats_line := pyStrip raw
  if pyIsInfix (chrs "Turnovers:") stats_line then
    (pySplitChar '|' stats_line).foldl (fun st part =>
      if pyIsInfix (chrs "Turnovers:") part then
        let to_data := afterColon part
        if pyHasChar '(' to_data then
          let total_to := pyStrip (((pySplitChar '(' to_data).get? 0).getD [])
          let detail := pyRemoveSub (chrs ")") (((pySplitChar '(' to_data).get? 1).getD [])
          let st := { st with turnovers := some (parse_stat_int total_to) }
          let st :=
            if pyIsInfix (chrs "INT:") detail then
              let int_val := pyStrip (((pySplitChar ',' (((pySplitSub (chrs "INT:") detail).get? 1).getD [])).get? 0).getD [])
              { st with interceptions := some (parse_stat_int int_val) }
            else st
          if pyIsInfix (chrs "Fum:") detail then
            let fum_val := pyStrip (((pySplitSub (chrs "Fum:") detail).get? 1).getD [])
            { st with fumbles := some (parse_stat_int fum_val) }
          else st
        else
          { st with turnovers := some (parse_stat_int to_data) }
      else if pyIsInfix (chrs "Sacks:") part ∧ ¬ pyIsInfix (chrs "Sacks-") part then
        { st with sacks := some (parse_stat_int (afterColon part)) }
      else if pyIsInfix (chrs "Penalties:") part then
        { st with penalties := some (parse_stat_ratio (afterColon part)) }
      else st) stats
  else stats

/-- The basic-game-info extraction of `read_nfl_data` (lines 72-83);
`none` models the exceptions the enclosing `try` catches (tuple-unpack
`ValueError`, `IndexError`, `int` failures). -/
def parseGameHeader (line : Line) : Option (Line × Line × ℤ × ℤ) := do
  let week_part := pySlice line (pyFindChar line '[' + 1) (pyFindChar line ']')
  let _ := week_part
  let game_part := pyStrip (pySliceFrom line (pyFindChar line ']' + 1))
  let teams_part := pyStrip (((pySplitChar '|' game_part).get? 0).getD [])
  let scores_part0 ← (pySplitChar '|' game_part).get? 1
  let scores_part := pyStrip scores_part0
  let tp := pySplitChar '@' teams_part
  if tp.length = 2 then
    let away_team := pyStrip ((tp.get? 0).getD [])
    let home_team := pyStrip ((tp.get? 1).getD [])
    let sp := pySplitChar '-' scores_part
    if sp.length = 2 then do
      let away_score ← pyInt (pyStrip ((sp.get? 0).getD []))
      let home_score ← pyInt (pyStrip ((sp.get? 1).getD []))
      pure (away_team, home_team, away_score, home_score)
    else none
  else none

/-- Append with creation: `if team not in teams_data:
teams_data[team] = []` followed by `.append(rec)`. -/
def tdAppend (td : NFL.TeamsData) (team : String) (rec : NFL.GameRecord) : NFL.TeamsData :=
  if (td.lookup team).isSome then
    td.map (fun kv => if kv.1 == team then (kv.1, kv.2 ++ [rec]) else kv)
  else td ++ [(team, [rec])]

/-- The winner determination and record creation of `read_nfl_data`
(lines 343-410): records are created only in the two strict-inequality
branches; a tied game leaves `teams_data` unchanged. -/
def addGameRecords (td : NFL.TeamsData) (away_team home_team : String)
    (away_score home_score : ℤ) (is_preseason : Bool)
    (away_stats home_stats : NFL.TeamStats)
    (away_qb home_qb : Option NFL.QBStats) : NFL.TeamsData :=
  if away_score > home_score then
    let point_diff := away_score - home_score
    let td := tdAppend td away_team ⟨home_team, "away", "W", away_score, home_score,
      point_diff, is_preseason, away_stats, home_stats, away_qb⟩
    tdAppend td home_team ⟨away_team, "home", "L", home_score, away_score,
      point_diff, is_preseason, home_stats, away_stats, home_qb⟩
  else if home_score > away_score then
    let point_diff := home_score - away_score
    let td := tdAppend td home_team ⟨away_team, "home", "W", home_score, away_score,
      point_diff, is_preseason, home_stats, away_stats, home_qb⟩
    tdAppend td away_team ⟨home_team, "away", "L", away_score, home_score,
      point_diff, is_preseason, away_stats, home_stats, away_qb⟩
  else td

/-- Four conditional stat-line steps (each: if a line remains, parse it
with the step's markers, advance), starting at offset `j` of the whole
line window `xl`; returns the updated stats and the next offset. -/
def parseStatsBlock (xl : List Line) (j : ℕ) (stats : NFL.TeamStats) : NFL.TeamStats × ℕ :=
  let s1 := match xl.get? j with
    | some l => (parseYardsLine stats l, j + 1)
    | none => (stats, j)
  let s2 := match xl.get? s1.2 with
    | some l => (parsePassRushLine s1.1 l, s1.2 + 1)
    | none => s1
  let s3 := match xl.get? s2.2 with
    | some l => (parseEffLine s2.1 l, s2.2 + 1)
    | none => s2
  match xl.get? s3.2 with
  | some l => (parseTurnoverLine s3.1 l, s3.2 + 1)
  | none => s3

/-- The lookahead consumption of one game's QB and stat lines
(lines 91-341).  `xl` is the window starting at the game line itself
(`xl[0]`); offsets mirror the Python index `i` relative to the game
line.  Returns the parsed QB dicts and stat bags together with the
final offset of `i` relative to the game line. -/
def consumeGameBody (xl : List Line) :
    Option NFL.QBStats × Option NFL.QBStats × NFL.TeamStats × NFL.TeamStats × ℕ :=
  let awayQBhit := match xl.get? 1 with
    | some l => pyIsInfix (chrs "AWAY QB") l
    | none => false
  let away_qb := if awayQBhit then parseQBLine ((xl.get? 1).getD []) else none
  let k1 : ℕ := if awayQBhit then 1 else 0
  let homeQBhit := match xl.get? 2 with
    | some l => pyIsInfix (chrs "HOME QB") l
    | none => false
  let home_qb := if homeQBhit then parseQBLine ((xl.get? 2).getD []) else none
  let k2 : ℕ := k1 + (if homeQBhit then 1 else 0)
  let awaySec :=
    match xl.get? (k2 + 1) with
    | some l =>
      if pyIsInfix (chrs "AWAY") l then parseStatsBlock xl (k2 + 2) {}
      else ({}, k2)
    | none => ({}, k2)
  let homeSec :=
    match xl.get? awaySec.2 with
    | some l =>
      if pyIsInfix (chrs "HOME") l then parseStatsBlock xl (awaySec.2 + 1) {}
      else ({}, awaySec.2)
    | none => ({}, awaySec.2)
  (away_qb, home_qb, awaySec.1, homeSec.1, homeSec.2)

/-- The scan loop of `read_nfl_data` (lines 58-417) over the remaining
lines, threading `is_preseason` and `teams_data`.  Fuelled: each
iteration consumes at least one line, so any fuel at least the number
of remaining lines is enough. -/
def readLoop : ℕ → List Line → Bool → NFL.TeamsData → NFL.TeamsData
  | 0, _, _, td => td
  | _ + 1, [], _, td => td
  | fuel + 1, raw :: rest, is_preseason, td =>
    let line := pyStrip raw
    if (pyIsInfix (chrs "PRESEASON_WEEK") line ∨ pyIsInfix (chrs "REGULAR_WEEK") line)
        ∧ ¬ pyHasChar '[' line then
      readLoop fuel rest (pyIsInfix (chrs "PRESEASON") line) td
    else if (chrs "[").isPrefixOf line ∧ pyHasChar '@' line ∧ pyHasChar '|' line then
      match parseGameHeader line with
      | none => readLoop fuel rest is_preseason td
      | some (away_team, home_team, away_score, home_score) =>
        let body := consumeGameBody (raw :: rest)
        let td' := addGameRecords td ⟨away_team⟩ ⟨home_team⟩ away_score home_score
          is_preseason body.2.2.1 body.2.2.2.1 body.1 body.2.1
        readLoop fuel (rest.drop body.2.2.2.2) is_preseason td'
    else readLoop fuel rest is_preseason td

/-- src/NFL/predictor.py `read_nfl_data` (lines 44-423): `none` models
the `FileNotFoundError` path (the function returns `None`), otherwise
the parsed `teams_data`. -/
def read_nfl_data (file : Option (List Line)) : Option NFL.TeamsData :=
  match file with
  | none => none
  | some lines => some (readLoop lines.length lines false [])

/-- The `qb` dict written for a team by `write_to_file` when ESPN
provided passing statistics. -/
structure QBWrite where
  name : Line
  comp_att : Line
  yards : Line
  tds : Line
  ints : Line
  ypa : Line
  qb_rating : Line

/-- The raw stat strings `write_to_file` reads out of a team's `stats`
dict (each `none` when ESPN omitted the stat; the writer substitutes
the defaults visible in `write_to_file`). -/
structure StatsW where
  totalYards : Option Line := none
  yardsPerPlay : Option Line := none
  possessionTime : Option Line := none
  netPassingYards : Option Line := none
  completionAttempts : Option Line := none
  rushingYards : Option Line := none
  yardsPerRushAttempt : Option Line := none
  firstDowns : Option Line := none
  thirdDownEff : Option Line := none
  fourthDownEff : Option Line := none
  redZoneAttempts : Option Line := none
  turnovers : Option Line := none
  interceptions : Option Line := none
  fumblesLost : Option Line := none
  sacksYardsLost : Option Line := none
  totalPenaltiesYards : Option Line := none

/-- One side of a completed game as passed to `write_to_file`.  A
completed game's score is a plain decimal numeral, modelled as the
natural number it denotes. -/
structure TeamW where
  name : Line
  score : ℕ
  qb : Option QBWrite := none
  stats : StatsW := {}

/-- One completed game as passed to `write_to_file` (its `status` is
always the literal `Final`). -/
structure GameW where
  week : Line
  away_team : TeamW
  home_team : TeamW

/-- A row of one hundred `=` signs. -/
def eqLine : Line := List.replicate 100 '='

/-- The `Sacks:` field value written by `write_to_file` (lines
302-303): note the two different defaults in the two `get` calls. -/
def sacksWritten (s : Option Line) : Line :=
  if pyHasChar '-' (s.getD (chrs "0")) then
    ((pySplitChar '-' (s.getD (chrs "0-0"))).get? 0).getD []
  else chrs "0"

/-- The four stat lines `write_to_file` emits for one team (lines
293-304 and 307-318). -/
def statLinesW (st : StatsW) : List Line :=
  [chrs "    Total Yards: " ++ st.totalYards.getD (chrs "0") ++
     chrs " | Yards/Play: " ++ st.yardsPerPlay.getD (chrs "0") ++
     chrs " | Possession: " ++ st.possessionTime.getD (chrs "0:00"),
   chrs "    Passing: " ++ st.netPassingYards.getD (chrs "0") ++
     chrs "yds (" ++ st.completionAttempts.getD (chrs "0-0") ++
     chrs ") | Rushing: " ++ st.rushingYards.getD (chrs "0") ++
     chrs "yds (" ++ st.yardsPerRushAttempt.getD (chrs "0.0") ++
     chrs " avg) | 1st Downs: " ++ st.firstDowns.getD (chrs "0"),
   chrs "    3rd Down: " ++ st.thirdDownEff.getD (chrs "0-0") ++
     chrs " | 4th Down: " ++ st.fourthDownEff.getD (chrs "0-0") ++
     chrs " | Red Zone: " ++ st.redZoneAttempts.getD (chrs "0-0"),
   chrs "    Turnovers: " ++ st.turnovers.getD (chrs "0") ++
     chrs " (INT: " ++ st.interceptions.getD (chrs "0") ++
     chrs ", Fum: " ++ st.fumblesLost.getD (chrs "0") ++
     chrs ") | Sacks: " ++ sacksWritten st.sacksYardsLost ++
     chrs " | Penalties: " ++ st.totalPenaltiesYards.getD (chrs "0-0")]

/-- The QB line `write_to_file` emits (lines 284-289). -/
def qbLineW (tag : Line) (qb : QBWrite) : Line :=
  chrs "  " ++ tag ++ chrs " QB (" ++ qb.name ++ chrs "): " ++ qb.comp_att ++
    chrs " for " ++ qb.yards ++ chrs "yds, " ++ qb.tds ++ chrs "TD/" ++ qb.ints ++
    chrs "INT, " ++ qb.ypa ++ chrs " YPA, " ++ qb.qb_rating ++ chrs " RTG"

/-- The basic game-info line `write_to_file` emits (lines 278-279). -/
def gameLineW (g : GameW) : Line :=
  chrs "[" ++ g.week ++ chrs "] " ++ g.away_team.name ++ chrs " @ " ++ g.home_team.name ++
    chrs " | " ++ natToChars g.away_team.score ++ chrs "-" ++ natToChars g.home_team.score ++
    chrs " | Final"

/-- All lines `write_to_file` emits for a single game (lines 278-319). -/
def gameBlockW (g : GameW) : List Line :=
  [gameLineW g] ++
  (match g.away_team.qb with
   | some qb => [qbLineW (chrs "AWAY") qb]
   | none => []) ++
  (match g.home_team.qb with
   | some qb => [qbLineW (chrs "HOME") qb]
   | none => []) ++
  [chrs "  AWAY (" ++ g.away_team.name ++ chrs "):"] ++
  statLinesW g.away_team.stats ++
  [chrs "  HOME (" ++ g.home_team.name ++ chrs "):"] ++
  statLinesW g.home_team.stats ++
  [[]]

/-- The grouped per-game emission of `write_to_file` (lines 264-319),
threading `current_week`. -/
def writeGamesW : Option Line → List GameW → List Line
  | _, [] => []
  | current_week, g :: gs =>
    let wk : List Line :=
      if current_week = some g.week then []
      else [[], eqLine, g.week, eqLine, []]
    wk ++ gameBlockW g ++ writeGamesW (some g.week) gs

/-- src/NFL/dataextract.py `write_to_file` (lines 249-324), as the list
of lines of the file it produces. -/
def write_to_file (games : List GameW) (timestamp : Line) : List Line :=
  [chrs "NFL Game Data - Last Updated: " ++ timestamp, eqLine, []] ++
  (if games.isEmpty then [chrs "No game data available."]
   else writeGamesW none games ++
     [[], eqLine, chrs "Total games recorded: " ++ natToChars games.length])

/-- Projection of a parsed game record to the data the round-trip
claim speaks about: opponent name, location, and the two scores
(`score_for`, `score_against`). -/
def headerProjRec (r : GameRecord) : String × String × ℤ × ℤ :=
  (r.opponent, r.location, r.score_for, r.score_against)

/-- Projection of a whole `teams_data` to the round-trip data. -/
def headerProj (td : TeamsData) : List (String × List (String × String × ℤ × ℤ)) :=
  td.map (fun kv => (kv.1, kv.2.map headerProjRec))

/-- SPEC-SIDE (this definition follows the claim's words, to be
compared with what the parser produces): append one game entry to a
team's chronological list, creating the team on first appearance. -/
def specAppend (P : List (String × List (String × String × ℤ × ℤ)))
    (team : String) (e : String × String × ℤ × ℤ) :
    List (String × List (String × String × ℤ × ℤ)) :=
  if (P.lookup team).isSome then
    P.map (fun kv => if kv.1 == team then (kv.1, kv.2 ++ [e]) else kv)
  else P ++ [(team, [e])]

/-- SPEC-SIDE: what the claim expects after writing then re-parsing a
list of completed games, starting from records `P`: each game appears
once in each participating team's list, carrying the opponent's
written name and the written scores from that team's perspective. -/
def specFold (P : List (String × List (String × String × ℤ × ℤ))) :
    List GameW → List (String × List (String × String × ℤ × ℤ))
  | [] => P
  | g :: gs =>
    specFold
      (specAppend
        (specAppend P ⟨g.away_team.name⟩
          (⟨g.home_team.name⟩, "away", (g.away_team.score : ℤ), (g.home_team.score : ℤ)))
        ⟨g.home_team.name⟩
        (⟨g.away_team.name⟩, "home", (g.home_team.score : ℤ), (g.away_team.score : ℤ)))
      gs

/-- SPEC-SIDE: the expected round-trip records of a written file. -/
def specExpected (games : List GameW) : List (String × List (String × String × ℤ × ℤ)) :=
  specFold [] games

/-- Character well-formedness of one variable string of a written
game: none of the characters that drive the parser's line
classification ('@', '|', ']'), its section-marker detection
('_', 'Q', 'W'). -/
def wfFree (l : Line) : Bool :=
  l.all (fun c => !(c == '@' || c == '|' || c == ']' || c == '_' || c == 'Q' || c == 'W'))

/-- Well-formedness of a written QB dict: every written field is
character-clean. -/
def wfQBW (q : QBWrite) : Bool :=
  wfFree q.name && wfFree q.comp_att && wfFree q.yards && wfFree q.tds &&
    wfFree q.ints && wfFree q.ypa && wfFree q.qb_rating

/-- Well-formedness of a written stat bag: every string the writer
actually emits (field or its default) is character-clean. -/
def wfStatsW (st : StatsW) : Bool :=
  wfFree (st.totalYards.getD (chrs "0")) && wfFree (st.yardsPerPlay.getD (chrs "0")) &&
  wfFree (st.possessionTime.getD (chrs "0:00")) && wfFree (st.netPassingYards.getD (chrs "0")) &&
  wfFree (st.completionAttempts.getD (chrs "0-0")) && wfFree (st.rushingYards.getD (chrs "0")) &&
  wfFree (st.yardsPerRushAttempt.getD (chrs "0.0")) && wfFree (st.firstDowns.getD (chrs "0")) &&
  wfFree (st.thirdDownEff.getD (chrs "0-0")) && wfFree (st.fourthDownEff.getD (chrs "0-0")) &&
  wfFree (st.redZoneAttempts.getD (chrs "0-0")) && wfFree (st.turnovers.getD (chrs "0")) &&
  wfFree (st.interceptions.getD (chrs "0")) && wfFree (st.fumblesLost.getD (chrs "0")) &&
  wfFree (sacksWritten st.sacksYardsLost) && wfFree (st.totalPenaltiesYards.getD (chrs "0-0"))

/-- Well-formedness of one written team: clean, stripped, non-empty
name, clean stat strings, clean QB fields. -/
def wfTeamW (t : TeamW) : Bool :=
  wfFree t.name && (pyStrip t.name == t.name) && !t.name.isEmpty && wfStatsW t.stats &&
    (match t.qb with | none => true | some q => wfQBW q)

/-- Well-formedness of one written game: clean week label, two
well-formed teams with distinct names. -/
def wfGameW (g : GameW) : Bool :=
  wfFree g.week && wfTeamW g.away_team && wfTeamW g.home_team &&
    !(g.away_team.name == g.home_team.name)

end NFL

/-! ## Lemmas about the weighted average -/

theorem list_sum_all_eq (l : List ℝ) (c : ℝ) (h : ∀ x ∈ l, x = c) :
    l.sum = (l.length : ℝ) * c := by
  induction l with
  | nil => simp
  | cons a t ih =>
    have ha : a = c := h a (by simp)
    have ht : t.sum = (t.length : ℝ) * c := ih (fun x hx => h x (by simp [hx]))
    simp [ha, ht]
    ring

theorem zip_mul_sum_const (l ws : List ℝ) (c : ℝ) (hlen : l.length = ws.length)
    (h : ∀ x ∈ l, x = c) :
    ((l.zip ws).map (fun vw => vw.1 * vw.2)).sum = c * ws.sum := by
  induction l generalizing ws with
  | nil =>
    cases ws with
    | nil => simp
    | cons w t => simp at hlen
  | cons a t ih =>
    cases ws with
    | nil => simp at hlen
    | cons w wt =>
      have ha : a = c := h a (by simp)
      have := ih wt (by simpa using hlen) (fun x hx => h x (by simp [hx]))
      simp [ha, this]
      ring

theorem sum_map_div (l : List ℝ) (d : ℝ) : (l.map (fun w => w / d)).sum = l.sum / d := by
  induction l with
  | nil => simp
  | cons a t ih => simp [ih, add_div]

theorem weightedAverageWith_const (base : ℝ) (hbase : 0 < base)
    (values : List ℝ) (c : ℝ) (b : Bool) (hne : values ≠ [])
    (hc : ∀ x ∈ values, x = c) : weightedAverageWith base values b = c := by
  unfold weightedAverageWith
  have hlen0 : values.length ≠ 0 := fun h => hne (List.length_eq_zero.mp h)
  have hlenR : ((values.length : ℝ)) ≠ 0 := Nat.cast_ne_zero.mpr hlen0
  rw [if_neg (by simpa [List.isEmpty_iff] using hne)]
  by_cases hshort : b = false ∨ values.length ≤ 3
  · rw [if_pos hshort, list_sum_all_eq values c hc]
    field_simp
  · rw [if_neg hshort]
    set n := values.length with hn
    set wlist := (List.range n).map (fun (i : ℕ) => (1.0 : ℝ) * base ^ ((i : ℝ) / (n : ℝ)))
      with hwlist
    have hw : ∀ w ∈ wlist, 0 < w := by
      intro w hw
      obtain ⟨i, _, rfl⟩ := List.mem_map.mp hw
      have h1 : (0 : ℝ) < 1.0 := by norm_num
      exact mul_pos h1 (Real.rpow_pos_of_pos hbase ((i : ℝ) / (n : ℝ)))
    have hwn : wlist.length = n := by
      rw [hwlist, List.length_map, List.length_range]
    have hne' : wlist ≠ [] := by
      apply List.ne_nil_of_length_pos
      omega
    have hpos : 0 < wlist.sum := List.sum_pos _ hw hne'
    have hlens : values.length = (wlist.map (fun w => w / wlist.sum)).length := by
      rw [List.length_map, hwn]
    rw [zip_mul_sum_const _ _ c hlens hc, sum_map_div, div_self (ne_of_gt hpos), mul_one]

/-- C4: for every non-empty constant list the three modules'
`calculate_weighted_average` return the constant, whatever the list
length and whether or not recency weighting is enabled. -/
theorem c4_weighted_average_of_constant_list (values : List ℝ) (c : ℝ) (b : Bool)
    (hne : values ≠ []) (hc : ∀ x ∈ values, x = c) :
    NFL.calculate_weighted_average values b = c ∧
    MLB.calculate_weighted_average values b = c ∧
    CFB.calculate_weighted_average values b = c :=
  ⟨weightedAverageWith_const 1.5 (by norm_num) values c b hne hc,
   weightedAverageWith_const 2.0 (by norm_num) values c b hne hc,
   weightedAverageWith_const 1.5 (by norm_num) values c b hne hc⟩

/-- Witness for C4 at the concrete list `[2, 2, 2, 2]` with recency
weighting enabled. -/
theorem c4_weighted_average_of_constant_list_witness :
    (([(2 : ℝ), 2, 2, 2] ≠ []) ∧ (∀ x ∈ [(2 : ℝ), 2, 2, 2], x = 2)) ∧
    NFL.calculate_weighted_average [(2 : ℝ), 2, 2, 2] true = 2 ∧
    MLB.calculate_weighted_average [(2 : ℝ), 2, 2, 2] true = 2 ∧
    CFB.calculate_weighted_average [(2 : ℝ), 2, 2, 2] true = 2 :=
  ⟨⟨by simp, by simp⟩,
   c4_weighted_average_of_constant_list [(2 : ℝ), 2, 2, 2] 2 true (by simp) (by simp)⟩

/-! ## Lemmas for the decay-weight ratio (C8) -/

theorem decayWeights_head (base : ℝ) (m : ℕ) :
    (decayWeights base (m + 1)).head? = some ((1.0 : ℝ) * base ^ ((0 : ℝ) / ((m + 1 : ℕ) : ℝ))) := by
  unfold decayWeights
  rw [List.range_succ_eq_map]
  simp

theorem decayWeights_getLast (base : ℝ) (m : ℕ) :
    (decayWeights base (m + 1)).getLast? =
      some ((1.0 : ℝ) * base ^ ((m : ℝ) / ((m + 1 : ℕ) : ℝ))) := by
  unfold decayWeights
  rw [List.range_succ, List.map_append]
  simp

theorem lastToFirstWeightRatio_eq (base : ℝ) (m : ℕ) :
    lastToFirstWeightRatio base (m + 1) = base ^ ((m : ℝ) / ((m + 1 : ℕ) : ℝ)) := by
  unfold lastToFirstWeightRatio
  rw [decayWeights_head, decayWeights_getLast]
  simp [Real.rpow_zero]
  norm_num

theorem ratio_exponent_mem (m : ℕ) (hm : 3 ≤ m) :
    0 < (m : ℝ) / ((m + 1 : ℕ) : ℝ) ∧ (m : ℝ) / ((m + 1 : ℕ) : ℝ) < 1 ∧
      3 / 4 ≤ (m : ℝ) / ((m + 1 : ℕ) : ℝ) := by
  have h0 : (0 : ℝ) < ((m + 1 : ℕ) : ℝ) := by positivity
  have hmR : (3 : ℝ) ≤ (m : ℝ) := by exact_mod_cast hm
  refine ⟨by positivity, ?_, ?_⟩
  · rw [div_lt_one h0]
    push_cast
    linarith
  · rw [le_div_iff h0]
    push_cast
    linarith

theorem two_rpow_three_quarters_gt : (3 / 2 : ℝ) < (2 : ℝ) ^ ((3 : ℝ) / 4) := by
  have h2 : (0 : ℝ) ≤ 2 := by norm_num
  have hpow : ((2 : ℝ) ^ ((3 : ℝ) / 4)) ^ (4 : ℕ) = (2 : ℝ) ^ ((3 : ℝ)) := by
    rw [← Real.rpow_natCast ((2 : ℝ) ^ ((3 : ℝ) / 4)) 4, ← Real.rpow_mul h2]
    norm_num
  have hlt : ((3 / 2 : ℝ)) ^ (4 : ℕ) < ((2 : ℝ) ^ ((3 : ℝ) / 4)) ^ (4 : ℕ) := by
    rw [hpow]
    have : (2 : ℝ) ^ ((3 : ℝ)) = 8 := by
      rw [show ((3 : ℝ)) = ((3 : ℕ) : ℝ) by norm_num, Real.rpow_natCast]
      norm_num
    rw [this]
    norm_num
  exact lt_of_pow_lt_pow_left 4 (Real.rpow_nonneg h2 _) hlt

/-- C8 counterexample: for a four-value list the NFL/CFB decay curve's
most-recent-to-oldest unnormalized weight ratio is `1.5 ^ (3/4)`, which
is strictly below the claimed 1.5-2.0 band. -/
theorem c8_counterexample :
    ¬ ((3 / 2 : ℝ) ≤ lastToFirstWeightRatio (3 / 2) 4) := by
  rw [show (4 : ℕ) = 3 + 1 by norm_num, lastToFirstWeightRatio_eq]
  push_neg
  calc (3 / 2 : ℝ) ^ ((3 : ℝ) / ((3 + 1 : ℕ) : ℝ))
      < (3 / 2 : ℝ) ^ (1 : ℝ) := by
        apply Real.rpow_lt_rpow_of_exponent_lt (by norm_num)
        norm_num
    _ = 3 / 2 := Real.rpow_one _


/-- C8 (amended): for every list of more than three values the
unnormalized most-recent/oldest weight ratio equals
`base ^ ((n-1)/n)`: for the NFL and CFB curves (base 1.5) it lies
strictly between 1 and 1.5 — strictly below the claimed 1.5-2.0
range — while for the MLB curve (base 2.0) it does lie strictly
between 1.5 and 2.0. -/
theorem c8_decay_ratio_bounds (n : ℕ) (hn : 3 < n) :
    (1 < lastToFirstWeightRatio (3 / 2) n ∧ lastToFirstWeightRatio (3 / 2) n < 3 / 2) ∧
    (3 / 2 < lastToFirstWeightRatio 2 n ∧ lastToFirstWeightRatio 2 n < 2) := by
  obtain ⟨m, rfl⟩ : ∃ m, n = m + 1 := ⟨n - 1, by omega⟩
  have hm : 3 ≤ m := by omega
  obtain ⟨hx0, hx1, hx34⟩ := ratio_exponent_mem m hm
  rw [lastToFirstWeightRatio_eq, lastToFirstWeightRatio_eq]
  refine ⟨⟨?_, ?_⟩, ?_, ?_⟩
  · calc (1 : ℝ) = (3 / 2 : ℝ) ^ (0 : ℝ) := (Real.rpow_zero _).symm
      _ < (3 / 2 : ℝ) ^ ((m : ℝ) / ((m + 1 : ℕ) : ℝ)) :=
        Real.rpow_lt_rpow_of_exponent_lt (by norm_num) hx0
  · calc (3 / 2 : ℝ) ^ ((m : ℝ) / ((m + 1 : ℕ) : ℝ))
        < (3 / 2 : ℝ) ^ (1 : ℝ) := Real.rpow_lt_rpow_of_exponent_lt (by norm_num) hx1
      _ = 3 / 2 := Real.rpow_one _
  · calc (3 / 2 : ℝ) < (2 : ℝ) ^ ((3 : ℝ) / 4) := two_rpow_three_quarters_gt
      _ ≤ (2 : ℝ) ^ ((m : ℝ) / ((m + 1 : ℕ) : ℝ)) :=
        Real.rpow_le_rpow_of_exponent_le (by norm_num) hx34
  · calc (2 : ℝ) ^ ((m : ℝ) / ((m + 1 : ℕ) : ℝ))
        < (2 : ℝ) ^ (1 : ℝ) := Real.rpow_lt_rpow_of_exponent_lt (by norm_num) hx1
      _ = 2 := Real.rpow_one _

/-- Witness for the amended C8 at `n = 4`. -/
theorem c8_decay_ratio_bounds_witness :
    (3 < 4) ∧
    ((1 < lastToFirstWeightRatio (3 / 2) 4 ∧ lastToFirstWeightRatio (3 / 2) 4 < 3 / 2) ∧
     (3 / 2 < lastToFirstWeightRatio 2 4 ∧ lastToFirstWeightRatio 2 4 < 2)) :=
  ⟨by norm_num, c8_decay_ratio_bounds 4 (by norm_num)⟩

/-! ## C6: the confidence formula of the final-prediction step -/

theorem confidence_formula_aux (hp ap : ℝ) (h : hp ≠ ap) :
    (if hp > ap then min ((hp - ap) / 6 * 100) 95
     else if ap > hp then min ((ap - hp) / 6 * 100) 95
     else (50 : ℝ)) = min (|hp - ap| / 6 * 100) 95 := by
  rcases lt_trichotomy hp ap with hlt | heq | hgt
  · rw [if_neg (by linarith), if_pos hlt, abs_sub_comm, abs_of_pos (by linarith)]
  · exact absurd heq h
  · rw [if_pos hgt, abs_of_pos (by linarith)]

theorem confidence_le_aux (hp ap : ℝ) :
    (if hp > ap then min ((hp - ap) / 6 * 100) 95
     else if ap > hp then min ((ap - hp) / 6 * 100) 95
     else (50 : ℝ)) ≤ 95 := by
  split_ifs
  · exact min_le_right _ _
  · exact min_le_right _ _
  · norm_num

/-- C6: in the NFL and CFB `main`, whenever the heuristic totals are
unequal the reported confidence equals
`min(|home_points - away_points| / 6 * 100, 95)`, and for every input
(equal totals report the 50% toss-up) the confidence never exceeds
95%. -/
theorem c6_confidence_formula (hp ap : ℝ) :
    (hp ≠ ap →
      NFL.confidencePct hp ap = min (|hp - ap| / 6 * 100) 95 ∧
      CFB.confidencePct hp ap = min (|hp - ap| / 6 * 100) 95) ∧
    NFL.confidencePct hp ap ≤ 95 ∧ CFB.confidencePct hp ap ≤ 95 :=
  ⟨fun h => ⟨confidence_formula_aux hp ap h, confidence_formula_aux hp ap h⟩,
   confidence_le_aux hp ap, confidence_le_aux hp ap⟩

/-- Witness for C6 at `(10, 4)`. -/
theorem c6_confidence_formula_witness :
    ((10 : ℝ) ≠ 4) ∧
    (NFL.confidencePct 10 4 = min (|(10 : ℝ) - 4| / 6 * 100) 95 ∧
     CFB.confidencePct 10 4 = min (|(10 : ℝ) - 4| / 6 * 100) 95) ∧
    NFL.confidencePct 10 4 ≤ 95 ∧ CFB.confidencePct 10 4 ≤ 95 :=
  ⟨by norm_num, (c6_confidence_formula 10 4).1 (by norm_num),
   (c6_confidence_formula 10 4).2.1, (c6_confidence_formula 10 4).2.2⟩

/-! ## C7: the missing-team and missing-data guards -/

/-- C7: `advanced_prediction` returns `None` (without raising) when
`teams_data` is `None`, and likewise when the home or the away team is
not a key of `teams_data`. -/
theorem c7_not_found_guards (td : NFL.TeamsData) (h a : String)
    (is_neutral : Bool) (inj : Option NFL.InjuryData) :
    (NFL.advanced_prediction h a none is_neutral inj = .ok none) ∧
    (td.lookup h = none →
      NFL.advanced_prediction h a (some td) is_neutral inj = .ok none) ∧
    (td.lookup a = none →
      NFL.advanced_prediction h a (some td) is_neutral inj = .ok none) := by
  refine ⟨rfl, ?_, ?_⟩
  · intro hh
    simp only [NFL.advanced_prediction]
    rw [hh]
  · intro ha
    simp only [NFL.advanced_prediction]
    cases hh : td.lookup h with
    | none => rfl
    | some _ => rw [ha]

/-- Witness for C7 on an empty `teams_data`. -/
theorem c7_not_found_guards_witness :
    (NFL.advanced_prediction ("A") ("B") none true none = .ok none) ∧
    (([] : NFL.TeamsData).lookup ("A") = none) ∧
    (NFL.advanced_prediction ("A") ("B") (some ([] : NFL.TeamsData)) true none = .ok none) :=
  ⟨(c7_not_found_guards [] ("A") ("B") true none).1, rfl,
   (c7_not_found_guards [] ("A") ("B") true none).2.1 rfl⟩

/-! ## C9: tied games create no records -/

/-- C9: the record-creation step of `read_nfl_data` leaves `teams_data`
untouched whenever the two scores are equal — records are appended only
in the strict `away_score > home_score` and `home_score > away_score`
branches, so a tied game contributes to neither team's history. -/
theorem c9_tied_games_dropped (td : NFL.TeamsData) (away_team home_team : String)
    (s : ℤ) (is_preseason : Bool) (away_stats home_stats : NFL.TeamStats)
    (away_qb home_qb : Option NFL.QBStats) :
    NFL.addGameRecords td away_team home_team s s is_preseason
      away_stats home_stats away_qb home_qb = td := by
  unfold NFL.addGameRecords
  simp [lt_irrefl]

/-! ## Success and failure of the NFL per-game loop -/

theorem qbLoopStep_ok_of_qb (st : NFL.LoopVals) (g : NFL.GameRecord)
    (h : g.qb_stats.isSome) :
    ∃ st', NFL.qbLoopStep st g = .ok st' ∧ st'.ypa.isSome ∧ st'.pts.isSome := by
  obtain ⟨qb, hqb⟩ := Option.isSome_iff_exists.mp h
  simp only [NFL.qbLoopStep, hqb]
  exact ⟨_, rfl, rfl, rfl⟩

theorem qbLoopStep_ok_of_assigned (st : NFL.LoopVals) (g : NFL.GameRecord)
    (hy : st.ypa.isSome) (hp : st.pts.isSome) :
    ∃ st', NFL.qbLoopStep st g = .ok st' ∧ st'.ypa.isSome ∧ st'.pts.isSome := by
  cases hqb : g.qb_stats with
  | some qb =>
    simp only [NFL.qbLoopStep, hqb]
    exact ⟨_, rfl, rfl, rfl⟩
  | none =>
    obtain ⟨y, hy'⟩ := Option.isSome_iff_exists.mp hy
    obtain ⟨p, hp'⟩ := Option.isSome_iff_exists.mp hp
    simp only [NFL.qbLoopStep, hqb, hy', hp']
    exact ⟨_, rfl, rfl, rfl⟩

theorem qbLoop_ok_of_assigned (gs : List NFL.GameRecord) :
    ∀ st : NFL.LoopVals, st.ypa.isSome → st.pts.isSome →
      ∃ lv, NFL.qbLoop gs st = .ok lv := by
  induction gs with
  | nil => exact fun st _ _ => ⟨st, rfl⟩
  | cons g rest ih =>
    intro st hy hp
    obtain ⟨st', hstep, hy', hp'⟩ := qbLoopStep_ok_of_assigned st g hy hp
    obtain ⟨lv, hlv⟩ := ih st' hy' hp'
    refine ⟨lv, ?_⟩
    simp only [NFL.qbLoop, hstep]
    exact hlv

theorem qbLoop_ok_of_first_qb (g : NFL.GameRecord) (gs : List NFL.GameRecord)
    (st : NFL.LoopVals) (h : g.qb_stats.isSome) :
    ∃ lv, NFL.qbLoop (g :: gs) st = .ok lv := by
  obtain ⟨st', hstep, hy', hp'⟩ := qbLoopStep_ok_of_qb st g h
  obtain ⟨lv, hlv⟩ := qbLoop_ok_of_assigned gs st' hy' hp'
  refine ⟨lv, ?_⟩
  simp only [NFL.qbLoop, hstep]
  exact hlv

theorem qbLoop_err_of_first_no_qb (g : NFL.GameRecord) (gs : List NFL.GameRecord)
    (h : g.qb_stats = none) :
    NFL.qbLoop (g :: gs) ({} : NFL.LoopVals) = .error PyErr.unboundLocal := by
  have hstep : NFL.qbLoopStep ({} : NFL.LoopVals) g = .error PyErr.unboundLocal := by
    simp only [NFL.qbLoopStep, h]
  simp only [NFL.qbLoop, hstep]

/-! ## Success characterization of the three `calculate_team_averages` -/

theorem nfl_cta_ok (team : String) (td : NFL.TeamsData) (games0 : List NFL.GameRecord)
    (hlk : td.lookup team = some games0)
    (hne : games0.filter (fun g => !g.preseason) ≠ [])
    (hqb : (((games0.filter (fun g => !g.preseason)).head?.bind (fun g => g.qb_stats)).isSome))
    (hden : ((games0.filter (fun g => !g.preseason)).map (fun g => (g.score_for : ℝ))).sum ^ (2.37 : ℝ)
        + ((games0.filter (fun g => !g.preseason)).map (fun g => (g.score_against : ℝ))).sum ^ (2.37 : ℝ) ≠ 0) :
    ∃ avgs, NFL.calculate_team_averages team td true = .ok (some avgs) ∧
      avgs.wins = (games0.filter (fun g => !g.preseason)).countP (fun g => g.result == "W") ∧
      avgs.games_played = (games0.filter (fun g => !g.preseason)).length ∧
      avgs.win_rate = ((games0.filter (fun g => !g.preseason)).countP (fun g => g.result == "W") : ℝ)
          / ((games0.filter (fun g => !g.preseason)).length : ℝ) ∧
      avgs.pythagorean_win_rate =
        ((games0.filter (fun g => !g.preseason)).map (fun g => (g.score_for : ℝ))).sum ^ (2.37 : ℝ)
          / (((games0.filter (fun g => !g.preseason)).map (fun g => (g.score_for : ℝ))).sum ^ (2.37 : ℝ)
            + ((games0.filter (fun g => !g.preseason)).map (fun g => (g.score_against : ℝ))).sum ^ (2.37 : ℝ)) := by
  obtain ⟨g, rest, hcons⟩ : ∃ g rest,
      games0.filter (fun g => !g.preseason) = g :: rest := by
    cases hg : games0.filter (fun g => !g.preseason) with
    | nil => exact absurd hg hne
    | cons a b => exact ⟨a, b, rfl⟩
  have hqb' : g.qb_stats.isSome := by
    rw [hcons] at hqb
    simpa using hqb
  obtain ⟨lv, hlv⟩ := qbLoop_ok_of_first_qb g rest {} hqb'
  rw [← hcons] at hlv
  have hemp : (games0.filter (fun g => !g.preseason)).isEmpty = false := by
    rw [hcons]
    rfl
  unfold NFL.calculate_team_averages
  rw [hlk]
  simp only [if_true, hemp, Bool.false_eq_true, if_false, hlv]
  rw [if_neg hden]
  exact ⟨_, rfl, rfl, rfl, rfl, rfl⟩

theorem mlb_cta_ok (team : String) (td : MLB.TeamsData) (games : List MLB.GameRecord)
    (hlk : td.lookup team = some games)
    (hne : games ≠ [])
    (hden : (games.map (fun g => (g.runs_for : ℝ))).sum ^ (1.83 : ℝ)
        + (games.map (fun g => (g.runs_against : ℝ))).sum ^ (1.83 : ℝ) ≠ 0) :
    ∃ avgs, MLB.calculate_team_averages team td = .ok (some avgs) ∧
      avgs.wins = games.countP (fun g => g.result == "W") ∧
      avgs.games_played = games.length ∧
      avgs.win_rate = (games.countP (fun g => g.result == "W") : ℝ) / (games.length : ℝ) ∧
      avgs.pythagorean_win_rate =
        (games.map (fun g => (g.runs_for : ℝ))).sum ^ (1.83 : ℝ)
          / ((games.map (fun g => (g.runs_for : ℝ))).sum ^ (1.83 : ℝ)
            + (games.map (fun g => (g.runs_against : ℝ))).sum ^ (1.83 : ℝ)) := by
  have hemp : games.isEmpty = false := by
    cases games with
    | nil => exact absurd rfl hne
    | cons a b => rfl
  unfold MLB.calculate_team_averages
  rw [hlk]
  simp only [hemp, Bool.false_eq_true, if_false]
  rw [if_neg hden]
  exact ⟨_, rfl, rfl, rfl, rfl, rfl⟩

theorem cfb_cta_ok (team : String) (td : CFB.TeamsData) (games : List CFB.GameRecord)
    (hlk : td.lookup team = some games)
    (hne : games ≠ [])
    (hden : (games.map (fun g => (g.score_for : ℝ))).sum ^ (2.37 : ℝ)
        + (games.map (fun g => (g.score_against : ℝ))).sum ^ (2.37 : ℝ) ≠ 0) :
    ∃ avgs, CFB.calculate_team_averages team td false = .ok (some avgs) ∧
      avgs.wins = games.countP (fun g => g.result == "W") ∧
      avgs.games_played = games.length ∧
      avgs.win_rate = (games.countP (fun g => g.result == "W") : ℝ) / (games.length : ℝ) ∧
      avgs.pythagorean_win_rate =
        (games.map (fun g => (g.score_for : ℝ))).sum ^ (2.37 : ℝ)
          / ((games.map (fun g => (g.score_for : ℝ))).sum ^ (2.37 : ℝ)
            + (games.map (fun g => (g.score_against : ℝ))).sum ^ (2.37 : ℝ)) := by
  have hemp : games.isEmpty = false := by
    cases games with
    | nil => exact absurd rfl hne
    | cons a b => rfl
  unfold CFB.calculate_team_averages
  rw [hlk]
  simp only [Bool.false_eq_true, if_false, hemp]
  rw [if_neg hden]
  exact ⟨_, rfl, rfl, rfl, rfl, rfl⟩

/-! ## C3: win_rate = wins / games_played -/

/-- C3: whenever the NFL or MLB `calculate_team_averages` returns a
record (team present, at least one game after the regular-season filter
where it applies, and the computation completes), the returned
`win_rate` equals `wins / games_played` exactly, `wins` and
`games_played` being the other fields of the same record.  The side
hypotheses are exactly the conditions under which the Python function
returns instead of raising: a usable first `qb_stats` entry (see C10)
and a non-zero Pythagorean denominator (see C1). -/
theorem c3_win_rate_exact :
    (∀ (td : NFL.TeamsData) (team : String) (games0 : List NFL.GameRecord),
      td.lookup team = some games0 →
      games0.filter (fun g => !g.preseason) ≠ [] →
      (((games0.filter (fun g => !g.preseason)).head?.bind (fun g => g.qb_stats)).isSome) →
      ((games0.filter (fun g => !g.preseason)).map (fun g => (g.score_for : ℝ))).sum ^ (2.37 : ℝ)
          + ((games0.filter (fun g => !g.preseason)).map (fun g => (g.score_against : ℝ))).sum ^ (2.37 : ℝ) ≠ 0 →
      ∃ avgs, NFL.calculate_team_averages team td true = .ok (some avgs) ∧
        avgs.win_rate = (avgs.wins : ℝ) / (avgs.games_played : ℝ)) ∧
    (∀ (td : MLB.TeamsData) (team : String) (games : List MLB.GameRecord),
      td.lookup team = some games →
      games ≠ [] →
      (games.map (fun g => (g.runs_for : ℝ))).sum ^ (1.83 : ℝ)
          + (games.map (fun g => (g.runs_against : ℝ))).sum ^ (1.83 : ℝ) ≠ 0 →
      ∃ avgs, MLB.calculate_team_averages team td = .ok (some avgs) ∧
        avgs.win_rate = (avgs.wins : ℝ) / (avgs.games_played : ℝ)) := by
  constructor
  · intro td team games0 hlk hne hqb hden
    obtain ⟨avgs, hok, hw, hg, hwr, _⟩ := nfl_cta_ok team td games0 hlk hne hqb hden
    exact ⟨avgs, hok, by rw [hwr, hw, hg]⟩
  · intro td team games hlk hne hden
    obtain ⟨avgs, hok, hw, hg, hwr, _⟩ := mlb_cta_ok team td games hlk hne hden
    exact ⟨avgs, hok, by rw [hwr, hw, hg]⟩

/-- Witness for C3 on one-game histories (NFL 17-13 with QB stats, MLB
5-3). -/
theorem c3_win_rate_exact_witness :
    (∃ avgs, NFL.calculate_team_averages ("A")
        [(("A" : String), [⟨"B", "home", "W", 17, 13, 4, false, {}, {},
          some ⟨[], 0, 0, 0, 0, 0⟩⟩])] true = .ok (some avgs) ∧
      avgs.win_rate = (avgs.wins : ℝ) / (avgs.games_played : ℝ)) ∧
    (∃ avgs, MLB.calculate_team_averages ("A")
        [(("A" : String), [⟨"B", "home", "W", 5, 3, "d", {}, {}⟩])] = .ok (some avgs) ∧
      avgs.win_rate = (avgs.wins : ℝ) / (avgs.games_played : ℝ)) := by
  constructor
  · exact c3_win_rate_exact.1 _ _ _ rfl (by simp) (by rfl)
      (by
        have h17 : (((([⟨"B", "home", "W", 17, 13, 4, false, {}, {},
            some ⟨[], 0, 0, 0, 0, 0⟩⟩] : List NFL.GameRecord).filter
              (fun g => !g.preseason)).map (fun g => (g.score_for : ℝ))).sum) = 17 := by
          norm_num [List.filter, List.sum]
        have h13 : (((([⟨"B", "home", "W", 17, 13, 4, false, {}, {},
            some ⟨[], 0, 0, 0, 0, 0⟩⟩] : List NFL.GameRecord).filter
              (fun g => !g.preseason)).map (fun g => (g.score_against : ℝ))).sum) = 13 := by
          norm_num [List.filter, List.sum]
        rw [h17, h13]
        have := Real.rpow_pos_of_pos (show (0 : ℝ) < 17 by norm_num) (2.37 : ℝ)
        have := Real.rpow_nonneg (show (0 : ℝ) ≤ 13 by norm_num) (2.37 : ℝ)
        positivity)
  · exact c3_win_rate_exact.2 _ _ _ rfl (by simp)
      (by
        have h5 : ((([⟨"B", "home", "W", 5, 3, "d", {}, {}⟩] :
            List MLB.GameRecord).map (fun g => (g.runs_for : ℝ))).sum) = 5 := by
          norm_num [List.sum]
        have h3 : ((([⟨"B", "home", "W", 5, 3, "d", {}, {}⟩] :
            List MLB.GameRecord).map (fun g => (g.runs_against : ℝ))).sum) = 3 := by
          norm_num [List.sum]
        rw [h5, h3]
        have := Real.rpow_pos_of_pos (show (0 : ℝ) < 5 by norm_num) (1.83 : ℝ)
        have := Real.rpow_nonneg (show (0 : ℝ) ≤ 3 by norm_num) (1.83 : ℝ)
        positivity)

/-! ## C10: the unassigned-locals crash of the NFL qb fallback -/

/-- C10: if a team's first iterated game record (after the
regular-season filter) has no usable `qb_stats` entry, the NFL
`calculate_team_averages` raises `UnboundLocalError` instead of
returning a record: the fallback branch reads the loop locals
`ypa`/`pts` before their first assignment (they are only assigned at
the EPA-proxy and explosive-play steps later in each iteration). -/
theorem c10_qb_fallback_unbound_local (td : NFL.TeamsData) (team : String)
    (games0 : List NFL.GameRecord) (g : NFL.GameRecord) (rest : List NFL.GameRecord)
    (hlk : td.lookup team = some games0)
    (hcons : games0.filter (fun x => !x.preseason) = g :: rest)
    (hqb : g.qb_stats = none) :
    NFL.calculate_team_averages team td true = .error PyErr.unboundLocal := by
  have hloop := qbLoop_err_of_first_no_qb g rest hqb
  rw [← hcons] at hloop
  have hemp : (games0.filter (fun x => !x.preseason)).isEmpty = false := by
    rw [hcons]
    rfl
  unfold NFL.calculate_team_averages
  rw [hlk]
  simp only [if_true, hemp, Bool.false_eq_true, if_false, hloop]

/-- Witness for C10: a single regular-season game without QB stats. -/
theorem c10_qb_fallback_unbound_local_witness :
    ((([⟨"B", "home", "W", 17, 13, 4, false, {}, {}, none⟩] :
        List NFL.GameRecord).filter (fun x => !x.preseason)) =
      [⟨"B", "home", "W", 17, 13, 4, false, {}, {}, none⟩]) ∧
    NFL.calculate_team_averages ("A")
      [(("A" : String), [⟨"B", "home", "W", 17, 13, 4, false, {}, {}, none⟩])] true =
        .error PyErr.unboundLocal :=
  ⟨rfl, c10_qb_fallback_unbound_local _ _ _ _ _ rfl rfl rfl⟩

/-! ## C1: the Pythagorean expectation -/

theorem pyth_in_unit (S A e : ℝ) (hS : 0 ≤ S) (hA : 0 ≤ A)
    (hne : ¬(S = 0 ∧ A = 0)) :
    S ^ e + A ^ e ≠ 0 ∧ 0 ≤ S ^ e / (S ^ e + A ^ e) ∧ S ^ e / (S ^ e + A ^ e) ≤ 1 := by
  have hden : 0 < S ^ e + A ^ e := by
    rcases not_and_or.mp hne with h | h
    · have hS' : 0 < S := lt_of_le_of_ne hS (Ne.symm h)
      have := Real.rpow_pos_of_pos hS' e
      have := Real.rpow_nonneg hA e
      linarith
    · have hA' : 0 < A := lt_of_le_of_ne hA (Ne.symm h)
      have := Real.rpow_pos_of_pos hA' e
      have := Real.rpow_nonneg hS e
      linarith
  refine ⟨ne_of_gt hden, div_nonneg (Real.rpow_nonneg hS e) (le_of_lt hden), ?_⟩
  rw [div_le_one hden]
  have := Real.rpow_nonneg hA e
  linarith

/-- C1 counterexample: a team whose single (non-negative-score) game
ended 0-0 as data makes `calculate_team_averages` raise
`ZeroDivisionError` at the Pythagorean step — `0**2.37 / (0**2.37 +
0**2.37)` divides by zero — so the computation is not well-defined on
every non-negative list, contrary to the claim. -/
theorem c1_counterexample :
    (∀ g ∈ [(⟨"B", "home", "W", 0, 0, 0, false, {}, {},
        some ⟨[], 0, 0, 0, 0, 0⟩⟩ : NFL.GameRecord)],
      0 ≤ g.score_for ∧ 0 ≤ g.score_against) ∧
    NFL.calculate_team_averages ("A")
      [(("A" : String), [⟨"B", "home", "W", 0, 0, 0, false, {}, {},
        some ⟨[], 0, 0, 0, 0, 0⟩⟩])] true = .error PyErr.zeroDivision := by
  constructor
  · intro g hg
    rw [List.mem_singleton] at hg
    rw [hg]
    exact ⟨le_refl 0, le_refl 0⟩
  · obtain ⟨lv, hlv⟩ := qbLoop_ok_of_first_qb
      (⟨"B", "home", "W", 0, 0, 0, false, {}, {}, some ⟨[], 0, 0, 0, 0, 0⟩⟩ : NFL.GameRecord)
      [] {} rfl
    have hlv' : NFL.qbLoop (([(⟨"B", "home", "W", 0, 0, 0, false, {}, {},
        some ⟨[], 0, 0, 0, 0, 0⟩⟩ : NFL.GameRecord)]).filter (fun g => !g.preseason)) {} =
        .ok lv := hlv
    have hden : ((([(⟨"B", "home", "W", 0, 0, 0, false, {}, {},
          some ⟨[], 0, 0, 0, 0, 0⟩⟩ : NFL.GameRecord)]).filter (fun g => !g.preseason)).map
            (fun g => (g.score_for : ℝ))).sum ^ (2.37 : ℝ)
        + ((([(⟨"B", "home", "W", 0, 0, 0, false, {}, {},
          some ⟨[], 0, 0, 0, 0, 0⟩⟩ : NFL.GameRecord)]).filter (fun g => !g.preseason)).map
            (fun g => (g.score_against : ℝ))).sum ^ (2.37 : ℝ) = 0 := by
      have h0 : ((([(⟨"B", "home", "W", 0, 0, 0, false, {}, {},
          some ⟨[], 0, 0, 0, 0, 0⟩⟩ : NFL.GameRecord)]).filter (fun g => !g.preseason)).map
            (fun g => (g.score_for : ℝ))).sum = 0 := by
        norm_num [List.filter, List.sum]
      have h0' : ((([(⟨"B", "home", "W", 0, 0, 0, false, {}, {},
          some ⟨[], 0, 0, 0, 0, 0⟩⟩ : NFL.GameRecord)]).filter (fun g => !g.preseason)).map
            (fun g => (g.score_against : ℝ))).sum = 0 := by
        norm_num [List.filter, List.sum]
      rw [h0, h0', Real.zero_rpow (by norm_num : (2.37 : ℝ) ≠ 0)]
      norm_num
    unfold NFL.calculate_team_averages
    rw [show (List.lookup ("A")
        [(("A" : String), [(⟨"B", "home", "W", 0, 0, 0, false, {}, {},
          some ⟨[], 0, 0, 0, 0, 0⟩⟩ : NFL.GameRecord)])]) = some [⟨"B", "home", "W", 0, 0, 0,
            false, {}, {}, some ⟨[], 0, 0, 0, 0, 0⟩⟩] from rfl]
    simp only [if_true, hlv']
    rw [if_pos hden]
    rw [if_neg (by decide)]

/-- C1 (amended): for every team whose game list carries only
non-negative scores and whose score totals are not both zero, the three
modules' `calculate_team_averages` return a record whose
`pythagorean_win_rate` lies in `[0, 1]` (for the NFL module, provided
the per-game loop itself completes, i.e. the first filtered game has QB
stats — see C10); on the all-zero list the Pythagorean step divides by
zero (see the counterexample), so well-definedness holds only away from
that case. -/
theorem c1_pythagorean_in_unit_interval :
    (∀ (td : NFL.TeamsData) (team : String) (games0 : List NFL.GameRecord),
      td.lookup team = some games0 →
      games0.filter (fun g => !g.preseason) ≠ [] →
      (((games0.filter (fun g => !g.preseason)).head?.bind (fun g => g.qb_stats)).isSome) →
      (∀ g ∈ games0, 0 ≤ g.score_for ∧ 0 ≤ g.score_against) →
      ¬(((games0.filter (fun g => !g.preseason)).map (fun g => (g.score_for : ℝ))).sum = 0 ∧
        ((games0.filter (fun g => !g.preseason)).map (fun g => (g.score_against : ℝ))).sum = 0) →
      ∃ avgs, NFL.calculate_team_averages team td true = .ok (some avgs) ∧
        0 ≤ avgs.pythagorean_win_rate ∧ avgs.pythagorean_win_rate ≤ 1) ∧
    (∀ (td : MLB.TeamsData) (team : String) (games : List MLB.GameRecord),
      td.lookup team = some games →
      games ≠ [] →
      (∀ g ∈ games, 0 ≤ g.runs_for ∧ 0 ≤ g.runs_against) →
      ¬((games.map (fun g => (g.runs_for : ℝ))).sum = 0 ∧
        (games.map (fun g => (g.runs_against : ℝ))).sum = 0) →
      ∃ avgs, MLB.calculate_team_averages team td = .ok (some avgs) ∧
        0 ≤ avgs.pythagorean_win_rate ∧ avgs.pythagorean_win_rate ≤ 1) ∧
    (∀ (td : CFB.TeamsData) (team : String) (games : List CFB.GameRecord),
      td.lookup team = some games →
      games ≠ [] →
      (∀ g ∈ games, 0 ≤ g.score_for ∧ 0 ≤ g.score_against) →
      ¬((games.map (fun g => (g.score_for : ℝ))).sum = 0 ∧
        (games.map (fun g => (g.score_against : ℝ))).sum = 0) →
      ∃ avgs, CFB.calculate_team_averages team td false = .ok (some avgs) ∧
        0 ≤ avgs.pythagorean_win_rate ∧ avgs.pythagorean_win_rate ≤ 1) := by
  refine ⟨?_, ?_, ?_⟩
  · intro td team games0 hlk hne hqb hnn hnz
    have hS : 0 ≤ ((games0.filter (fun g => !g.preseason)).map
        (fun g => (g.score_for : ℝ))).sum := by
      apply List.sum_nonneg
      intro x hx
      obtain ⟨g, hg, rfl⟩ := List.mem_map.mp hx
      have := (hnn g (List.mem_of_mem_filter hg)).1
      exact_mod_cast this
    have hA : 0 ≤ ((games0.filter (fun g => !g.preseason)).map
        (fun g => (g.score_against : ℝ))).sum := by
      apply List.sum_nonneg
      intro x hx
      obtain ⟨g, hg, rfl⟩ := List.mem_map.mp hx
      have := (hnn g (List.mem_of_mem_filter hg)).2
      exact_mod_cast this
    obtain ⟨hden, hlo, hhi⟩ := pyth_in_unit _ _ (2.37 : ℝ) hS hA hnz
    obtain ⟨avgs, hok, _, _, _, hpyth⟩ := nfl_cta_ok team td games0 hlk hne hqb hden
    exact ⟨avgs, hok, by rw [hpyth]; exact hlo, by rw [hpyth]; exact hhi⟩
  · intro td team games hlk hne hnn hnz
    have hS : 0 ≤ (games.map (fun g => (g.runs_for : ℝ))).sum := by
      apply List.sum_nonneg
      intro x hx
      obtain ⟨g, hg, rfl⟩ := List.mem_map.mp hx
      exact_mod_cast (hnn g hg).1
    have hA : 0 ≤ (games.map (fun g => (g.runs_against : ℝ))).sum := by
      apply List.sum_nonneg
      intro x hx
      obtain ⟨g, hg, rfl⟩ := List.mem_map.mp hx
      exact_mod_cast (hnn g hg).2
    obtain ⟨hden, hlo, hhi⟩ := pyth_in_unit _ _ (1.83 : ℝ) hS hA hnz
    obtain ⟨avgs, hok, _, _, _, hpyth⟩ := mlb_cta_ok team td games hlk hne hden
    exact ⟨avgs, hok, by rw [hpyth]; exact hlo, by rw [hpyth]; exact hhi⟩
  · intro td team games hlk hne hnn hnz
    have hS : 0 ≤ (games.map (fun g => (g.score_for : ℝ))).sum := by
      apply List.sum_nonneg
      intro x hx
      obtain ⟨g, hg, rfl⟩ := List.mem_map.mp hx
      exact_mod_cast (hnn g hg).1
    have hA : 0 ≤ (games.map (fun g => (g.score_against : ℝ))).sum := by
      apply List.sum_nonneg
      intro x hx
      obtain ⟨g, hg, rfl⟩ := List.mem_map.mp hx
      exact_mod_cast (hnn g hg).2
    obtain ⟨hden, hlo, hhi⟩ := pyth_in_unit _ _ (2.37 : ℝ) hS hA hnz
    obtain ⟨avgs, hok, _, _, _, hpyth⟩ := cfb_cta_ok team td games hlk hne hden
    exact ⟨avgs, hok, by rw [hpyth]; exact hlo, by rw [hpyth]; exact hhi⟩

/-- Witness for the amended C1 on one-game histories. -/
theorem c1_pythagorean_in_unit_interval_witness :
    (∃ avgs, NFL.calculate_team_averages ("A")
        [(("A" : String), [⟨"B", "home", "W", 17, 13, 4, false, {}, {},
          some ⟨[], 0, 0, 0, 0, 0⟩⟩])] true = .ok (some avgs) ∧
      0 ≤ avgs.pythagorean_win_rate ∧ avgs.pythagorean_win_rate ≤ 1) ∧
    (∃ avgs, MLB.calculate_team_averages ("A")
        [(("A" : String), [⟨"B", "home", "W", 5, 3, "d", {}, {}⟩])] = .ok (some avgs) ∧
      0 ≤ avgs.pythagorean_win_rate ∧ avgs.pythagorean_win_rate ≤ 1) ∧
    (∃ avgs, CFB.calculate_team_averages ("A")
        [(("A" : String), [⟨"B", "home", "W", 21, 10, 11, false, {}, {}⟩])] false =
          .ok (some avgs) ∧
      0 ≤ avgs.pythagorean_win_rate ∧ avgs.pythagorean_win_rate ≤ 1) := by
  refine ⟨?_, ?_, ?_⟩
  · exact c1_pythagorean_in_unit_interval.1 _ _ _ rfl (by simp) (by rfl)
      (by
        intro g hg
        rw [List.mem_singleton] at hg
        rw [hg]
        norm_num)
      (by
        intro h
        have := h.1
        norm_num [List.filter, List.sum] at this)
  · exact c1_pythagorean_in_unit_interval.2.1 _ _ _ rfl (by simp)
      (by
        intro g hg
        rw [List.mem_singleton] at hg
        rw [hg]
        norm_num)
      (by
        intro h
        have := h.1
        norm_num [List.sum] at this)
  · exact c1_pythagorean_in_unit_interval.2.2 _ _ _ rfl (by simp)
      (by
        intro g hg
        rw [List.mem_singleton] at hg
        rw [hg]
        norm_num)
      (by
        intro h
        have := h.1
        norm_num [List.sum] at this)

/-! ## C5: symmetry of the neutral-site scorer -/

theorem except_bind_ok {ε α β : Type} (a : α) (f : α → Except ε β) :
    (Except.ok a >>= f) = f a := rfl

theorem except_bind_error {ε α β : Type} (e : ε) (f : α → Except ε β) :
    ((Except.error e : Except ε α) >>= f) = Except.error e := rfl

theorem except_toOption_ok {ε α : Type} (a : α) :
    (Except.ok a : Except ε α).toOption = some a := rfl

theorem except_toOption_error {ε α : Type} (e : ε) :
    (Except.error e : Except ε α).toOption = none := rfl

theorem symChain (d t1 t2 v1 v2 : ℝ) (h2 : 0 < t2) (h12 : t2 < t1) :
    (if -d > t1 then ((v1 : ℝ), (0 : ℝ)) else if -d > t2 then (v2, 0)
     else if -d < -t1 then (0, v1) else if -d < -t2 then (0, v2) else (0, 0)) =
    Prod.swap (if d > t1 then ((v1 : ℝ), (0 : ℝ)) else if d > t2 then (v2, 0)
     else if d < -t1 then (0, v1) else if d < -t2 then (0, v2) else (0, 0)) := by
  split_ifs <;> simp [Prod.swap, Prod.ext_iff] <;> (try constructor) <;> linarith

theorem thirdDownFactor_swap (x y : ℝ) :
    NFL.thirdDownFactor y x = Prod.swap (NFL.thirdDownFactor x y) := by
  simp only [NFL.thirdDownFactor]
  rw [show y - x = -(x - y) by ring]
  exact symChain (x - y) 0.08 0.04 1.5 0.75 (by norm_num) (by norm_num)

theorem sackFactor_swap (x y : ℝ) :
    NFL.sackFactor y x = Prod.swap (NFL.sackFactor x y) := by
  simp only [NFL.sackFactor]
  rw [show y - x = -(x - y) by ring]
  exact symChain (x - y) 1.0 0.5 1.5 0.75 (by norm_num) (by norm_num)

theorem turnoverMarginFactor_swap (x y : ℝ) :
    NFL.turnoverMarginFactor y x = Prod.swap (NFL.turnoverMarginFactor x y) := by
  simp only [NFL.turnoverMarginFactor]
  rw [show y - x = -(x - y) by ring]
  exact symChain (x - y) 1.0 0.5 1.5 0.75 (by norm_num) (by norm_num)

theorem penaltyFactor_swap (x y : ℝ) :
    NFL.penaltyFactor y x = Prod.swap (NFL.penaltyFactor x y) := by
  simp only [NFL.penaltyFactor]
  rw [show x - y = -(y - x) by ring]
  exact symChain (y - x) 2.0 1.0 1.5 0.75 (by norm_num) (by norm_num)

theorem oppQualityFactor_swap (hw aw hq aq : ℝ) :
    NFL.oppQualityFactor aw hw aq hq = Prod.swap (NFL.oppQualityFactor hw aw hq aq) := by
  simp only [NFL.oppQualityFactor]
  split_ifs <;> simp_all [Prod.swap, Prod.ext_iff] <;> (try constructor) <;> linarith

theorem hfaFactor_neutral (s1 s2 : NFL.Splits) : NFL.hfaFactor true s1 s2 = (0, 0) := rfl

set_option maxHeartbeats 2000000 in
theorem injuryFactor_swap (h a : Option NFL.InjuryImpact) :
    NFL.injuryFactor a h = Prod.swap (NFL.injuryFactor h a) := by
  cases h with
  | none => cases a <;> rfl
  | some hi =>
    cases a with
    | none => rfl
    | some ai =>
      simp only [NFL.injuryFactor]
      rw [show hi.impact_score - ai.impact_score = -(ai.impact_score - hi.impact_score) by ring]
      rw [abs_neg]
      cases hq : hi.qb_injured <;> cases aq : ai.qb_injured <;>
        (try simp only [hq, aq]) <;> (try norm_num) <;>
        split_ifs <;> simp [Prod.swap, Prod.ext_iff] <;> (try constructor) <;> linarith

theorem matchupScore_neutral_swap (havg aavg : NFL.TeamAverages)
    (hsim asim : Option NFL.SimPerf) (hoq aoq : ℝ)
    (htough hweak atough aweak : Bool) (hbb abb : NFL.BounceBack)
    (himp aimp : Option NFL.InjuryImpact) :
    NFL.matchupScore true aavg havg asim hsim aoq hoq atough aweak htough hweak abb hbb aimp himp =
      Prod.swap (NFL.matchupScore true havg aavg hsim asim hoq aoq htough hweak atough aweak
        hbb abb himp aimp) := by
  simp only [NFL.matchupScore]
  rw [thirdDownFactor_swap havg.offense.third_down_rate aavg.offense.third_down_rate]
  rw [sackFactor_swap (havg.offense.sacks_made - havg.defense.sacks_allowed)
    (aavg.offense.sacks_made - aavg.defense.sacks_allowed)]
  rw [oppQualityFactor_swap havg.win_rate aavg.win_rate hoq aoq]
  rw [penaltyFactor_swap havg.offense.penalties aavg.offense.penalties]
  rw [turnoverMarginFactor_swap havg.turnover_margin aavg.turnover_margin]
  rw [injuryFactor_swap himp aimp]
  rw [hfaFactor_neutral havg.splits aavg.splits, hfaFactor_neutral aavg.splits havg.splits]
  apply Prod.ext <;> simp [Prod.swap] <;> ring

theorem toOption_bind {ε α β : Type} (e : Except ε α) (f : α → Except ε β) :
    (e >>= f).toOption = (e.toOption).bind (fun a => (f a).toOption) := by
  cases e <;> rfl

theorem except_toOption_pure {ε α : Type} (a : α) :
    (pure a : Except ε α).toOption = some a := rfl

theorem option_bind_comm {α β γ : Type} (o1 : Option α) (o2 : Option β)
    (k : α → β → Option γ) :
    (o1.bind fun x => o2.bind fun y => k x y) = (o2.bind fun y => o1.bind fun x => k x y) := by
  cases o1 <;> cases o2 <;> rfl

theorem map_bind_congr {α β γ : Type} (o : Option α) (f g : α → Option β)
    (F G : β → γ)
    (h : ∀ x, Option.map F (f x) = Option.map G (g x)) :
    Option.map F (o.bind f) = Option.map G (o.bind g) := by
  cases o with
  | none => rfl
  | some a => exact h a

/-! ## C2: the flat-file round trip.  String-primitive lemmas. -/

theorem mem_of_isPrefixOf {p l : Line} {c : Char} (h : p.isPrefixOf l = true) (hc : c ∈ p) :
    c ∈ l := by
  induction p generalizing l with
  | nil => cases hc
  | cons d t ih =>
    cases l with
    | nil => simp [List.isPrefixOf] at h
    | cons e u =>
      simp only [List.isPrefixOf, Bool.and_eq_true, beq_iff_eq] at h
      rcases List.mem_cons.mp hc with rfl | hc
      · rw [h.1]; exact List.mem_cons_self _ _
      · exact List.mem_cons_of_mem _ (ih h.2 hc)

theorem pyIsInfix_mem {sub l : Line} {c : Char} (h : pyIsInfix sub l = true) (hc : c ∈ sub) :
    c ∈ l := by
  induction l with
  | nil =>
    cases sub with
    | nil => cases hc
    | cons d t => simp [pyIsInfix, List.isEmpty] at h
  | cons d t ih =>
    simp only [pyIsInfix, Bool.or_eq_true] at h
    rcases h with h | h
    · exact mem_of_isPrefixOf h hc
    · exact List.mem_cons_of_mem _ (ih h)

theorem pyIsInfix_eq_false_of_witness {sub l : Line} (c : Char) (hc : c ∈ sub) (hl : c ∉ l) :
    pyIsInfix sub l = false := by
  cases h : pyIsInfix sub l
  · rfl
  · exact absurd (pyIsInfix_mem h hc) hl

theorem isPrefixOf_append_left (a b : Line) : a.isPrefixOf (a ++ b) = true := by
  induction a with
  | nil => rw [List.nil_append]; cases b <;> rfl
  | cons c t ih => simpa [List.isPrefixOf] using ih

theorem pyIsInfix_sandwich (sub a b : Line) : pyIsInfix sub (a ++ sub ++ b) = true := by
  induction a with
  | nil =>
    cases sub with
    | nil =>
      cases b with
      | nil => rfl
      | cons c t => simp [pyIsInfix, List.isPrefixOf]
    | cons c t =>
      have : (c :: t) ++ b = c :: (t ++ b) := rfl
      simp only [List.nil_append, this, pyIsInfix, Bool.or_eq_true]
      exact Or.inl (isPrefixOf_append_left _ _)
  | cons d t ih =>
    have : (d :: t) ++ sub ++ b = d :: (t ++ sub ++ b) := by simp
    rw [this]
    simp only [pyIsInfix, Bool.or_eq_true]
    exact Or.inr ih

theorem wfFree_spec {l : Line} (h : NFL.wfFree l = true) :
    '@' ∉ l ∧ '|' ∉ l ∧ ']' ∉ l ∧ '_' ∉ l ∧ 'Q' ∉ l ∧ 'W' ∉ l := by
  simp only [NFL.wfFree, List.all_eq_true, Bool.not_eq_true', Bool.or_eq_false_iff,
    beq_eq_false_iff_ne] at h
  refine ⟨fun hm => ?_, fun hm => ?_, fun hm => ?_, fun hm => ?_, fun hm => ?_, fun hm => ?_⟩ <;>
    have h' := h _ hm <;> tauto

theorem wfFree_append {a b : Line} (ha : NFL.wfFree a = true) (hb : NFL.wfFree b = true) :
    NFL.wfFree (a ++ b) = true := by
  simp only [NFL.wfFree, List.all_eq_true] at *
  intro c hc
  rcases List.mem_append.mp hc with h | h
  · exact ha c h
  · exact hb c h

/-! ### Whitespace and stripping -/

theorem dropWhile_append_of_all {p : Char → Bool} {a : Line} (ha : ∀ c ∈ a, p c = true)
    (b : Line) : (a ++ b).dropWhile p = b.dropWhile p := by
  induction a with
  | nil => rfl
  | cons c t ih =>
    have : (c :: t) ++ b = c :: (t ++ b) := rfl
    rw [this, List.dropWhile_cons, if_pos (ha c (List.mem_cons_self _ _))]
    exact ih (fun d hd => ha d (List.mem_cons_of_mem _ hd))

theorem dropWhile_all_eq_nil {p : Char → Bool} {b : Line} (hb : ∀ c ∈ b, p c = true) :
    b.dropWhile p = [] := by
  have := dropWhile_append_of_all hb ([] : Line)
  simpa using this

theorem dropWhile_cons_of_neg {p : Char → Bool} {c : Char} {t : Line} (h : p c = false) :
    (c :: t).dropWhile p = c :: t := by
  rw [List.dropWhile_cons, h]
  simp

theorem length_dropWhile_le' (p : Char → Bool) (l : Line) :
    (l.dropWhile p).length ≤ l.length :=
  (List.dropWhile_suffix p).length_le

theorem dropWhile_eq_self_of_length {p : Char → Bool} {l : Line}
    (h : (l.dropWhile p).length = l.length) : l.dropWhile p = l := by
  cases l with
  | nil => rfl
  | cons c t =>
    cases hc : p c
    · exact dropWhile_cons_of_neg hc
    · rw [List.dropWhile_cons, hc] at h ⊢
      simp only [if_true] at h ⊢
      have := length_dropWhile_le' p t
      simp only [List.length_cons] at h
      omega

theorem head_not_ws {c : Char} {t : Line}
    (h : (c :: t).dropWhile Char.isWhitespace = c :: t) : c.isWhitespace = false := by
  cases hc : c.isWhitespace
  · rfl
  · rw [List.dropWhile_cons, hc, if_pos rfl] at h
    have hlen := congrArg List.length h
    have hle := length_dropWhile_le' Char.isWhitespace t
    simp only [List.length_cons] at hlen
    omega

theorem stripped_parts {m : Line} (h : pyStrip m = m) :
    m.dropWhile Char.isWhitespace = m ∧
      m.reverse.dropWhile Char.isWhitespace = m.reverse := by
  unfold pyStrip at h
  have hlen := congrArg List.length h
  have l1 := length_dropWhile_le' Char.isWhitespace m
  have l2 := length_dropWhile_le' Char.isWhitespace
    ((m.dropWhile Char.isWhitespace).reverse)
  simp only [List.length_reverse] at hlen l2
  have h1 : m.dropWhile Char.isWhitespace = m :=
    dropWhile_eq_self_of_length (by omega)
  rw [h1] at h
  refine ⟨h1, ?_⟩
  have := congrArg List.reverse h
  simpa using this

theorem dropWhile_eq_self_append {A X : Line}
    (hA : A.dropWhile Char.isWhitespace = A) (hne : A ≠ []) :
    (A ++ X).dropWhile Char.isWhitespace = A ++ X := by
  cases A with
  | nil => exact absurd rfl hne
  | cons c t =>
    have : (c :: t) ++ X = c :: (t ++ X) := rfl
    rw [this]
    exact dropWhile_cons_of_neg (head_not_ws hA)

theorem rev_dropWhile_eq_self_append {H X : Line}
    (hH : H.reverse.dropWhile Char.isWhitespace = H.reverse) (hne : H ≠ []) :
    (X ++ H).reverse.dropWhile Char.isWhitespace = (X ++ H).reverse := by
  rw [List.reverse_append]
  exact dropWhile_eq_self_append hH (by simpa using hne)

theorem pyStrip_sandwich {a m b : Line}
    (ha : ∀ c ∈ a, c.isWhitespace = true) (hb : ∀ c ∈ b, c.isWhitespace = true)
    (hm1 : m.dropWhile Char.isWhitespace = m)
    (hm2 : m.reverse.dropWhile Char.isWhitespace = m.reverse) :
    pyStrip (a ++ m ++ b) = m := by
  unfold pyStrip
  rw [List.append_assoc, dropWhile_append_of_all ha]
  cases m with
  | nil =>
    simp only [List.nil_append]
    rw [dropWhile_all_eq_nil hb]
    rfl
  | cons c t =>
    have hcons : (c :: t) ++ b = c :: (t ++ b) := rfl
    rw [hcons, dropWhile_cons_of_neg (head_not_ws hm1), ← hcons, List.reverse_append,
      dropWhile_append_of_all (fun d hd => hb d (List.mem_reverse.mp hd)), hm2]
    exact List.reverse_reverse _

/-! ### Digits and numerals -/

theorem digit_not_ws {c : Char} (h : c.isDigit = true) : c.isWhitespace = false := by
  cases hw : c.isWhitespace
  · rfl
  · simp only [Char.isWhitespace, Bool.or_eq_true, decide_eq_true_eq] at hw
    rcases hw with ((rfl | rfl) | rfl) | rfl <;> simp [Char.isDigit] at h

theorem not_mem_of_digits {l : Line} {c : Char} (h : ∀ d ∈ l, d.isDigit = true)
    (hc : c.isDigit = false) : c ∉ l := fun hm => by rw [h c hm] at hc; cases hc

theorem dropWhile_ws_of_digits {l : Line} (h : ∀ d ∈ l, d.isDigit = true) :
    l.dropWhile Char.isWhitespace = l := by
  cases l with
  | nil => rfl
  | cons c t => exact dropWhile_cons_of_neg (digit_not_ws (h c (List.mem_cons_self _ _)))

theorem pyStrip_of_digits {l : Line} (h : ∀ d ∈ l, d.isDigit = true) : pyStrip l = l := by
  have := pyStrip_sandwich (a := []) (m := l) (b := [])
    (by intro c hc; cases hc) (by intro c hc; cases hc)
    (dropWhile_ws_of_digits h)
    (dropWhile_ws_of_digits (fun d hd => h d (List.mem_reverse.mp hd)))
  simpa using this

theorem natToCharsF_digits : ∀ fuel n, n ≤ fuel → ∀ c ∈ natToCharsF fuel n, c.isDigit = true := by
  intro fuel
  induction fuel with
  | zero =>
    intro n hn c hc
    interval_cases n
    simp only [natToCharsF] at hc
    simp at hc
    subst hc
    decide
  | succ f ih =>
    intro n hn c hc
    by_cases h10 : n < 10
    · simp only [natToCharsF, if_pos h10] at hc
      simp at hc
      subst hc
      interval_cases n <;> decide
    · simp only [natToCharsF, if_neg h10] at hc
      rcases List.mem_append.mp hc with h | h
      · exact ih (n / 10) (by omega) c h
      · simp at h
        subst h
        have hr : n % 10 < 10 := Nat.mod_lt _ (by omega)
        set r := n % 10 with hr'
        interval_cases r <;> decide

theorem natToCharsF_ne_nil (fuel n : ℕ) : natToCharsF fuel n ≠ [] := by
  cases fuel with
  | zero => simp [natToCharsF]
  | succ f =>
    by_cases h10 : n < 10 <;> simp [natToCharsF, h10]

theorem digitsVal_append_single (l : List Char) (c : Char) :
    digitsVal (l ++ [c]) = digitsVal l * 10 + (c.toNat - 48) := by
  simp [digitsVal, List.foldl_append]

theorem natToCharsF_val : ∀ fuel n, n ≤ fuel → digitsVal (natToCharsF fuel n) = n := by
  intro fuel
  induction fuel with
  | zero =>
    intro n hn
    interval_cases n
    decide
  | succ f ih =>
    intro n hn
    by_cases h10 : n < 10
    · simp only [natToCharsF, if_pos h10]
      interval_cases n <;> decide
    · simp only [natToCharsF, if_neg h10]
      rw [digitsVal_append_single, ih (n / 10) (by omega)]
      have hr : n % 10 < 10 := Nat.mod_lt _ (by omega)
      have hchar : (Char.ofNat (48 + n % 10)).toNat - 48 = n % 10 := by
        set r := n % 10 with hr'
        interval_cases r <;> decide
      rw [hchar]
      omega

theorem natToChars_digits (n : ℕ) : ∀ c ∈ natToChars n, c.isDigit = true :=
  natToCharsF_digits n n le_rfl

theorem natToChars_ne_nil (n : ℕ) : natToChars n ≠ [] := natToCharsF_ne_nil n n

theorem digitsToNat_natToChars (n : ℕ) : digitsToNat? (natToChars n) = some n := by
  unfold digitsToNat?
  rw [if_pos ⟨natToChars_ne_nil n, List.all_eq_true.mpr (natToChars_digits n)⟩]
  rw [show natToChars n = natToCharsF n n from rfl, natToCharsF_val n n le_rfl]

theorem pyInt_natToChars (n : ℕ) : pyInt (natToChars n) = some (n : ℤ) := by
  unfold pyInt
  rw [pyStrip_of_digits (natToChars_digits n)]
  split
  · next ds heq =>
    have : '-' ∈ natToChars n := by rw [heq]; exact List.mem_cons_self _ _
    have := natToChars_digits n '-' this
    simp at this
  · next ds heq =>
    have : '+' ∈ natToChars n := by rw [heq]; exact List.mem_cons_self _ _
    have := natToChars_digits n '+' this
    simp at this
  · next =>
    rw [digitsToNat_natToChars]
    rfl

/-! ### Finding, slicing, splitting -/

theorem pyFindChar_append_first {a : Line} {c : Char} (ha : c ∉ a) (b : Line) :
    pyFindChar (a ++ c :: b) c = (a.length : ℤ) := by
  induction a with
  | nil => simp [pyFindChar]
  | cons d t ih =>
    have hd : ¬ d = c := fun h => ha (h ▸ List.mem_cons_self _ _)
    have hrec := ih (fun hm => ha (List.mem_cons_of_mem _ hm))
    have : (d :: t) ++ c :: b = d :: (t ++ c :: b) := rfl
    rw [this]
    simp only [pyFindChar, if_neg hd, hrec]
    rw [if_neg (by omega)]
    simp only [List.length_cons]
    omega

theorem pySliceFrom_natCast (l : Line) (k : ℕ) (hk : k ≤ l.length) :
    pySliceFrom l (k : ℤ) = l.drop k := by
  unfold pySliceFrom pySlice pyNormIdx
  rw [if_neg (by omega), if_neg (by omega)]
  simp [min_eq_left hk]

theorem pySplitChar_sepFree {c : Char} {l : Line} (h : c ∉ l) : pySplitChar c l = [l] := by
  induction l with
  | nil => rfl
  | cons d t ih =>
    have hd : ¬ d = c := fun hh => h (hh ▸ List.mem_cons_self _ _)
    have hrec := ih (fun hm => h (List.mem_cons_of_mem _ hm))
    simp [pySplitChar, hd, hrec]

theorem pySplitChar_append {c : Char} {a : Line} (ha : c ∉ a) (b : Line) :
    pySplitChar c (a ++ c :: b) = a :: pySplitChar c b := by
  induction a with
  | nil => simp [pySplitChar]
  | cons d t ih =>
    have hd : ¬ d = c := fun hh => ha (hh ▸ List.mem_cons_self _ _)
    have hrec := ih (fun hm => ha (List.mem_cons_of_mem _ hm))
    have hcons : (d :: t) ++ c :: b = d :: (t ++ c :: b) := rfl
    rw [hcons]
    simp only [pySplitChar, if_neg hd, hrec]

theorem contains_iff_mem (l : Line) (c : Char) : l.contains c = true ↔ c ∈ l := by
  simp [List.contains, List.elem_eq_mem]

theorem contains_eq_false_of_not_mem {l : Line} {c : Char} (h : c ∉ l) :
    l.contains c = false := by
  cases hc : l.contains c
  · rfl
  · exact absurd ((contains_iff_mem l c).mp hc) h

/-! ### The written game line parses back to the names and scores -/

theorem parseGameHeader_gameLineW (g : NFL.GameW)
    (hwfA : NFL.wfFree g.away_team.name = true)
    (hsA : pyStrip g.away_team.name = g.away_team.name)
    (hneA : g.away_team.name ≠ [])
    (hwfH : NFL.wfFree g.home_team.name = true)
    (hsH : pyStrip g.home_team.name = g.home_team.name)
    (hneH : g.home_team.name ≠ [])
    (hwfW : NFL.wfFree g.week = true) :
    NFL.parseGameHeader (NFL.gameLineW g) =
      some (g.away_team.name, g.home_team.name,
        (g.away_team.score : ℤ), (g.home_team.score : ℤ)) := by
  obtain ⟨wk, ⟨A, asc, aqb, ast⟩, ⟨H, hsc, hqb, hst⟩⟩ := g
  dsimp only at hwfA hsA hneA hwfH hsH hneH hwfW ⊢
  obtain ⟨hAat, hApipe, -, -, -, -⟩ := wfFree_spec hwfA
  obtain ⟨hHat, hHpipe, -, -, -, -⟩ := wfFree_spec hwfH
  obtain ⟨-, -, hWrb, -, -, -⟩ := wfFree_spec hwfW
  obtain ⟨hsA1, hsA2⟩ := stripped_parts hsA
  obtain ⟨hsH1, hsH2⟩ := stripped_parts hsH
  have hdAd := natToChars_digits asc
  have hdHd := natToChars_digits hsc
  have hdAne := natToChars_ne_nil asc
  have hdHne := natToChars_ne_nil hsc
  set dA := natToChars asc with hdA
  set dH := natToChars hsc with hdH
  have hline : NFL.gameLineW ⟨wk, ⟨A, asc, aqb, ast⟩, ⟨H, hsc, hqb, hst⟩⟩ =
      ('[' :: wk) ++ ']' :: (' ' :: (A ++ (' ' :: '@' :: ' ' :: (H ++ (' ' :: '|' :: ' ' ::
        (dA ++ ('-' :: (dH ++ [' ', '|', ' ', 'F', 'i', 'n', 'a', 'l'])))))))) := by
    simp only [NFL.gameLineW, show chrs "[" = ['['] from rfl,
      show chrs "] " = [']', ' '] from rfl, show chrs " @ " = [' ', '@', ' '] from rfl,
      show chrs " | " = [' ', '|', ' '] from rfl, show chrs "-" = ['-'] from rfl,
      show chrs " | Final" = [' ', '|', ' ', 'F', 'i', 'n', 'a', 'l'] from rfl,
      List.append_assoc, List.cons_append, List.nil_append]
  rw [hline]
  set R : Line := ' ' :: (A ++ (' ' :: '@' :: ' ' :: (H ++ (' ' :: '|' :: ' ' ::
    (dA ++ ('-' :: (dH ++ [' ', '|', ' ', 'F', 'i', 'n', 'a', 'l']))))))) with hR
  have hfind : pyFindChar (('[' :: wk) ++ ']' :: R) ']' = (('[' :: wk).length : ℤ) := by
    refine pyFindChar_append_first (fun hm => ?_) R
    rcases List.mem_cons.mp hm with h | h
    · cases h
    · exact hWrb h
  have hslice : pySliceFrom (('[' :: wk) ++ ']' :: R)
      (pyFindChar (('[' :: wk) ++ ']' :: R) ']' + 1) = R := by
    rw [hfind, List.length_cons,
      show ((wk.length + 1 : ℕ) : ℤ) + 1 = ((wk.length + 2 : ℕ) : ℤ) by push_cast; ring,
      pySliceFrom_natCast _ _ (by
        simp only [List.length_append, List.length_cons]
        omega),
      show ('[' :: wk) ++ ']' :: R = (('[' :: wk) ++ [']']) ++ R by simp,
      List.drop_left' (by
        simp only [List.length_append, List.length_cons, List.length_nil]
        try omega)]
  have hgame : pyStrip R = A ++ (' ' :: '@' :: ' ' :: (H ++ (' ' :: '|' :: ' ' ::
      (dA ++ ('-' :: (dH ++ [' ', '|', ' ', 'F', 'i', 'n', 'a', 'l'])))))) := by
    rw [hR]
    have := pyStrip_sandwich (a := [' ']) (b := [])
      (m := A ++ (' ' :: '@' :: ' ' :: (H ++ (' ' :: '|' :: ' ' ::
        (dA ++ ('-' :: (dH ++ [' ', '|', ' ', 'F', 'i', 'n', 'a', 'l'])))))))
      (by decide) (by intro c hc; cases hc)
      (dropWhile_eq_self_append hsA1 hneA)
      (by
        rw [show A ++ (' ' :: '@' :: ' ' :: (H ++ (' ' :: '|' :: ' ' ::
          (dA ++ ('-' :: (dH ++ [' ', '|', ' ', 'F', 'i', 'n', 'a', 'l'])))))) =
          (A ++ (' ' :: '@' :: ' ' :: (H ++ (' ' :: '|' :: ' ' ::
            (dA ++ ('-' :: dH)))))) ++ [' ', '|', ' ', 'F', 'i', 'n', 'a', 'l'] by simp]
        exact rev_dropWhile_eq_self_append (by decide) (by decide))
    simpa using this
  have hdApipe : '|' ∉ dA := not_mem_of_digits hdAd (by decide)
  have hdHpipe : '|' ∉ dH := not_mem_of_digits hdHd (by decide)
  have hp0free : '|' ∉ A ++ (' ' :: '@' :: ' ' :: (H ++ [' '])) := by
    intro hm
    simp only [List.mem_append, List.mem_cons, List.mem_singleton] at hm
    rcases hm with h | h | h | h | h | h
    · exact hApipe h
    · exact absurd h (by decide)
    · exact absurd h (by decide)
    · exact absurd h (by decide)
    · exact hHpipe h
    · exact absurd h (by decide)
  have hp1free : '|' ∉ ' ' :: (dA ++ ('-' :: (dH ++ [' ']))) := by
    intro hm
    simp only [List.mem_append, List.mem_cons, List.mem_singleton] at hm
    rcases hm with h | h | h | h | h
    · exact absurd h (by decide)
    · exact hdApipe h
    · exact absurd h (by decide)
    · exact hdHpipe h
    · exact absurd h (by decide)
  have hsplit : pySplitChar '|' (A ++ (' ' :: '@' :: ' ' :: (H ++ (' ' :: '|' :: ' ' ::
      (dA ++ ('-' :: (dH ++ [' ', '|', ' ', 'F', 'i', 'n', 'a', 'l'])))))))
      = [A ++ (' ' :: '@' :: ' ' :: (H ++ [' '])),
         ' ' :: (dA ++ ('-' :: (dH ++ [' ']))),
         [' ', 'F', 'i', 'n', 'a', 'l']] := by
    rw [show A ++ (' ' :: '@' :: ' ' :: (H ++ (' ' :: '|' :: ' ' ::
        (dA ++ ('-' :: (dH ++ [' ', '|', ' ', 'F', 'i', 'n', 'a', 'l'])))))) =
      (A ++ (' ' :: '@' :: ' ' :: (H ++ [' ']))) ++ '|' ::
        (' ' :: (dA ++ ('-' :: (dH ++ ([' '] ++ '|' :: [' ', 'F', 'i', 'n', 'a', 'l'])))))
      by simp]
    rw [pySplitChar_append hp0free]
    rw [show ' ' :: (dA ++ ('-' :: (dH ++ ([' '] ++ '|' :: [' ', 'F', 'i', 'n', 'a', 'l'])))) =
      (' ' :: (dA ++ ('-' :: (dH ++ [' '])))) ++ '|' :: [' ', 'F', 'i', 'n', 'a', 'l'] by simp]
    rw [pySplitChar_append hp1free, pySplitChar_sepFree (by decide)]
  have hteams : pyStrip (A ++ (' ' :: '@' :: ' ' :: (H ++ [' ']))) =
      A ++ (' ' :: '@' :: ' ' :: H) := by
    have := pyStrip_sandwich (a := []) (b := [' ']) (m := A ++ (' ' :: '@' :: ' ' :: H))
      (by intro c hc; cases hc) (by decide)
      (dropWhile_eq_self_append hsA1 hneA)
      (by
        rw [show A ++ (' ' :: '@' :: ' ' :: H) = (A ++ [' ', '@', ' ']) ++ H by simp]
        exact rev_dropWhile_eq_self_append hsH2 hneH)
    simpa using this
  have htp : pySplitChar '@' (A ++ (' ' :: '@' :: ' ' :: H)) = [A ++ [' '], ' ' :: H] := by
    rw [show A ++ (' ' :: '@' :: ' ' :: H) = (A ++ [' ']) ++ '@' :: (' ' :: H) by simp]
    rw [pySplitChar_append (by
        intro hm
        simp only [List.mem_append, List.mem_singleton] at hm
        rcases hm with h | h
        · exact hAat h
        · exact absurd h (by decide)),
      pySplitChar_sepFree (by
        intro hm
        rcases List.mem_cons.mp hm with h | h
        · exact absurd h (by decide)
        · exact hHat h)]
  have haway : pyStrip (A ++ [' ']) = A := by
    have := pyStrip_sandwich (a := []) (b := [' ']) (m := A)
      (by intro c hc; cases hc) (by decide) hsA1 hsA2
    simpa using this
  have hhome : pyStrip (' ' :: H) = H := by
    have := pyStrip_sandwich (a := [' ']) (b := []) (m := H)
      (by decide) (by intro c hc; cases hc) hsH1 hsH2
    simpa using this
  have hscores : pyStrip (' ' :: (dA ++ ('-' :: (dH ++ [' '])))) = dA ++ ('-' :: dH) := by
    have := pyStrip_sandwich (a := [' ']) (b := [' ']) (m := dA ++ ('-' :: dH))
      (by decide) (by decide)
      (dropWhile_eq_self_append (dropWhile_ws_of_digits hdAd) hdAne)
      (by
        rw [show dA ++ ('-' :: dH) = (dA ++ ['-']) ++ dH by simp]
        exact rev_dropWhile_eq_self_append
          (dropWhile_ws_of_digits (fun d hd => hdHd d (List.mem_reverse.mp hd))) hdHne)
    simpa using this
  have hsp : pySplitChar '-' (dA ++ ('-' :: dH)) = [dA, dH] := by
    rw [pySplitChar_append (not_mem_of_digits hdAd (by decide)),
      pySplitChar_sepFree (not_mem_of_digits hdHd (by decide))]
  have hintA : pyInt (pyStrip dA) = some ((asc : ℕ) : ℤ) := by
    rw [pyStrip_of_digits hdAd, hdA]
    exact pyInt_natToChars asc
  have hintH : pyInt (pyStrip dH) = some ((hsc : ℕ) : ℤ) := by
    rw [pyStrip_of_digits hdHd, hdH]
    exact pyInt_natToChars hsc
  unfold NFL.parseGameHeader
  rw [hslice, hgame]
  dsimp only
  rw [hsplit]
  simp only [List.get?_cons_zero, List.get?_cons_succ, Option.getD_some,
    hteams, htp, haway, hhome]
  simp [hscores, hsp, hintA, hintH]

/-! ### Structural facts about the written game line -/

theorem gameLineW_eq (wk A H : Line) (asc hsc : ℕ) (aqb hqb : Option NFL.QBWrite)
    (ast hst : NFL.StatsW) :
    NFL.gameLineW ⟨wk, ⟨A, asc, aqb, ast⟩, ⟨H, hsc, hqb, hst⟩⟩ =
      '[' :: (wk ++ ']' :: ' ' :: (A ++ ' ' :: '@' :: ' ' :: (H ++ ' ' :: '|' :: ' ' ::
        (natToChars asc ++ '-' :: (natToChars hsc ++
          [' ', '|', ' ', 'F', 'i', 'n', 'a', 'l']))))) := by
  simp only [NFL.gameLineW, show chrs "[" = ['['] from rfl,
    show chrs "] " = [']', ' '] from rfl, show chrs " @ " = [' ', '@', ' '] from rfl,
    show chrs " | " = [' ', '|', ' '] from rfl, show chrs "-" = ['-'] from rfl,
    show chrs " | Final" = [' ', '|', ' ', 'F', 'i', 'n', 'a', 'l'] from rfl,
    List.append_assoc, List.cons_append, List.nil_append]

theorem gameLineW_strip (g : NFL.GameW) :
    pyStrip (NFL.gameLineW g) = NFL.gameLineW g := by
  obtain ⟨wk, ⟨A, asc, aqb, ast⟩, ⟨H, hsc, hqb, hst⟩⟩ := g
  rw [gameLineW_eq]
  have := pyStrip_sandwich (a := []) (b := [])
    (m := '[' :: (wk ++ ']' :: ' ' :: (A ++ ' ' :: '@' :: ' ' :: (H ++ ' ' :: '|' :: ' ' ::
      (natToChars asc ++ '-' :: (natToChars hsc ++ [' ', '|', ' ', 'F', 'i', 'n', 'a', 'l']))))))
    (by intro c hc; cases hc) (by intro c hc; cases hc)
    (dropWhile_cons_of_neg (by decide))
    (by
      rw [show '[' :: (wk ++ ']' :: ' ' :: (A ++ ' ' :: '@' :: ' ' :: (H ++ ' ' :: '|' :: ' ' ::
          (natToChars asc ++ '-' :: (natToChars hsc ++
            [' ', '|', ' ', 'F', 'i', 'n', 'a', 'l']))))) =
        ('[' :: (wk ++ ']' :: ' ' :: (A ++ ' ' :: '@' :: ' ' :: (H ++ ' ' :: '|' :: ' ' ::
          (natToChars asc ++ '-' :: (natToChars hsc ++ [' ', '|', ' ', 'F', 'i', 'n', 'a']))))))
          ++ ['l'] by simp]
      exact rev_dropWhile_eq_self_append (by decide) (by decide))
  simpa using this

theorem gameLineW_head (g : NFL.GameW) :
    (chrs "[").isPrefixOf (NFL.gameLineW g) = true := by
  obtain ⟨wk, ⟨A, asc, aqb, ast⟩, ⟨H, hsc, hqb, hst⟩⟩ := g
  rw [gameLineW_eq, show chrs "[" = ['['] from rfl]
  simp [List.isPrefixOf]

theorem gameLineW_has_at (g : NFL.GameW) :
    pyHasChar '@' (NFL.gameLineW g) = true := by
  obtain ⟨wk, ⟨A, asc, aqb, ast⟩, ⟨H, hsc, hqb, hst⟩⟩ := g
  rw [gameLineW_eq]
  refine (contains_iff_mem _ _).mpr ?_
  simp

theorem gameLineW_has_pipe (g : NFL.GameW) :
    pyHasChar '|' (NFL.gameLineW g) = true := by
  obtain ⟨wk, ⟨A, asc, aqb, ast⟩, ⟨H, hsc, hqb, hst⟩⟩ := g
  rw [gameLineW_eq]
  refine (contains_iff_mem _ _).mpr ?_
  simp

theorem gameLineW_has_lb (g : NFL.GameW) :
    pyHasChar '[' (NFL.gameLineW g) = true := by
  obtain ⟨wk, ⟨A, asc, aqb, ast⟩, ⟨H, hsc, hqb, hst⟩⟩ := g
  rw [gameLineW_eq]
  refine (contains_iff_mem _ _).mpr ?_
  simp

/-! ### Skipping lines that are neither markers nor game lines -/

theorem strip_subset_mem {l : Line} {c : Char} (h : c ∈ pyStrip l) : c ∈ l := by
  unfold pyStrip at h
  have h1 := List.mem_reverse.mp h
  have h2 := List.dropWhile_subset _ h1
  have h3 := List.mem_reverse.mp h2
  exact List.dropWhile_subset _ h3

theorem readLoop_skip {L : Line} (h1 : '@' ∉ L) (h2 : '_' ∉ L) (fuel : ℕ)
    (rest : List Line) (b : Bool) (td : NFL.TeamsData) :
    NFL.readLoop (fuel + 1) (L :: rest) b td = NFL.readLoop fuel rest b td := by
  have hm1 : pyIsInfix (chrs "PRESEASON_WEEK") (pyStrip L) = false :=
    pyIsInfix_eq_false_of_witness '_' (by decide) (fun hm => h2 (strip_subset_mem hm))
  have hm2 : pyIsInfix (chrs "REGULAR_WEEK") (pyStrip L) = false :=
    pyIsInfix_eq_false_of_witness '_' (by decide) (fun hm => h2 (strip_subset_mem hm))
  have hat : pyHasChar '@' (pyStrip L) = false :=
    contains_eq_false_of_not_mem (fun hm => h1 (strip_subset_mem hm))
  show (if _ then _ else _) = _
  rw [if_neg (by
    rintro ⟨hor, -⟩
    rcases hor with h | h
    · rw [hm1] at h; cases h
    · rw [hm2] at h; cases h)]
  rw [if_neg (by
    rintro ⟨-, hcon, -⟩
    rw [hat] at hcon
    cases hcon)]

theorem readLoop_nil (fuel : ℕ) (b : Bool) (td : NFL.TeamsData) :
    NFL.readLoop fuel [] b td = td := by
  cases fuel <;> rfl

theorem readLoop_skipAll {m : List Line} (h : ∀ L ∈ m, '@' ∉ L ∧ '_' ∉ L) :
    ∀ fuel rest b td, m.length + rest.length ≤ fuel →
      NFL.readLoop fuel (m ++ rest) b td = NFL.readLoop (fuel - m.length) rest b td := by
  induction m with
  | nil =>
    intro fuel rest b td _
    simp
  | cons L t ih =>
    intro fuel rest b td hf
    cases fuel with
    | zero => simp [List.length_cons] at hf
    | succ f =>
      have hL := h L (List.mem_cons_self _ _)
      rw [show (L :: t) ++ rest = L :: (t ++ rest) from rfl,
        readLoop_skip hL.1 hL.2 f (t ++ rest) b td,
        ih (fun x hx => h x (List.mem_cons_of_mem _ hx)) f rest b td (by
          simp only [List.length_cons] at hf
          omega)]
      have : f - t.length = f + 1 - (L :: t).length := by
        simp only [List.length_cons]
        omega
      rw [this]

/-! ### Lookup algebra for the projected records -/

theorem headerProj_lookup (td : NFL.TeamsData) (t : String) :
    (NFL.headerProj td).lookup t = (td.lookup t).map (List.map NFL.headerProjRec) := by
  induction td with
  | nil => rfl
  | cons kv rest ih =>
    obtain ⟨k, v⟩ := kv
    cases h : t == k <;>
      simp [NFL.headerProj, List.lookup, h, ih] <;>
      simpa [NFL.headerProj] using ih

theorem lookup_cons_true {γ : Type} {t' k : String} (h : (t' == k) = true) (v : γ)
    (es : List (String × γ)) : ((k, v) :: es).lookup t' = some v := by
  rw [List.lookup_cons, h]

theorem lookup_cons_false {γ : Type} {t' k : String} (h : (t' == k) = false) (v : γ)
    (es : List (String × γ)) : ((k, v) :: es).lookup t' = es.lookup t' := by
  rw [List.lookup_cons, h]

theorem lookup_map_update {γ : Type} (P : List (String × List γ)) (t t' : String)
    (f : List γ → List γ) :
    (P.map (fun kv => if kv.1 == t then (kv.1, f kv.2) else kv)).lookup t' =
      if t' == t then (P.lookup t').map f else P.lookup t' := by
  induction P with
  | nil => cases h : t' == t <;> simp [h]
  | cons kv rest ih =>
    obtain ⟨k, v⟩ := kv
    simp only [List.map_cons]
    cases hkt : k == t
    · rw [if_neg (by simp)]
      cases ht'k : t' == k
      · rw [lookup_cons_false ht'k, lookup_cons_false ht'k, ih]
      · have ht't : (t' == t) = false := by
          have h1 : t' = k := by simpa using ht'k
          have h2 : ¬ k = t := by simpa using hkt
          simp [h1, h2]
        rw [ht't]
        simp only [Bool.false_eq_true, if_false]
        rw [lookup_cons_true ht'k, lookup_cons_true ht'k]
    · rw [if_pos rfl]
      cases ht'k : t' == k
      · rw [lookup_cons_false ht'k, lookup_cons_false ht'k, ih]
      · have ht't : (t' == t) = true := by
          have h1 : t' = k := by simpa using ht'k
          have h2 : k = t := by simpa using hkt
          simp [h1, h2]
        rw [ht't]
        simp only [if_true]
        rw [lookup_cons_true ht'k, lookup_cons_true ht'k]
        rfl

theorem lookup_append_single {γ : Type} (P : List (String × List γ)) (t t' : String)
    (v : List γ) :
    (P ++ [(t, v)]).lookup t' =
      match P.lookup t' with
      | some w => some w
      | none => if t' == t then some v else none := by
  induction P with
  | nil =>
    cases h : t' == t <;> simp only [List.nil_append, List.lookup_nil] <;>
      rw [List.lookup_cons] <;> simp [h]
  | cons kv rest ih =>
    obtain ⟨k, v'⟩ := kv
    cases h : t' == k
    · rw [show ((k, v') :: rest) ++ [(t, v)] = (k, v') :: (rest ++ [(t, v)]) from rfl,
        lookup_cons_false h, lookup_cons_false h, ih]
    · rw [show ((k, v') :: rest) ++ [(t, v)] = (k, v') :: (rest ++ [(t, v)]) from rfl,
        lookup_cons_true h, lookup_cons_true h]

theorem specAppend_lookup (P : List (String × List (String × String × ℤ × ℤ)))
    (team : String) (e : String × String × ℤ × ℤ) (t' : String) :
    (NFL.specAppend P team e).lookup t' =
      if t' == team then some (((P.lookup team).getD []) ++ [e]) else P.lookup t' := by
  unfold NFL.specAppend
  cases hs : (P.lookup team).isSome
  · rw [if_neg (by simp)]
    rw [lookup_append_single]
    have hnone : P.lookup team = none := by
      cases hl : P.lookup team
      · rfl
      · rw [hl] at hs; cases hs
    cases hl : P.lookup t' <;> cases ht : t' == team
    · simp [hl, ht]
    · have h1 : t' = team := by simpa using ht
      subst h1
      simp [hl, hnone]
    · simp [hl, ht]
    · have h1 : t' = team := by simpa using ht
      subst h1
      rw [hl] at hnone
      cases hnone
  · rw [if_pos rfl]
    rw [lookup_map_update P team t' (fun l => l ++ [e])]
    cases ht : t' == team
    · simp [ht]
    · have ht' : t' = team := by simpa using ht
      subst ht'
      obtain ⟨w, hw⟩ := Option.isSome_iff_exists.mp hs
      simp [hw]

theorem headerProj_tdAppend (td : NFL.TeamsData) (team : String) (r : NFL.GameRecord) :
    NFL.headerProj (NFL.tdAppend td team r) =
      NFL.specAppend (NFL.headerProj td) team (NFL.headerProjRec r) := by
  unfold NFL.tdAppend NFL.specAppend
  have hsome : ((NFL.headerProj td).lookup team).isSome = (td.lookup team).isSome := by
    rw [headerProj_lookup]
    cases td.lookup team <;> rfl
  cases hs : (td.lookup team).isSome
  · rw [if_neg (by simp), if_neg (by rw [hsome, hs]; simp)]
    simp [NFL.headerProj]
  · rw [if_pos rfl, if_pos (by rw [hsome]; exact hs)]
    simp only [NFL.headerProj, List.map_map]
    refine List.map_congr_left ?_
    intro kv _
    by_cases hk : kv.1 = team
    · have hb : (kv.1 == team) = true := by simp [hk]
      simp [Function.comp, hb]
    · have hb : (kv.1 == team) = false := by simp [hk]
      simp [Function.comp, hb]

theorem addGameRecords_lookup (td : NFL.TeamsData) (A H : String) (as hs : ℤ)
    (p : Bool) (sa sh : NFL.TeamStats) (qa qh : Option NFL.QBStats)
    (hne : A ≠ H) (hsc : as ≠ hs) (t' : String) :
    (NFL.headerProj (NFL.addGameRecords td A H as hs p sa sh qa qh)).lookup t' =
      (NFL.specAppend (NFL.specAppend (NFL.headerProj td) A (H, "away", as, hs))
        H (A, "home", hs, as)).lookup t' := by
  unfold NFL.addGameRecords
  have hAH : (A == H) = false := by simp [hne]
  have hHA : (H == A) = false := by simp [Ne.symm hne]
  rcases lt_trichotomy as hs with hlt | heq | hgt
  · rw [if_neg (by omega), if_pos (by omega)]
    rw [headerProj_tdAppend, headerProj_tdAppend]
    simp only [specAppend_lookup, NFL.headerProjRec]
    by_cases e1 : t' = A
    · subst e1
      simp [hAH, hHA]
    · by_cases e2 : t' = H
      · subst e2
        simp [hAH, hHA]
      · have hb1 : (t' == A) = false := by simp [e1]
        have hb2 : (t' == H) = false := by simp [e2]
        simp [hb1, hb2]
  · exact absurd heq hsc
  · rw [if_pos (by omega)]
    rw [headerProj_tdAppend, headerProj_tdAppend]
    rfl

/-! ### Marker containment facts for the written block lines -/

theorem not_mem_append2 {c : Char} {a b : Line} (ha : c ∉ a) (hb : c ∉ b) :
    c ∉ a ++ b := by
  intro hm
  rcases List.mem_append.mp hm with h | h
  · exact ha h
  · exact hb h

theorem wfFree_no {l : Line} (h : NFL.wfFree l = true) :
    '@' ∉ l ∧ '_' ∉ l ∧ 'Q' ∉ l ∧ 'W' ∉ l :=
  ⟨(wfFree_spec h).1, (wfFree_spec h).2.2.2.1, (wfFree_spec h).2.2.2.2.1,
    (wfFree_spec h).2.2.2.2.2⟩

theorem qb_away_marker (q : NFL.QBWrite) :
    pyIsInfix (chrs "AWAY QB") (NFL.qbLineW (chrs "AWAY") q) = true := by
  have h : NFL.qbLineW (chrs "AWAY") q = chrs "  " ++ (chrs "AWAY QB" ++ (chrs " (" ++
      (q.name ++ (chrs "): " ++ (q.comp_att ++ (chrs " for " ++ (q.yards ++ (chrs "yds, " ++
      (q.tds ++ (chrs "TD/" ++ (q.ints ++ (chrs "INT, " ++ (q.ypa ++ (chrs " YPA, " ++
      (q.qb_rating ++ chrs " RTG"))))))))))))))) := by
    simp only [NFL.qbLineW, List.append_assoc]
    rfl
  rw [h]
  have := pyIsInfix_sandwich (chrs "AWAY QB") (chrs "  ") (chrs " (" ++
      (q.name ++ (chrs "): " ++ (q.comp_att ++ (chrs " for " ++ (q.yards ++ (chrs "yds, " ++
      (q.tds ++ (chrs "TD/" ++ (q.ints ++ (chrs "INT, " ++ (q.ypa ++ (chrs " YPA, " ++
      (q.qb_rating ++ chrs " RTG"))))))))))))))
  simpa [List.append_assoc] using this

theorem qb_home_marker (q : NFL.QBWrite) :
    pyIsInfix (chrs "HOME QB") (NFL.qbLineW (chrs "HOME") q) = true := by
  have h : NFL.qbLineW (chrs "HOME") q = chrs "  " ++ (chrs "HOME QB" ++ (chrs " (" ++
      (q.name ++ (chrs "): " ++ (q.comp_att ++ (chrs " for " ++ (q.yards ++ (chrs "yds, " ++
      (q.tds ++ (chrs "TD/" ++ (q.ints ++ (chrs "INT, " ++ (q.ypa ++ (chrs " YPA, " ++
      (q.qb_rating ++ chrs " RTG"))))))))))))))) := by
    simp only [NFL.qbLineW, List.append_assoc]
    rfl
  rw [h]
  have := pyIsInfix_sandwich (chrs "HOME QB") (chrs "  ") (chrs " (" ++
      (q.name ++ (chrs "): " ++ (q.comp_att ++ (chrs " for " ++ (q.yards ++ (chrs "yds, " ++
      (q.tds ++ (chrs "TD/" ++ (q.ints ++ (chrs "INT, " ++ (q.ypa ++ (chrs " YPA, " ++
      (q.qb_rating ++ chrs " RTG"))))))))))))))
  simpa [List.append_assoc] using this

theorem hdr_away_marker (A : Line) :
    pyIsInfix (chrs "AWAY") (chrs "  AWAY (" ++ A ++ chrs "):") = true := by
  have h : chrs "  AWAY (" ++ A ++ chrs "):" =
      chrs "  " ++ (chrs "AWAY" ++ (chrs " (" ++ (A ++ chrs "):"))) := by
    simp only [List.append_assoc]
    rfl
  rw [h]
  have := pyIsInfix_sandwich (chrs "AWAY") (chrs "  ") (chrs " (" ++ (A ++ chrs "):"))
  simpa [List.append_assoc] using this

theorem hdr_home_marker (H : Line) :
    pyIsInfix (chrs "HOME") (chrs "  HOME (" ++ H ++ chrs "):") = true := by
  have h : chrs "  HOME (" ++ H ++ chrs "):" =
      chrs "  " ++ (chrs "HOME" ++ (chrs " (" ++ (H ++ chrs "):"))) := by
    simp only [List.append_assoc]
    rfl
  rw [h]
  have := pyIsInfix_sandwich (chrs "HOME") (chrs "  ") (chrs " (" ++ (H ++ chrs "):"))
  simpa [List.append_assoc] using this

/-! ### The offset consumed by one game body -/

theorem consumeGameBody_11 (x0 q1 q2 ah s1 s2 s3 s4 hh t1 t2 t3 t4 : Line)
    (tail : List Line)
    (h1 : pyIsInfix (chrs "AWAY QB") q1 = true)
    (h2 : pyIsInfix (chrs "HOME QB") q2 = true)
    (h3 : pyIsInfix (chrs "AWAY") ah = true)
    (h4 : pyIsInfix (chrs "HOME") hh = true) :
    (NFL.consumeGameBody
      (x0 :: q1 :: q2 :: ah :: s1 :: s2 :: s3 :: s4 :: hh :: t1 :: t2 :: t3 :: t4 ::
        tail)).2.2.2.2 = 13 := by
  simp [NFL.consumeGameBody, NFL.parseStatsBlock, h1, h2, h3, h4]

theorem consumeGameBody_10 (x0 q1 ah s1 s2 s3 s4 hh t1 t2 t3 t4 : Line)
    (tail : List Line)
    (h1 : pyIsInfix (chrs "AWAY QB") q1 = true)
    (h2 : pyIsInfix (chrs "HOME QB") ah = false)
    (h3 : pyIsInfix (chrs "AWAY") ah = true)
    (h4 : pyIsInfix (chrs "HOME") hh = true) :
    (NFL.consumeGameBody
      (x0 :: q1 :: ah :: s1 :: s2 :: s3 :: s4 :: hh :: t1 :: t2 :: t3 :: t4 ::
        tail)).2.2.2.2 = 12 := by
  simp [NFL.consumeGameBody, NFL.parseStatsBlock, h1, h2, h3, h4]

theorem consumeGameBody_00 (x0 ah s1 s2 s3 s4 hh t1 t2 t3 t4 : Line)
    (tail : List Line)
    (h1 : pyIsInfix (chrs "AWAY QB") ah = false)
    (h2 : pyIsInfix (chrs "HOME QB") s1 = false)
    (h3 : pyIsInfix (chrs "AWAY") ah = true)
    (h4 : pyIsInfix (chrs "HOME") hh = true) :
    (NFL.consumeGameBody
      (x0 :: ah :: s1 :: s2 :: s3 :: s4 :: hh :: t1 :: t2 :: t3 :: t4 ::
        tail)).2.2.2.2 = 11 := by
  simp [NFL.consumeGameBody, NFL.parseStatsBlock, h1, h2, h3, h4]

theorem consumeGameBody_01 (x0 q2 ah s1 s2 s3 s4 hh t1 t2 t3 t4 : Line)
    (tail : List Line)
    (h1 : pyIsInfix (chrs "AWAY QB") q2 = false)
    (h2 : pyIsInfix (chrs "HOME QB") ah = false)
    (h3 : pyIsInfix (chrs "AWAY") q2 = false) :
    (NFL.consumeGameBody
      (x0 :: q2 :: ah :: s1 :: s2 :: s3 :: s4 :: hh :: t1 :: t2 :: t3 :: t4 ::
        tail)).2.2.2.2 =
      if pyIsInfix (chrs "HOME") x0 = true then 5 else 0 := by
  cases hx : pyIsInfix (chrs "HOME") x0 <;>
    simp [NFL.consumeGameBody, NFL.parseStatsBlock, h1, h2, h3, hx]

/-! ### One whole game block: the parser recreates the written names
and scores and moves on -/

theorem readLoop_cons_eq (fuel : ℕ) (raw : Line) (rest : List Line) (b : Bool)
    (td : NFL.TeamsData) :
    NFL.readLoop (fuel + 1) (raw :: rest) b td =
      if (pyIsInfix (chrs "PRESEASON_WEEK") (pyStrip raw) = true ∨
          pyIsInfix (chrs "REGULAR_WEEK") (pyStrip raw) = true)
          ∧ ¬ pyHasChar '[' (pyStrip raw) = true then
        NFL.readLoop fuel rest (pyIsInfix (chrs "PRESEASON") (pyStrip raw)) td
      else if (chrs "[").isPrefixOf (pyStrip raw) = true ∧
          pyHasChar '@' (pyStrip raw) = true ∧ pyHasChar '|' (pyStrip raw) = true then
        match NFL.parseGameHeader (pyStrip raw) with
        | none => NFL.readLoop fuel rest b td
        | some (away_team, home_team, away_score, home_score) =>
          NFL.readLoop fuel (rest.drop (NFL.consumeGameBody (raw :: rest)).2.2.2.2) b
            (NFL.addGameRecords td ⟨away_team⟩ ⟨home_team⟩ away_score home_score
              b (NFL.consumeGameBody (raw :: rest)).2.2.1
              (NFL.consumeGameBody (raw :: rest)).2.2.2.1
              (NFL.consumeGameBody (raw :: rest)).1
              (NFL.consumeGameBody (raw :: rest)).2.1)
      else NFL.readLoop fuel rest b td := rfl

theorem readLoop_game_step (raw : Line) (rest : List Line) (fuel : ℕ) (b : Bool)
    (td : NFL.TeamsData)
    (hm : ¬ ((pyIsInfix (chrs "PRESEASON_WEEK") (pyStrip raw) = true ∨
        pyIsInfix (chrs "REGULAR_WEEK") (pyStrip raw) = true)
        ∧ ¬ pyHasChar '[' (pyStrip raw) = true))
    (hg : (chrs "[").isPrefixOf (pyStrip raw) = true ∧
        pyHasChar '@' (pyStrip raw) = true ∧ pyHasChar '|' (pyStrip raw) = true)
    (A H : Line) (s1 s2 : ℤ)
    (hp : NFL.parseGameHeader (pyStrip raw) = some (A, H, s1, s2)) :
    NFL.readLoop (fuel + 1) (raw :: rest) b td =
      NFL.readLoop fuel (rest.drop (NFL.consumeGameBody (raw :: rest)).2.2.2.2) b
        (NFL.addGameRecords td ⟨A⟩ ⟨H⟩ s1 s2 b (NFL.consumeGameBody (raw :: rest)).2.2.1
          (NFL.consumeGameBody (raw :: rest)).2.2.2.1 (NFL.consumeGameBody (raw :: rest)).1
          (NFL.consumeGameBody (raw :: rest)).2.1) := by
  rw [readLoop_cons_eq, if_neg hm, if_pos hg, hp]

/-- Dropping five elements from a cons chain. -/
theorem drop_five_cons {A : Type} (a b c d e : A) (l : List A) :
    List.drop 5 (a :: b :: c :: d :: e :: l) = l := rfl

/-- A seven-element cons chain as an append. -/
theorem cons_seven_append {A : Type} (a b c d e f g : A) (l : List A) :
    a :: b :: c :: d :: e :: f :: g :: l = [a, b, c, d, e, f, g] ++ l := rfl

/-- A twelve-element cons chain as an append. -/
theorem cons_twelve_append {A : Type} (a b c d e f g h i j k m : A) (l : List A) :
    a :: b :: c :: d :: e :: f :: g :: h :: i :: j :: k :: m :: l =
    [a, b, c, d, e, f, g, h, i, j, k, m] ++ l := rfl

set_option maxHeartbeats 4000000 in
theorem readLoop_gameBlock (g : NFL.GameW) (hwf : NFL.wfGameW g = true)
    (rest : List Line) (fuel : ℕ) (b : Bool) (td : NFL.TeamsData)
    (hfuel : (NFL.gameBlockW g ++ rest).length ≤ fuel + 1) :
    ∃ sa sh qa qh f', rest.length ≤ f' ∧
      NFL.readLoop (fuel + 1) (NFL.gameBlockW g ++ rest) b td =
        NFL.readLoop f' rest b
          (NFL.addGameRecords td ⟨g.away_team.name⟩ ⟨g.home_team.name⟩
            (g.away_team.score : ℤ) (g.home_team.score : ℤ) b sa sh qa qh) := by
  obtain ⟨wk, ⟨A, asc, aqb, ast⟩, ⟨H, hscn, hqb2, hst⟩⟩ := g
  simp only [NFL.wfGameW, NFL.wfTeamW, Bool.and_eq_true] at hwf
  obtain ⟨⟨⟨hwkF, ⟨⟨⟨⟨hAF, hAs⟩, hAne⟩, hAstats⟩, hAqb⟩⟩,
    ⟨⟨⟨⟨hHF, hHs⟩, hHne⟩, hHstats⟩, hHqb⟩⟩, hneq⟩ := hwf
  have hAs' : pyStrip A = A := by simpa using hAs
  have hHs' : pyStrip H = H := by simpa using hHs
  have hAne' : A ≠ [] := by simpa [List.isEmpty_iff] using hAne
  have hHne' : H ≠ [] := by simpa [List.isEmpty_iff] using hHne
  simp only [NFL.wfStatsW, Bool.and_eq_true] at hAstats hHstats
  obtain ⟨⟨⟨⟨⟨⟨⟨⟨⟨⟨⟨⟨⟨⟨⟨a1, a2⟩, a3⟩, a4⟩, a5⟩, a6⟩, a7⟩, a8⟩, a9⟩, a10⟩,
    a11⟩, a12⟩, a13⟩, a14⟩, a15⟩, a16⟩ := hAstats
  obtain ⟨⟨⟨⟨⟨⟨⟨⟨⟨⟨⟨⟨⟨⟨⟨b1, b2⟩, b3⟩, b4⟩, b5⟩, b6⟩, b7⟩, b8⟩, b9⟩, b10⟩,
    b11⟩, b12⟩, b13⟩, b14⟩, b15⟩, b16⟩ := hHstats
  have hQahdr : 'Q' ∉ chrs "  AWAY (" ++ A ++ chrs "):" :=
    not_mem_append2 (not_mem_append2 (by decide) (wfFree_no hAF).2.2.1) (by decide)
  cases aqb with
  | some qA =>
    cases hqb2 with
    | some qH =>
      simp only [NFL.gameBlockW, NFL.statLinesW, List.cons_append, List.nil_append,
        List.length_cons, List.length_append] at hfuel ⊢
      apply Exists.intro
      apply Exists.intro
      apply Exists.intro
      apply Exists.intro
      refine Exists.intro fuel ⟨by omega, ?_⟩
      rw [readLoop_game_step _ _ fuel b td
        (by rw [gameLineW_strip]; exact fun hc => hc.2 (gameLineW_has_lb _))
        (by rw [gameLineW_strip]
            exact ⟨gameLineW_head _, gameLineW_has_at _, gameLineW_has_pipe _⟩)
        _ _ _ _
        (by rw [gameLineW_strip]
            exact parseGameHeader_gameLineW ⟨wk, ⟨A, asc, some qA, ast⟩,
              ⟨H, hscn, some qH, hst⟩⟩ hAF hAs' hAne' hHF hHs' hHne' hwkF)]
      rw [consumeGameBody_11 _ _ _ _ _ _ _ _ _ _ _ _ _ _
        (qb_away_marker qA) (qb_home_marker qH) (hdr_away_marker A) (hdr_home_marker H)]
      rfl
    | none =>
      simp only [NFL.gameBlockW, NFL.statLinesW, List.cons_append, List.nil_append,
        List.length_cons, List.length_append] at hfuel ⊢
      apply Exists.intro
      apply Exists.intro
      apply Exists.intro
      apply Exists.intro
      refine Exists.intro fuel ⟨by omega, ?_⟩
      rw [readLoop_game_step _ _ fuel b td
        (by rw [gameLineW_strip]; exact fun hc => hc.2 (gameLineW_has_lb _))
        (by rw [gameLineW_strip]
            exact ⟨gameLineW_head _, gameLineW_has_at _, gameLineW_has_pipe _⟩)
        _ _ _ _
        (by rw [gameLineW_strip]
            exact parseGameHeader_gameLineW ⟨wk, ⟨A, asc, some qA, ast⟩,
              ⟨H, hscn, none, hst⟩⟩ hAF hAs' hAne' hHF hHs' hHne' hwkF)]
      rw [consumeGameBody_10 _ _ _ _ _ _ _ _ _ _ _ _ _
        (qb_away_marker qA)
        (pyIsInfix_eq_false_of_witness 'Q' (by decide) hQahdr)
        (hdr_away_marker A) (hdr_home_marker H)]
      rfl
  | none =>
    have hQs1 : 'Q' ∉ chrs "    Total Yards: " ++ ast.totalYards.getD (chrs "0") ++
        chrs " | Yards/Play: " ++ ast.yardsPerPlay.getD (chrs "0") ++
        chrs " | Possession: " ++ ast.possessionTime.getD (chrs "0:00") :=
      not_mem_append2 (not_mem_append2 (not_mem_append2 (not_mem_append2 (not_mem_append2
        (by decide) (wfFree_no a1).2.2.1) (by decide)) (wfFree_no a2).2.2.1)
        (by decide)) (wfFree_no a3).2.2.1
    cases hqb2 with
    | none =>
      simp only [NFL.gameBlockW, NFL.statLinesW, List.cons_append, List.nil_append,
        List.length_cons, List.length_append] at hfuel ⊢
      apply Exists.intro
      apply Exists.intro
      apply Exists.intro
      apply Exists.intro
      refine Exists.intro fuel ⟨by omega, ?_⟩
      rw [readLoop_game_step _ _ fuel b td
        (by rw [gameLineW_strip]; exact fun hc => hc.2 (gameLineW_has_lb _))
        (by rw [gameLineW_strip]
            exact ⟨gameLineW_head _, gameLineW_has_at _, gameLineW_has_pipe _⟩)
        _ _ _ _
        (by rw [gameLineW_strip]
            exact parseGameHeader_gameLineW ⟨wk, ⟨A, asc, none, ast⟩,
              ⟨H, hscn, none, hst⟩⟩ hAF hAs' hAne' hHF hHs' hHne' hwkF)]
      rw [consumeGameBody_00 _ _ _ _ _ _ _ _ _ _ _ _
        (pyIsInfix_eq_false_of_witness 'Q' (by decide) hQahdr)
        (pyIsInfix_eq_false_of_witness 'Q' (by decide) hQs1)
        (hdr_away_marker A) (hdr_home_marker H)]
      rfl
    | some qH =>
      have hqHw : NFL.wfQBW qH = true := hHqb
      simp only [NFL.wfQBW, Bool.and_eq_true] at hqHw
      obtain ⟨⟨⟨⟨⟨⟨c1, c2⟩, c3⟩, c4⟩, c5⟩, c6⟩, c7⟩ := hqHw
      have hWqH : 'W' ∉ NFL.qbLineW (chrs "HOME") qH := by
        unfold NFL.qbLineW
        repeat' apply not_mem_append2
        all_goals
          first
          | decide
          | exact (wfFree_no c1).2.2.2
          | exact (wfFree_no c2).2.2.2
          | exact (wfFree_no c3).2.2.2
          | exact (wfFree_no c4).2.2.2
          | exact (wfFree_no c5).2.2.2
          | exact (wfFree_no c6).2.2.2
          | exact (wfFree_no c7).2.2.2
      have hskipQB : '@' ∉ NFL.qbLineW (chrs "HOME") qH ∧
          '_' ∉ NFL.qbLineW (chrs "HOME") qH := by
        constructor <;>
        · unfold NFL.qbLineW
          repeat' apply not_mem_append2
          all_goals
            first
            | decide
            | exact (wfFree_no c1).1
            | exact (wfFree_no c2).1
            | exact (wfFree_no c3).1
            | exact (wfFree_no c4).1
            | exact (wfFree_no c5).1
            | exact (wfFree_no c6).1
            | exact (wfFree_no c7).1
            | exact (wfFree_no c1).2.1
            | exact (wfFree_no c2).2.1
            | exact (wfFree_no c3).2.1
            | exact (wfFree_no c4).2.1
            | exact (wfFree_no c5).2.1
            | exact (wfFree_no c6).2.1
            | exact (wfFree_no c7).2.1
      simp only [NFL.gameBlockW, NFL.statLinesW, List.cons_append, List.nil_append,
        List.length_cons, List.length_append] at hfuel ⊢
      have hskipAll : ∀ L ∈ [NFL.qbLineW (chrs "HOME") qH,
          chrs "  AWAY (" ++ A ++ chrs "):",
          chrs "    Total Yards: " ++ ast.totalYards.getD (chrs "0") ++
            chrs " | Yards/Play: " ++ ast.yardsPerPlay.getD (chrs "0") ++
            chrs " | Possession: " ++ ast.possessionTime.getD (chrs "0:00"),
          chrs "    Passing: " ++ ast.netPassingYards.getD (chrs "0") ++
            chrs "yds (" ++ ast.completionAttempts.getD (chrs "0-0") ++
            chrs ") | Rushing: " ++ ast.rushingYards.getD (chrs "0") ++
            chrs "yds (" ++ ast.yardsPerRushAttempt.getD (chrs "0.0") ++
            chrs " avg) | 1st Downs: " ++ ast.firstDowns.getD (chrs "0"),
          chrs "    3rd Down: " ++ ast.thirdDownEff.getD (chrs "0-0") ++
            chrs " | 4th Down: " ++ ast.fourthDownEff.getD (chrs "0-0") ++
            chrs " | Red Zone: " ++ ast.redZoneAttempts.getD (chrs "0-0"),
          chrs "    Turnovers: " ++ ast.turnovers.getD (chrs "0") ++
            chrs " (INT: " ++ ast.interceptions.getD (chrs "0") ++
            chrs ", Fum: " ++ ast.fumblesLost.getD (chrs "0") ++
            chrs ") | Sacks: " ++ NFL.sacksWritten ast.sacksYardsLost ++
            chrs " | Penalties: " ++ ast.totalPenaltiesYards.getD (chrs "0-0"),
          chrs "  HOME (" ++ H ++ chrs "):",
          chrs "    Total Yards: " ++ hst.totalYards.getD (chrs "0") ++
            chrs " | Yards/Play: " ++ hst.yardsPerPlay.getD (chrs "0") ++
            chrs " | Possession: " ++ hst.possessionTime.getD (chrs "0:00"),
          chrs "    Passing: " ++ hst.netPassingYards.getD (chrs "0") ++
            chrs "yds (" ++ hst.completionAttempts.getD (chrs "0-0") ++
            chrs ") | Rushing: " ++ hst.rushingYards.getD (chrs "0") ++
            chrs "yds (" ++ hst.yardsPerRushAttempt.getD (chrs "0.0") ++
            chrs " avg) | 1st Downs: " ++ hst.firstDowns.getD (chrs "0"),
          chrs "    3rd Down: " ++ hst.thirdDownEff.getD (chrs "0-0") ++
            chrs " | 4th Down: " ++ hst.fourthDownEff.getD (chrs "0-0") ++
            chrs " | Red Zone: " ++ hst.redZoneAttempts.getD (chrs "0-0"),
          chrs "    Turnovers: " ++ hst.turnovers.getD (chrs "0") ++
            chrs " (INT: " ++ hst.interceptions.getD (chrs "0") ++
            chrs ", Fum: " ++ hst.fumblesLost.getD (chrs "0") ++
            chrs ") | Sacks: " ++ NFL.sacksWritten hst.sacksYardsLost ++
            chrs " | Penalties: " ++ hst.totalPenaltiesYards.getD (chrs "0-0"),
          ([] : Line)], '@' ∉ L ∧ '_' ∉ L := by
        intro L hL
        simp only [List.mem_cons, List.mem_singleton] at hL
        rcases hL with rfl | rfl | rfl | rfl | rfl | rfl | rfl | rfl | rfl | rfl | rfl | rfl | h
        · exact hskipQB
        all_goals try
          (constructor <;>
            · repeat' apply not_mem_append2
              all_goals
                first
                | decide
                | exact (wfFree_no (by assumption)).1
                | exact (wfFree_no (by assumption)).2.1)
        cases h
      have f1 : pyIsInfix (chrs "AWAY QB") (NFL.qbLineW (chrs "HOME") qH) = false :=
        pyIsInfix_eq_false_of_witness 'W' (by decide) hWqH
      have f2 : pyIsInfix (chrs "HOME QB") (chrs "  AWAY (" ++ A ++ chrs "):") = false :=
        pyIsInfix_eq_false_of_witness 'Q' (by decide) hQahdr
      have f3 : pyIsInfix (chrs "AWAY") (NFL.qbLineW (chrs "HOME") qH) = false :=
        pyIsInfix_eq_false_of_witness 'W' (by decide) hWqH
      cases hx : pyIsInfix (chrs "HOME")
          (NFL.gameLineW ⟨wk, ⟨A, asc, none, ast⟩, ⟨H, hscn, some qH, hst⟩⟩) with
      | false =>
        apply Exists.intro
        apply Exists.intro
        apply Exists.intro
        apply Exists.intro
        refine Exists.intro (fuel - 12) ⟨by omega, ?_⟩
        rw [readLoop_game_step _ _ fuel b td
          (by rw [gameLineW_strip]; exact fun hc => hc.2 (gameLineW_has_lb _))
          (by rw [gameLineW_strip]
              exact ⟨gameLineW_head _, gameLineW_has_at _, gameLineW_has_pipe _⟩)
          _ _ _ _
          (by rw [gameLineW_strip]
              exact parseGameHeader_gameLineW ⟨wk, ⟨A, asc, none, ast⟩,
                ⟨H, hscn, some qH, hst⟩⟩ hAF hAs' hAne' hHF hHs' hHne' hwkF)]
        rw [consumeGameBody_01 _ _ _ _ _ _ _ _ _ _ _ _ _ f1 f2 f3, hx,
          if_neg (fun hh => by cases hh)]
        rw [List.drop_zero, cons_twelve_append]
        rw [readLoop_skipAll hskipAll fuel rest b _ (by
          simp only [List.length_cons, List.length_nil]
          omega)]
        rfl
      | true =>
        obtain ⟨k, rfl⟩ : ∃ k, fuel = k + 7 := ⟨fuel - 7, by omega⟩
        have q6 := hskipAll _ (List.mem_cons_of_mem _ (List.mem_cons_of_mem _ (List.mem_cons_of_mem _ (List.mem_cons_of_mem _ (List.mem_cons_of_mem _ (List.mem_cons_self _ _))))))
        have q7 := hskipAll _ (List.mem_cons_of_mem _ (List.mem_cons_of_mem _ (List.mem_cons_of_mem _ (List.mem_cons_of_mem _ (List.mem_cons_of_mem _ (List.mem_cons_of_mem _ (List.mem_cons_self _ _)))))))
        have q8 := hskipAll _ (List.mem_cons_of_mem _ (List.mem_cons_of_mem _ (List.mem_cons_of_mem _ (List.mem_cons_of_mem _ (List.mem_cons_of_mem _ (List.mem_cons_of_mem _ (List.mem_cons_of_mem _ (List.mem_cons_self _ _))))))))
        have q9 := hskipAll _ (List.mem_cons_of_mem _ (List.mem_cons_of_mem _ (List.mem_cons_of_mem _ (List.mem_cons_of_mem _ (List.mem_cons_of_mem _ (List.mem_cons_of_mem _ (List.mem_cons_of_mem _ (List.mem_cons_of_mem _ (List.mem_cons_self _ _)))))))))
        have q10 := hskipAll _ (List.mem_cons_of_mem _ (List.mem_cons_of_mem _ (List.mem_cons_of_mem _ (List.mem_cons_of_mem _ (List.mem_cons_of_mem _ (List.mem_cons_of_mem _ (List.mem_cons_of_mem _ (List.mem_cons_of_mem _ (List.mem_cons_of_mem _ (List.mem_cons_self _ _))))))))))
        have q11 := hskipAll _ (List.mem_cons_of_mem _ (List.mem_cons_of_mem _ (List.mem_cons_of_mem _ (List.mem_cons_of_mem _ (List.mem_cons_of_mem _ (List.mem_cons_of_mem _ (List.mem_cons_of_mem _ (List.mem_cons_of_mem _ (List.mem_cons_of_mem _ (List.mem_cons_of_mem _ (List.mem_cons_self _ _)))))))))))
        have q12 := hskipAll _ (List.mem_cons_of_mem _ (List.mem_cons_of_mem _ (List.mem_cons_of_mem _ (List.mem_cons_of_mem _ (List.mem_cons_of_mem _ (List.mem_cons_of_mem _ (List.mem_cons_of_mem _ (List.mem_cons_of_mem _ (List.mem_cons_of_mem _ (List.mem_cons_of_mem _ (List.mem_cons_of_mem _ (List.mem_cons_self _ _))))))))))))
        have e7 : k + 7 = (k + 6) + 1 := rfl
        have e6 : k + 6 = (k + 5) + 1 := rfl
        have e5 : k + 5 = (k + 4) + 1 := rfl
        have e4 : k + 4 = (k + 3) + 1 := rfl
        have e3 : k + 3 = (k + 2) + 1 := rfl
        have e2 : k + 2 = (k + 1) + 1 := rfl
        apply Exists.intro
        apply Exists.intro
        apply Exists.intro
        apply Exists.intro
        refine Exists.intro k ⟨by omega, ?_⟩
        rw [readLoop_game_step _ _ (k + 7) b td
          (by rw [gameLineW_strip]; exact fun hc => hc.2 (gameLineW_has_lb _))
          (by rw [gameLineW_strip]
              exact ⟨gameLineW_head _, gameLineW_has_at _, gameLineW_has_pipe _⟩)
          _ _ _ _
          (by rw [gameLineW_strip]
              exact parseGameHeader_gameLineW ⟨wk, ⟨A, asc, none, ast⟩,
                ⟨H, hscn, some qH, hst⟩⟩ hAF hAs' hAne' hHF hHs' hHne' hwkF)]
        rw [consumeGameBody_01 _ _ _ _ _ _ _ _ _ _ _ _ _ f1 f2 f3, hx, if_pos rfl]
        rw [drop_five_cons]
        rw [e7, readLoop_skip q6.1 q6.2 (k + 6) _ b _]
        rw [e6, readLoop_skip q7.1 q7.2 (k + 5) _ b _]
        rw [e5, readLoop_skip q8.1 q8.2 (k + 4) _ b _]
        rw [e4, readLoop_skip q9.1 q9.2 (k + 3) _ b _]
        rw [e3, readLoop_skip q10.1 q10.2 (k + 2) _ b _]
        rw [e2, readLoop_skip q11.1 q11.2 (k + 1) _ b _]
        rw [readLoop_skip q12.1 q12.2 k rest b _]

/-! ### Round-trip of the whole written file -/

theorem writeGamesW_cons (cw : Option Line) (g : NFL.GameW) (gs : List NFL.GameW) :
    NFL.writeGamesW cw (g :: gs) =
      (if cw = some g.week then ([] : List Line)
       else [[], NFL.eqLine, g.week, NFL.eqLine, []]) ++
      NFL.gameBlockW g ++ NFL.writeGamesW (some g.week) gs := rfl

theorem eqLine_clean : '@' ∉ NFL.eqLine ∧ '_' ∉ NFL.eqLine := by
  constructor <;>
  · intro h
    simp only [NFL.eqLine, List.mem_replicate] at h
    exact absurd h.2 (by decide)

theorem natToChars_clean (n : ℕ) : '@' ∉ natToChars n ∧ '_' ∉ natToChars n :=
  ⟨fun h => absurd (natToChars_digits n _ h) (by decide),
   fun h => absurd (natToChars_digits n _ h) (by decide)⟩

theorem gameBlockW_length_pos (g : NFL.GameW) : 0 < (NFL.gameBlockW g).length := by
  unfold NFL.gameBlockW
  simp only [List.length_append, List.length_cons, List.length_nil]
  omega

theorem specAppend_congr {P Q : List (String × List (String × String × ℤ × ℤ))}
    (h : ∀ u, P.lookup u = Q.lookup u) (team : String) (e : String × String × ℤ × ℤ)
    (t' : String) :
    (NFL.specAppend P team e).lookup t' = (NFL.specAppend Q team e).lookup t' := by
  rw [specAppend_lookup, specAppend_lookup, h, h]

theorem specFold_congr :
    ∀ (gs : List NFL.GameW) {P Q : List (String × List (String × String × ℤ × ℤ))},
      (∀ u, P.lookup u = Q.lookup u) →
      ∀ t', (NFL.specFold P gs).lookup t' = (NFL.specFold Q gs).lookup t' := by
  intro gs
  induction gs with
  | nil => intro P Q h t'; exact h t'
  | cons g gs ih =>
    intro P Q h t'
    exact ih (fun u => specAppend_congr (fun v => specAppend_congr h _ _ v) _ _ u) t'

theorem readLoop_skipAll_nil {m : List Line} (h : ∀ L ∈ m, '@' ∉ L ∧ '_' ∉ L)
    (fuel : ℕ) (b : Bool) (td : NFL.TeamsData) (hf : m.length ≤ fuel) :
    NFL.readLoop fuel m b td = td := by
  have h2 := readLoop_skipAll h fuel [] b td (by simpa using hf)
  rw [List.append_nil] at h2
  rw [h2, readLoop_nil]

theorem readLoop_writeGames :
    ∀ (games : List NFL.GameW),
      (∀ g ∈ games, NFL.wfGameW g = true) →
      (∀ g ∈ games, (g.away_team.score : ℤ) ≠ (g.home_team.score : ℤ)) →
      ∀ (cw : Option Line) (rest : List Line) (fuel : ℕ) (b : Bool) (td : NFL.TeamsData),
        (NFL.writeGamesW cw games ++ rest).length ≤ fuel →
        ∃ f' td', rest.length ≤ f' ∧
          NFL.readLoop fuel (NFL.writeGamesW cw games ++ rest) b td =
            NFL.readLoop f' rest b td' ∧
          ∀ t', (NFL.headerProj td').lookup t' =
            (NFL.specFold (NFL.headerProj td) games).lookup t' := by
  intro games
  induction games with
  | nil =>
    intro _ _ cw rest fuel b td hfuel
    exact ⟨fuel, td,
      by simpa [show NFL.writeGamesW cw [] = [] from rfl] using hfuel,
      rfl, fun t' => rfl⟩
  | cons g gs ih =>
    intro hwf hnt cw rest fuel b td hfuel
    have hg : NFL.wfGameW g = true := hwf g (List.mem_cons_self _ _)
    have hwk : NFL.wfFree g.week = true := by
      have h0 := hg
      simp only [NFL.wfGameW, Bool.and_eq_true] at h0
      exact h0.1.1.1
    have hnm : (⟨g.away_team.name⟩ : String) ≠ ⟨g.home_team.name⟩ := by
      have h0 := hg
      simp only [NFL.wfGameW, Bool.and_eq_true, Bool.not_eq_true'] at h0
      have h1 : g.away_team.name ≠ g.home_team.name := by simpa using h0.2
      intro hc
      injection hc with h2
      exact h1 h2
    have hsc : (g.away_team.score : ℤ) ≠ (g.home_team.score : ℤ) :=
      hnt g (List.mem_cons_self _ _)
    have hgs : ∀ x ∈ gs, NFL.wfGameW x = true :=
      fun x hx => hwf x (List.mem_cons_of_mem _ hx)
    have hnts : ∀ x ∈ gs, (x.away_team.score : ℤ) ≠ (x.home_team.score : ℤ) :=
      fun x hx => hnt x (List.mem_cons_of_mem _ hx)
    have hbpos := gameBlockW_length_pos g
    rw [writeGamesW_cons] at hfuel ⊢
    by_cases hcw : cw = some g.week
    · rw [if_pos hcw] at hfuel ⊢
      simp only [List.nil_append, List.append_assoc] at hfuel ⊢
      simp only [List.length_append] at hfuel
      obtain ⟨f0, rfl⟩ : ∃ f0, fuel = f0 + 1 := ⟨fuel - 1, by omega⟩
      obtain ⟨sa, sh, qa, qh, f1, hle1, hstep⟩ :=
        readLoop_gameBlock g hg (NFL.writeGamesW (some g.week) gs ++ rest) f0 b td
          (by simp only [List.length_append]; omega)
      obtain ⟨f2, td2, hle2, heq2, hlook2⟩ :=
        ih hgs hnts (some g.week) rest f1 b
          (NFL.addGameRecords td ⟨g.away_team.name⟩ ⟨g.home_team.name⟩
            (g.away_team.score : ℤ) (g.home_team.score : ℤ) b sa sh qa qh) hle1
      refine ⟨f2, td2, hle2, by rw [hstep, heq2], ?_⟩
      intro t'
      rw [hlook2 t']
      exact specFold_congr gs
        (fun u => addGameRecords_lookup td _ _ _ _ b sa sh qa qh hnm hsc u) t'
    · rw [if_neg hcw] at hfuel ⊢
      simp only [List.append_assoc] at hfuel ⊢
      have hskipwk : ∀ L ∈ [([] : Line), NFL.eqLine, g.week, NFL.eqLine, ([] : Line)],
          '@' ∉ L ∧ '_' ∉ L := by
        intro L hL
        simp only [List.mem_cons, List.not_mem_nil, or_false] at hL
        rcases hL with rfl | rfl | rfl | rfl | rfl
        · exact ⟨by simp, by simp⟩
        · exact eqLine_clean
        · exact ⟨(wfFree_no hwk).1, (wfFree_no hwk).2.1⟩
        · exact eqLine_clean
        · exact ⟨by simp, by simp⟩
      have hfuel' := hfuel
      simp only [List.length_append, List.length_cons, List.length_nil] at hfuel'
      rw [readLoop_skipAll hskipwk fuel
        (NFL.gameBlockW g ++ (NFL.writeGamesW (some g.week) gs ++ rest)) b td
        (by simp only [List.length_append, List.length_cons, List.length_nil]; omega)]
      have hsub : fuel - List.length [([] : Line), NFL.eqLine, g.week, NFL.eqLine, ([] : Line)]
          = (fuel - 6) + 1 := by
        simp only [List.length_cons, List.length_nil]
        omega
      rw [hsub]
      obtain ⟨sa, sh, qa, qh, f1, hle1, hstep⟩ :=
        readLoop_gameBlock g hg (NFL.writeGamesW (some g.week) gs ++ rest) (fuel - 6) b td
          (by simp only [List.length_append]; omega)
      obtain ⟨f2, td2, hle2, heq2, hlook2⟩ :=
        ih hgs hnts (some g.week) rest f1 b
          (NFL.addGameRecords td ⟨g.away_team.name⟩ ⟨g.home_team.name⟩
            (g.away_team.score : ℤ) (g.home_team.score : ℤ) b sa sh qa qh) hle1
      refine ⟨f2, td2, hle2, by rw [hstep, heq2], ?_⟩
      intro t'
      rw [hlook2 t']
      exact specFold_congr gs
        (fun u => addGameRecords_lookup td _ _ _ _ b sa sh qa qh hnm hsc u) t'

theorem readLoop_full (pre tr : List Line)
    (hpre : ∀ L ∈ pre, '@' ∉ L ∧ '_' ∉ L) (htr : ∀ L ∈ tr, '@' ∉ L ∧ '_' ∉ L)
    (games : List NFL.GameW)
    (hwf : ∀ g ∈ games, NFL.wfGameW g = true)
    (hnt : ∀ g ∈ games, (g.away_team.score : ℤ) ≠ (g.home_team.score : ℤ))
    (fuel : ℕ) (b : Bool) (td : NFL.TeamsData)
    (hf : (pre ++ (NFL.writeGamesW none games ++ tr)).length ≤ fuel) (t' : String) :
    (NFL.headerProj
        (NFL.readLoop fuel (pre ++ (NFL.writeGamesW none games ++ tr)) b td)).lookup t'
      = (NFL.specFold (NFL.headerProj td) games).lookup t' := by
  simp only [List.length_append] at hf
  rw [readLoop_skipAll hpre fuel (NFL.writeGamesW none games ++ tr) b td
    (by simp only [List.length_append]; omega)]
  obtain ⟨f', td', hle, heq, hlook⟩ := readLoop_writeGames games hwf hnt none tr
    (fuel - pre.length) b td (by simp only [List.length_append]; omega)
  rw [heq, readLoop_skipAll_nil htr f' b td' hle]
  exact hlook t'

/-- C2: COUNTEREXAMPLE to the claim as stated.  `write_to_file` writes a
tied completed game, but `read_nfl_data` creates `GameRecord`s only
under a strict score inequality, so re-parsing the written file yields
no records at all, while the claim expects the game to appear once in
each participating team's list with the written scores. -/
theorem c2_counterexample :
    NFL.read_nfl_data (some (NFL.write_to_file
      ([⟨chrs "wk1", ⟨chrs "aa", 20, none, {}⟩, ⟨chrs "bb", 20, none, {}⟩⟩] :
        List NFL.GameW) (chrs "t"))) = some [] ∧
    (NFL.specExpected
      ([⟨chrs "wk1", ⟨chrs "aa", 20, none, {}⟩, ⟨chrs "bb", 20, none, {}⟩⟩] :
        List NFL.GameW)).lookup "aa" =
      some [("bb", "away", (20 : ℤ), (20 : ℤ))] :=
  ⟨rfl, rfl⟩

/-- C2 (amended): for every list of completed, well-formed (marker-free
strings, stripped distinct non-empty team names), NON-TIED games, and a
marker-free timestamp, re-parsing the file written by `write_to_file`
with `read_nfl_data` reproduces for every team exactly the expected
chronological list of (opponent, location, score_for, score_against)
records of the written games.  Tied games are silently dropped by the
parser (see the counterexample), so the claim's universal statement is
corrected by the non-tie hypothesis. -/
theorem c2_round_trip (games : List NFL.GameW) (ts : Line)
    (hts : NFL.wfFree ts = true)
    (hwf : ∀ g ∈ games, NFL.wfGameW g = true)
    (hnt : ∀ g ∈ games, g.away_team.score ≠ g.home_team.score) :
    ∃ td, NFL.read_nfl_data (some (NFL.write_to_file games ts)) = some td ∧
      ∀ t', (NFL.headerProj td).lookup t' = (NFL.specExpected games).lookup t' := by
  have hhdr : '@' ∉ chrs "NFL Game Data - Last Updated: " ++ ts ∧
      '_' ∉ chrs "NFL Game Data - Last Updated: " ++ ts :=
    ⟨not_mem_append2 (by decide) (wfFree_no hts).1,
     not_mem_append2 (by decide) (wfFree_no hts).2.1⟩
  cases games with
  | nil =>
    refine ⟨NFL.readLoop (NFL.write_to_file [] ts).length (NFL.write_to_file [] ts)
      false [], rfl, ?_⟩
    intro t'
    have hlines : NFL.write_to_file [] ts =
        [chrs "NFL Game Data - Last Updated: " ++ ts, NFL.eqLine, ([] : Line),
         chrs "No game data available."] := rfl
    have hcln : ∀ L ∈ [chrs "NFL Game Data - Last Updated: " ++ ts, NFL.eqLine,
        ([] : Line), chrs "No game data available."], '@' ∉ L ∧ '_' ∉ L := by
      intro L hL
      simp only [List.mem_cons, List.not_mem_nil, or_false] at hL
      rcases hL with rfl | rfl | rfl | rfl
      · exact hhdr
      · exact eqLine_clean
      · exact ⟨by simp, by simp⟩
      · exact ⟨by decide, by decide⟩
    rw [hlines, readLoop_skipAll_nil hcln _ false [] le_rfl]
    rfl
  | cons g gs =>
    have hnt' : ∀ x ∈ g :: gs, (x.away_team.score : ℤ) ≠ (x.home_team.score : ℤ) :=
      fun x hx h => hnt x hx (by exact_mod_cast h)
    refine ⟨NFL.readLoop (NFL.write_to_file (g :: gs) ts).length
      (NFL.write_to_file (g :: gs) ts) false [], rfl, ?_⟩
    intro t'
    have hlines : NFL.write_to_file (g :: gs) ts =
        [chrs "NFL Game Data - Last Updated: " ++ ts, NFL.eqLine, ([] : Line)] ++
        (NFL.writeGamesW none (g :: gs) ++
          [[], NFL.eqLine, chrs "Total games recorded: " ++ natToChars (g :: gs).length]) :=
      rfl
    have hpre : ∀ L ∈ [chrs "NFL Game Data - Last Updated: " ++ ts, NFL.eqLine,
        ([] : Line)], '@' ∉ L ∧ '_' ∉ L := by
      intro L hL
      simp only [List.mem_cons, List.not_mem_nil, or_false] at hL
      rcases hL with rfl | rfl | rfl
      · exact hhdr
      · exact eqLine_clean
      · exact ⟨by simp, by simp⟩
    have htrail : ∀ L ∈ [([] : Line), NFL.eqLine,
        chrs "Total games recorded: " ++ natToChars (g :: gs).length],
        '@' ∉ L ∧ '_' ∉ L := by
      intro L hL
      simp only [List.mem_cons, List.not_mem_nil, or_false] at hL
      rcases hL with rfl | rfl | rfl
      · exact ⟨by simp, by simp⟩
      · exact eqLine_clean
      · exact ⟨not_mem_append2 (by decide) (natToChars_clean _).1,
          not_mem_append2 (by decide) (natToChars_clean _).2⟩
    rw [hlines]
    exact readLoop_full _ _ hpre htrail (g :: gs) hwf hnt' _ false [] le_rfl t'

/-- Witness for C2 at a concrete non-tied well-formed game. -/
theorem c2_round_trip_witness :
    NFL.wfFree (chrs "t") = true ∧
    (∀ g ∈ ([⟨chrs "wk1", ⟨chrs "aa", 3, none, {}⟩, ⟨chrs "bb", 2, none, {}⟩⟩] :
        List NFL.GameW), NFL.wfGameW g = true) ∧
    (∀ g ∈ ([⟨chrs "wk1", ⟨chrs "aa", 3, none, {}⟩, ⟨chrs "bb", 2, none, {}⟩⟩] :
        List NFL.GameW), g.away_team.score ≠ g.home_team.score) ∧
    (∃ td, NFL.read_nfl_data (some (NFL.write_to_file
        ([⟨chrs "wk1", ⟨chrs "aa", 3, none, {}⟩, ⟨chrs "bb", 2, none, {}⟩⟩] :
          List NFL.GameW) (chrs "t"))) = some td ∧
      ∀ t', (NFL.headerProj td).lookup t' =
        (NFL.specExpected
          ([⟨chrs "wk1", ⟨chrs "aa", 3, none, {}⟩, ⟨chrs "bb", 2, none, {}⟩⟩] :
            List NFL.GameW)).lookup t') :=
  ⟨by decide, by decide, by decide,
   c2_round_trip _ _ (by decide) (by decide) (by decide)⟩


/-- C5: with `is_neutral = True` the prediction is symmetric under
swapping the home/away labels: the swapped call produces the same
point pair with the components exchanged, and it succeeds, fails, or
returns `None` in exactly the same cases (errors compared via
`toOption`, since the two runs raise at corresponding points). -/
theorem c5_neutral_symmetry (home_team away_team : String)
    (teams_data : Option NFL.TeamsData) (injury_data : Option NFL.InjuryData) :
    ((NFL.advanced_prediction home_team away_team teams_data true injury_data).toOption).map
        (Option.map (fun r => (r.home_points, r.away_points))) =
      ((NFL.advanced_prediction away_team home_team teams_data true injury_data).toOption).map
        (Option.map (fun r => (r.away_points, r.home_points))) := by
  cases teams_data with
  | none => rfl
  | some td =>
    cases hlh : td.lookup home_team <;> cases hla : td.lookup away_team <;>
      simp only [NFL.advanced_prediction, hlh, hla, except_toOption_ok,
        Option.map_some', Option.map_none']
    cases h1 : NFL.calculate_team_averages home_team td with
    | error e1 =>
      cases h2 : NFL.calculate_team_averages away_team td <;>
        simp [h1, h2, except_bind_ok, except_bind_error,
          except_toOption_ok, except_toOption_error]
    | ok v1 =>
      cases h2 : NFL.calculate_team_averages away_team td with
      | error e2 =>
        simp [h1, h2, except_bind_ok, except_bind_error,
          except_toOption_ok, except_toOption_error]
      | ok v2 =>
        simp only [h1, h2, except_bind_ok]
        cases v1 with
        | none =>
          cases v2 <;>
            simp [except_bind_ok, except_toOption_pure]
        | some avgH =>
          cases v2 with
          | none =>
            simp [except_bind_ok, except_toOption_pure]
          | some avgA =>
            simp only [toOption_bind, except_toOption_pure]
            rw [option_bind_comm
              ((NFL.displaySide away_team td _).toOption)
              ((NFL.displaySide home_team td _).toOption)]
            apply map_bind_congr
            intro hside
            apply map_bind_congr
            intro aside
            rw [option_bind_comm
              ((NFL.find_similar_matchup_performance away_team _ td _).toOption)
              ((NFL.find_similar_matchup_performance home_team _ td _).toOption)]
            apply map_bind_congr
            intro hsim
            apply map_bind_congr
            intro asim
            simp only [Option.map_some']
            rw [matchupScore_neutral_swap]
            simp [Prod.swap]

end SportsPredictor
